import Mathlib

/-!
Firmware core of x-input-guitar: configuration store, mode arbitration, input
sampling and report encoding.

A shallow embedding of the firmware sources `config.c`, `config_storage.c`,
`archive/experimental_builds/main_smart_unified.cpp`,
`archive/unused_interfaces/usb_mode_storage.c`, `main.cpp`
(`read_guitar_buttons` and the send path of `main`),
`archive/unused_interfaces/hid_interface.c` (`hid_send_report`) and
`archive/experimental_builds/main_dual_hid.cpp` and `main_dual_xinput.cpp`
(`read_inputs`, `calculate_hat_value`) and
`archive/experimental_builds/main_unified.cpp` and `main_hid.cpp` (the tilt
debounce of `read_guitar_buttons`), followed by theorems about them.

Conventions of the embedding:
* a C string is the list of its characters up to (not including) the
  terminating NUL; `char` values are `Char`, their byte value is `Char.toNat`;
* `uint32_t`, `uint8_t` and `int` values are natural numbers or integers, with
  the wrap or saturation written out where the source can reach it;
* `float led_brightness` is carried as a rational number (the order tests of the
  source are exact there; `%.2f` and `atof` are modelled on decimals only);
* a `const char*` is a `Ptr`: `NULL`, a string literal, or one of the static
  buffers of `config_parse_json`;
* `printf` logging is dropped;
* GPIO levels, ADC readings and the microsecond counter are arguments (`Env`);
  conversions between C integer types are the functions of `CArith`;
* `xinput_report_t` is packed and the target is little-endian.
-/

namespace Libc

/-- A C string: the characters before the terminating NUL. -/
abbrev cstring := List Char

/-- `starts_with lit s` is `strncmp(s, lit, strlen(lit)) == 0`: the string `s`
starts with `lit`. -/
def starts_with : cstring → cstring → Bool
  | [], _ => true
  | _ :: _, [] => false
  | a :: as, b :: bs => a == b && starts_with as bs

/-- `strstr needle hay` is `strstr(hay, needle)`: the suffix of `hay` at the first
occurrence of `needle`, `none` for `NULL`. -/
def strstr (needle : cstring) : cstring → Option cstring
  | [] => if needle.isEmpty then some [] else none
  | c :: cs => if starts_with needle (c :: cs) then some (c :: cs) else strstr needle cs

/-- `isspace` in the C locale. -/
def isspace (c : Char) : Bool :=
  c == ' ' || c == '\t' || c == '\n' || c == '\x0b' || c == '\x0c' || c == '\r'

/-- `isdigit`. -/
def isdigit (c : Char) : Bool := decide (48 ≤ c.toNat) && decide (c.toNat ≤ 57)

/-- Value of a run of decimal digits at the head of the string, with accumulator. -/
def digits_value : cstring → Nat → Nat
  | [], acc => acc
  | c :: cs, acc => if isdigit c then digits_value cs (acc * 10 + (c.toNat - 48)) else acc

/-- `INT_MAX` of the 32-bit target. -/
def INT_MAX : Int := 2147483647

/-- `INT_MIN` of the 32-bit target. -/
def INT_MIN : Int := -2147483648

/-- Saturation of `strtol` on a 32-bit `long`. -/
def clamp_int (v : Int) : Int := if v > INT_MAX then INT_MAX else if v < INT_MIN then INT_MIN else v

/-- `atoi`: leading white space, an optional sign, then decimal digits; 0 when
there is no digit. Out-of-range values saturate as `strtol` does (the C standard
leaves them undefined). -/
def atoi (s : cstring) : Int :=
  match s.dropWhile isspace with
  | '-' :: t => clamp_int (-(digits_value t 0 : Int))
  | '+' :: t => clamp_int (digits_value t 0 : Int)
  | t => clamp_int (digits_value t 0 : Int)

/-- The digit character of `d < 10`. -/
def digit_char (d : Nat) : Char := Char.ofNat (48 + d)

/-- Decimal digits of `n` in front of `acc`, most significant first. -/
def fmt_u_aux : Nat → Nat → cstring → cstring
  | 0, _, acc => acc
  | fuel + 1, n, acc =>
    if n < 10 then digit_char n :: acc
    else fmt_u_aux fuel (n / 10) (digit_char (n % 10) :: acc)

/-- `printf` conversions `%d` (on a non-negative argument) and `%lu`. -/
def fmt_u (n : Nat) : cstring := fmt_u_aux (n + 1) n []

/-- Round `n / d` to the nearest integer, ties to even. -/
def round_half_even (n d : Nat) : Nat :=
  let f := n / d
  let r := n % d
  if 2 * r < d then f else if d < 2 * r then f + 1 else if f % 2 = 0 then f else f + 1

/-- `printf` conversion `%.2f` on a (rational) value: sign, integer part, point,
two decimals. -/
def fmt_f2 (q : ℚ) : cstring :=
  let k := round_half_even (q.num.natAbs * 100) q.den
  (if q < 0 then ['-'] else []) ++ fmt_u (k / 100) ++ ['.', digit_char (k / 10 % 10), digit_char (k % 10)]

/-- Decimal exponent part of a floating literal: `e`, optional sign, digits. -/
def atof_exponent (s : cstring) : ℚ :=
  match s with
  | c :: t =>
    if c == 'e' || c == 'E' then
      match t with
      | '-' :: u => if (u.head?.map isdigit).getD false then 1 / (10 : ℚ) ^ digits_value u 0 else 1
      | '+' :: u => if (u.head?.map isdigit).getD false then (10 : ℚ) ^ digits_value u 0 else 1
      | u => if (u.head?.map isdigit).getD false then (10 : ℚ) ^ digits_value u 0 else 1
    else 1
  | [] => 1

/-- Unsigned decimal floating literal: digits, optional point and digits,
optional exponent; 0 when there is no digit. -/
def atof_unsigned (s : cstring) : ℚ :=
  let ip := s.takeWhile isdigit
  let r := s.dropWhile isdigit
  match r with
  | '.' :: t =>
    let fp := t.takeWhile isdigit
    if ip.isEmpty && fp.isEmpty then 0
    else ((digits_value ip 0 : ℚ) + (digits_value fp 0 : ℚ) / (10 : ℚ) ^ fp.length)
      * atof_exponent (t.dropWhile isdigit)
  | _ => if ip.isEmpty then 0 else (digits_value ip 0 : ℚ) * atof_exponent r

/-- `atof` on decimal input: leading white space, optional sign, decimal
literal. The `inf`, `nan` and hexadecimal forms have no rational value and
read as 0 here. -/
def atof (s : cstring) : ℚ :=
  match s.dropWhile isspace with
  | '-' :: t => - atof_unsigned t
  | '+' :: t => atof_unsigned t
  | t => atof_unsigned t

end Libc

namespace ConfigStorage

open Libc

/-- The table `crc32_table` of `config_storage.c`. -/
def crc32_table : List Nat :=
  [  0x00000000, 0x04c11db7, 0x09823b6e, 0x0d4326d9, 0x130476dc, 0x17c56b6b,
   0x1a864db2, 0x1e475005, 0x2608edb8, 0x22c9f00f, 0x2f8ad6d6, 0x2b4bcb61,
   0x350c9b64, 0x31cd86d3, 0x3c8ea00a, 0x384fbdbd, 0x4c11db70, 0x48d0c6c7,
   0x4593e01e, 0x4152fda9, 0x5f15adac, 0x5bd4b01b, 0x569796c2, 0x52568b75,
   0x6a1936c8, 0x6ed82b7f, 0x639b0da6, 0x675a1011, 0x791d4014, 0x7ddc5da3,
   0x709f7b7a, 0x745e66cd, 0x9823b6e0, 0x9ce2ab57, 0x91a18d8e, 0x95609039,
   0x8b27c03c, 0x8fe6dd8b, 0x82a5fb52, 0x8664e6e5, 0xbe2b5b58, 0xbaea46ef,
   0xb7a96036, 0xb3687d81, 0xad2f2d84, 0xa9ee3033, 0xa4ad16ea, 0xa06c0b5d,
   0xd4326d90, 0xd0f37027, 0xddb056fe, 0xd9714b49, 0xc7361b4c, 0xc3f706fb,
   0xceb42022, 0xca753d95, 0xf23a8028, 0xf6fb9d9f, 0xfbb8bb46, 0xff79a6f1,
   0xe13ef6f4, 0xe5ffeb43, 0xe8bccd9a, 0xec7dd02d, 0x34867077, 0x30476dc0,
   0x3d044b19, 0x39c556ae, 0x278206ab, 0x23431b1c, 0x2e003dc5, 0x2ac12072,
   0x128e9dcf, 0x164f8078, 0x1b0ca6a1, 0x1fcdbb16, 0x018aeb13, 0x054bf6a4,
   0x0808d07d, 0x0cc9cdca, 0x7897ab07, 0x7c56b6b0, 0x71159069, 0x75d48dde,
   0x6b93dddb, 0x6f52c06c, 0x6211e6b5, 0x66d0fb02, 0x5e9f46bf, 0x5a5e5b08,
   0x571d7dd1, 0x53dc6066, 0x4d9b3063, 0x495a2dd4, 0x44190b0d, 0x40d816ba,
   0xaca5c697, 0xa864db20, 0xa527fdf9, 0xa1e6e04e, 0xbfa1b04b, 0xbb60adfc,
   0xb6238b25, 0xb2e29692, 0x8aad2b2f, 0x8e6c3698, 0x832f1041, 0x87ee0df6,
   0x99a95df3, 0x9d684044, 0x902b669d, 0x94ea7b2a, 0xe0b41de7, 0xe4750050,
   0xe9362689, 0xedf73b3e, 0xf3b06b3b, 0xf771768c, 0xfa325055, 0xfef34de2,
   0xc6bcf05f, 0xc27dede8, 0xcf3ecb31, 0xcbffd686, 0xd5b88683, 0xd1799b34,
   0xdc3abded, 0xd8fba05a, 0x690ce0ee, 0x6dcdfd59, 0x608edb80, 0x644fc637,
   0x7a089632, 0x7ec98b85, 0x738aad5c, 0x774bb0eb, 0x4f040d56, 0x4bc510e1,
   0x46863638, 0x42472b8f, 0x5c007b8a, 0x58c1663d, 0x558240e4, 0x51435d53,
   0x251d3b9e, 0x21dc2629, 0x2c9f00f0, 0x285e1d47, 0x36194d42, 0x32d850f5,
   0x3f9b762c, 0x3b5a6b9b, 0x0315d626, 0x07d4cb91, 0x0a97ed48, 0x0e56f0ff,
   0x1011a0fa, 0x14d0bd4d, 0x19939b94, 0x1d528623, 0xf12f560e, 0xf5ee4bb9,
   0xf8ad6d60, 0xfc6c70d7, 0xe22b20d2, 0xe6ea3d65, 0xeba91bbc, 0xef68060b,
   0xd727bbb6, 0xd3e6a601, 0xdea580d8, 0xda649d6f, 0xc423cd6a, 0xc0e2d0dd,
   0xcda1f604, 0xc960ebb3, 0xbd3e8d7e, 0xb9ff90c9, 0xb4bcb610, 0xb07daba7,
   0xae3afba2, 0xaafbe615, 0xa7b8c0cc, 0xa379dd7b, 0x9b3660c6, 0x9ff77d71,
   0x92b45ba8, 0x9675461f, 0x8832161a, 0x8cf30bad, 0x81b02d74, 0x857130c3,
   0x5d8a9099, 0x594b8d2e, 0x5408abf7, 0x50c9b640, 0x4e8ee645, 0x4a4ffbf2,
   0x470cdd2b, 0x43cdc09c, 0x7b827d21, 0x7f436096, 0x7200464f, 0x76c15bf8,
   0x68860bfd, 0x6c47164a, 0x61043093, 0x65c52d24, 0x119b4be9, 0x155a565e,
   0x18197087, 0x1cd86d30, 0x029f3d35, 0x065e2082, 0x0b1d065b, 0x0fdc1bec,
   0x3793a651, 0x3352bbe6, 0x3e119d3f, 0x3ad08088, 0x2497d08d, 0x2056cd3a,
   0x2d15ebe3, 0x29d4f654, 0xc5a92679, 0xc1683bce, 0xcc2b1d17, 0xc8ea00a0,
   0xd6ad50a5, 0xd26c4d12, 0xdf2f6bcb, 0xdbee767c, 0xe3a1cbc1, 0xe760d676,
   0xea23f0af, 0xeee2ed18, 0xf0a5bd1d, 0xf464a0aa, 0xf9278673, 0xfde69bc4,
   0x89b8fd09, 0x8d79e0be, 0x803ac667, 0x84fbdbd0, 0x9abc8bd5, 0x9e7d9662,
   0x933eb0bb, 0x97ffad0c, 0xafb010b1, 0xab710d06, 0xa6322bdf, 0xa2f33668,
   0xbcb4666d, 0xb8757bda, 0xb5365d03, 0xb1f740b4]

/-- One round of the loop of `config_storage_calculate_crc32`:
`index = (crc ^ bytes[i]) & 0xFF; crc = (crc >> 8) ^ crc32_table[index]`. -/
def crc32_step (crc : Nat) (byte : Char) : Nat :=
  let index := (crc ^^^ byte.toNat) &&& 0xFF
  (crc >>> 8) ^^^ crc32_table.getD index 0

/-- The C function `config_storage_calculate_crc32(data, size)`. -/
def config_storage_calculate_crc32 (data : List Char) (size : Nat) : Nat :=
  ((data.take size).foldl crc32_step 0xFFFFFFFF) ^^^ 0xFFFFFFFF

/-- The constant `CONFIG_MAGIC_HEADER`. -/
def CONFIG_MAGIC_HEADER : Nat := 0x42474743

/-- The constant `CONFIG_JSON_MAX_SIZE`. -/
def CONFIG_JSON_MAX_SIZE : Nat := 2048

/-- The constant `CONFIG_VERSION`. -/
def CONFIG_VERSION : Nat := 1

/-- The struct `config_header_t` (the reserved bytes are never read). -/
structure config_header_t where
  magic : Nat
  version : Nat
  json_size : Nat
  checksum : Nat
  deriving DecidableEq, Repr

/-- The struct `config_storage_t`: what the configuration sector of the flash
holds; `json_data` is the array of `CONFIG_JSON_MAX_SIZE` bytes. -/
structure config_storage_t where
  header : config_header_t
  json_data : List Char
  deriving DecidableEq, Repr

/-- The C function `config_storage_is_valid`, on the contents of the sector. -/
def config_storage_is_valid (flash_config : config_storage_t) : Bool :=
  if flash_config.header.magic ≠ CONFIG_MAGIC_HEADER then false
  else if flash_config.header.version ≠ CONFIG_VERSION then false
  else if flash_config.header.json_size = 0 ∨ flash_config.header.json_size > CONFIG_JSON_MAX_SIZE then false
  else if config_storage_calculate_crc32 flash_config.json_data flash_config.header.json_size
      ≠ flash_config.header.checksum then false
  else true

/-- The static buffers of `config_parse_json` that the string fields of a parsed
`config_t` point into. -/
inductive Buf where
  | device_name_buf
  | up_buf | down_buf | left_buf | right_buf
  | green_fret_buf | red_fret_buf | yellow_fret_buf | blue_fret_buf | orange_fret_buf
  | strum_up_buf | strum_down_buf | tilt_buf | select_buf | start_buf | guide_buf
  | whammy_buf | neopixel_buf | joystick_x_buf | joystick_y_buf
  | hat_mode_buf
  | version_buf | description_buf | lastUpdated_buf
  | led_colors (i : Nat)
  | released_colors (i : Nat)
  deriving DecidableEq, Repr

/-- A `const char*` value of a `config_t` field. -/
inductive Ptr where
  | null
  | lit (s : cstring)
  | buf (b : Buf)
  deriving DecidableEq, Repr

/-- Contents of the static buffers, each as the C string it holds. -/
abbrev Mem := Buf → cstring

/-- The static buffers at program start (zero-initialised). -/
def Mem.zero : Mem := fun _ => []

/-- Store a C string into one static buffer. -/
def Mem.write (m : Mem) (b : Buf) (s : cstring) : Mem := fun x => if x = b then s else m x

/-- The C string a pointer designates. Reading through `NULL` is undefined in C;
it reads as the empty string here and is guarded wherever the source guards it. -/
def Ptr.read (m : Mem) : Ptr → cstring
  | Ptr.null => []
  | Ptr.lit s => s
  | Ptr.buf b => m b

/-- The `metadata` member of `config_t`. -/
structure metadata_t where
  version : Ptr
  description : Ptr
  lastUpdated : Ptr
  deriving DecidableEq, Repr

/-- The struct `config_t` of `config.h`. -/
structure config_t where
  metadata : metadata_t
  device_name : Ptr
  UP : Ptr
  DOWN : Ptr
  LEFT : Ptr
  RIGHT : Ptr
  GREEN_FRET : Ptr
  RED_FRET : Ptr
  YELLOW_FRET : Ptr
  BLUE_FRET : Ptr
  ORANGE_FRET : Ptr
  STRUM_UP : Ptr
  STRUM_DOWN : Ptr
  TILT : Ptr
  SELECT : Ptr
  START : Ptr
  GUIDE : Ptr
  WHAMMY : Ptr
  neopixel_pin : Ptr
  joystick_x_pin : Ptr
  joystick_y_pin : Ptr
  GREEN_FRET_led : Nat
  RED_FRET_led : Nat
  YELLOW_FRET_led : Nat
  BLUE_FRET_led : Nat
  ORANGE_FRET_led : Nat
  STRUM_UP_led : Nat
  STRUM_DOWN_led : Nat
  hat_mode : Ptr
  led_brightness : ℚ
  whammy_min : Nat
  whammy_max : Nat
  whammy_reverse : Bool
  tilt_wave_enabled : Bool
  led_color : List Ptr
  released_color : List Ptr

/-- The constant `default_config_json` of `config_storage.c`. -/
def default_config_json : cstring :=
  ("\x7b\n" ++
  "  \"version\": \"4.0.0\",\n" ++
  "  \"description\": \"BumbleGum Guitar Controller Configuration\",\n" ++
  "  \"lastUpdated\": \"2025-08-21\",\n" ++
  "  \"device_name\": \"Guitar Controller\",\n" ++
  "  \"UP\": \"GP2\",\n" ++
  "  \"DOWN\": \"GP3\",\n" ++
  "  \"LEFT\": \"GP4\",\n" ++
  "  \"RIGHT\": \"GP5\",\n" ++
  "  \"GREEN_FRET\": \"GP10\",\n" ++
  "  \"RED_FRET\": \"GP11\",\n" ++
  "  \"YELLOW_FRET\": \"GP12\",\n" ++
  "  \"BLUE_FRET\": \"GP13\",\n" ++
  "  \"ORANGE_FRET\": \"GP14\",\n" ++
  "  \"STRUM_UP\": \"GP7\",\n" ++
  "  \"STRUM_DOWN\": \"GP8\",\n" ++
  "  \"TILT\": \"GP9\",\n" ++
  "  \"SELECT\": \"GP0\",\n" ++
  "  \"START\": \"GP1\",\n" ++
  "  \"GUIDE\": \"GP6\",\n" ++
  "  \"WHAMMY\": \"GP27\",\n" ++
  "  \"neopixel_pin\": \"GP23\",\n" ++
  "  \"joystick_x_pin\": \"GP28\",\n" ++
  "  \"joystick_y_pin\": \"GP29\",\n" ++
  "  \"GREEN_FRET_led\": 6,\n" ++
  "  \"RED_FRET_led\": 5,\n" ++
  "  \"YELLOW_FRET_led\": 4,\n" ++
  "  \"BLUE_FRET_led\": 3,\n" ++
  "  \"ORANGE_FRET_led\": 2,\n" ++
  "  \"STRUM_UP_led\": 0,\n" ++
  "  \"STRUM_DOWN_led\": 1,\n" ++
  "  \"hat_mode\": \"dpad\",\n" ++
  "  \"led_brightness\": 1.0,\n" ++
  "  \"whammy_min\": 500,\n" ++
  "  \"whammy_max\": 65000,\n" ++
  "  \"whammy_reverse\": false,\n" ++
  "  \"tilt_wave_enabled\": true,\n" ++
  "  \"led_color\": [\n" ++
  "    \"#FFFFFF\", \"#FFFFFF\", \"#B33E00\", \"#0000FF\",\n" ++
  "    \"#FFFF00\", \"#FF0000\", \"#00FF00\"\n" ++
  "  ],\n" ++
  "  \"released_color\": [\n" ++
  "    \"#454545\", \"#454545\", \"#521C00\", \"#000091\",\n" ++
  "    \"#696B00\", \"#8C0009\", \"#003D00\"\n" ++
  "  ]\n" ++
  "\x7d").toList

/-- The white-space loop shared by the four value extractors:
`while (*pos == 0x20 || *pos == TAB || *pos == LF) pos++`. -/
def skip_blanks (pos : cstring) : cstring :=
  pos.dropWhile (fun c => c == ' ' || c == '\t' || c == '\n')

/-- The search string the extractors build with `snprintf`: the key between
double quotes, followed by a colon (every key used fits the 64-byte buffer). -/
def search_str (key : cstring) : cstring := '"' :: (key ++ ['"', ':'])

/-- The head shared by the four value extractors: `strstr` for the quoted key
and colon, step over it, skip blanks. `none` is the `!pos` early return. -/
def find_value (json key : cstring) : Option cstring :=
  match strstr (search_str key) json with
  | none => none
  | some pos => some (skip_blanks (pos.drop (search_str key).length))

/-- The nested helper `extract_string_value`: `none` is the `NULL` return (the
buffer is left untouched), `some s` is the C string left in the buffer. -/
def extract_string_value (json key : cstring) (buffer_size : Nat) : Option cstring :=
  match find_value json key with
  | none => none
  | some pos =>
    match pos with
    | '"' :: rest =>
      if rest.contains '"' then
        let len := (rest.takeWhile (fun c => c != '"')).length
        let len := if len ≥ buffer_size then buffer_size - 1 else len
        some (rest.take len)
      else none
    | _ => none

/-- The nested helper `extract_int_value`. -/
def extract_int_value (json key : cstring) : Int :=
  match find_value json key with
  | none => -1
  | some pos => atoi pos

/-- The nested helper `extract_float_value`. -/
def extract_float_value (json key : cstring) : ℚ :=
  match find_value json key with
  | none => -1
  | some pos => atof pos

/-- The nested helper `extract_bool_value`. -/
def extract_bool_value (json key : cstring) (default_value : Bool) : Bool :=
  match find_value json key with
  | none => default_value
  | some pos =>
    if starts_with "true".toList pos then true
    else if starts_with "false".toList pos then false
    else default_value

/-- One string member of `config_parse_json`:
`config->F = extract_string_value(json, key, buf, sizeof(buf)) ? buf : dflt`. -/
def parse_string (json : cstring) (key : String) (b : Buf) (size : Nat) (dflt : String)
    (m : Mem) : Mem × Ptr :=
  match extract_string_value json key.toList size with
  | some s => (m.write b s, Ptr.buf b)
  | none => (m, Ptr.lit dflt.toList)

/-- One LED member of `config_parse_json`:
`val = extract_int_value(json, key); config->F = (val >= 0) ? (uint8_t)val : dflt`. -/
def parse_led (json : cstring) (key : String) (dflt : Nat) : Nat :=
  let val := extract_int_value json key.toList
  if val ≥ 0 then val.toNat % 256 else dflt

/-- One whammy bound of `config_parse_json`:
`val = extract_int_value(json, key); config->F = (val >= 0) ? (uint32_t)val : dflt`. -/
def parse_u32 (json : cstring) (key : String) (dflt : Nat) : Nat :=
  let val := extract_int_value json key.toList
  if val ≥ 0 then val.toNat % 2 ^ 32 else dflt

/-- The local table `default_led_colors` of `config_parse_json`. -/
def default_led_colors : List String :=
  ["#FFFFFF", "#FFFFFF", "#B33E00", "#0000FF", "#FFFF00", "#FF0000", "#00FF00"]

/-- The local table `default_released_colors` of `config_parse_json`. -/
def default_released_colors : List String :=
  ["#454545", "#454545", "#521C00", "#000091", "#696B00", "#8C0009", "#003D00"]

/-- The final loop of `config_parse_json`: both colour buffers of every index
receive the built-in defaults (`strncpy` of at most 7 characters). -/
def store_colors (m : Mem) : Mem :=
  (List.range 7).foldl (fun acc i =>
    (acc.write (Buf.led_colors i) (((default_led_colors.getD i "").toList).take 7)).write
      (Buf.released_colors i) (((default_released_colors.getD i "").toList).take 7)) m

/-- The C function `config_parse_json(json, config)`: the static buffers after
the call and the `config_t` written through `config` (the function always
returns `true`). -/
def config_parse_json (json : cstring) (m : Mem) : Mem × config_t :=
  let version := parse_string json "version" Buf.version_buf 16 "4.0.0" m
  let description := parse_string json "description" Buf.description_buf 64
    "BumbleGum Guitar Controller Configuration" version.1
  let lastUpdated := parse_string json "lastUpdated" Buf.lastUpdated_buf 16 "2025-08-21" description.1
  let device_name := parse_string json "device_name" Buf.device_name_buf 64 "Guitar Controller" lastUpdated.1
  let up := parse_string json "UP" Buf.up_buf 8 "GP2" device_name.1
  let down := parse_string json "DOWN" Buf.down_buf 8 "GP3" up.1
  let left := parse_string json "LEFT" Buf.left_buf 8 "GP4" down.1
  let right := parse_string json "RIGHT" Buf.right_buf 8 "GP5" left.1
  let green_fret := parse_string json "GREEN_FRET" Buf.green_fret_buf 8 "GP10" right.1
  let red_fret := parse_string json "RED_FRET" Buf.red_fret_buf 8 "GP11" green_fret.1
  let yellow_fret := parse_string json "YELLOW_FRET" Buf.yellow_fret_buf 8 "GP12" red_fret.1
  let blue_fret := parse_string json "BLUE_FRET" Buf.blue_fret_buf 8 "GP13" yellow_fret.1
  let orange_fret := parse_string json "ORANGE_FRET" Buf.orange_fret_buf 8 "GP14" blue_fret.1
  let strum_up := parse_string json "STRUM_UP" Buf.strum_up_buf 8 "GP7" orange_fret.1
  let strum_down := parse_string json "STRUM_DOWN" Buf.strum_down_buf 8 "GP8" strum_up.1
  let tilt := parse_string json "TILT" Buf.tilt_buf 8 "GP9" strum_down.1
  let select := parse_string json "SELECT" Buf.select_buf 8 "GP0" tilt.1
  let start := parse_string json "START" Buf.start_buf 8 "GP1" select.1
  let guide := parse_string json "GUIDE" Buf.guide_buf 8 "GP6" start.1
  let whammy := parse_string json "WHAMMY" Buf.whammy_buf 8 "GP27" guide.1
  let neopixel := parse_string json "neopixel_pin" Buf.neopixel_buf 8 "GP23" whammy.1
  let joystick_x := parse_string json "joystick_x_pin" Buf.joystick_x_buf 8 "GP28" neopixel.1
  let joystick_y := parse_string json "joystick_y_pin" Buf.joystick_y_buf 8 "GP29" joystick_x.1
  let hat_mode := parse_string json "hat_mode" Buf.hat_mode_buf 16 "dpad" joystick_y.1
  let brightness := extract_float_value json "led_brightness".toList
  (store_colors hat_mode.1,
   { metadata := { version := version.2, description := description.2, lastUpdated := lastUpdated.2 }
     device_name := device_name.2
     UP := up.2
     DOWN := down.2
     LEFT := left.2
     RIGHT := right.2
     GREEN_FRET := green_fret.2
     RED_FRET := red_fret.2
     YELLOW_FRET := yellow_fret.2
     BLUE_FRET := blue_fret.2
     ORANGE_FRET := orange_fret.2
     STRUM_UP := strum_up.2
     STRUM_DOWN := strum_down.2
     TILT := tilt.2
     SELECT := select.2
     START := start.2
     GUIDE := guide.2
     WHAMMY := whammy.2
     neopixel_pin := neopixel.2
     joystick_x_pin := joystick_x.2
     joystick_y_pin := joystick_y.2
     GREEN_FRET_led := parse_led json "GREEN_FRET_led" 6
     RED_FRET_led := parse_led json "RED_FRET_led" 5
     YELLOW_FRET_led := parse_led json "YELLOW_FRET_led" 4
     BLUE_FRET_led := parse_led json "BLUE_FRET_led" 3
     ORANGE_FRET_led := parse_led json "ORANGE_FRET_led" 2
     STRUM_UP_led := parse_led json "STRUM_UP_led" 0
     STRUM_DOWN_led := parse_led json "STRUM_DOWN_led" 1
     hat_mode := hat_mode.2
     led_brightness := if brightness ≥ 0 then brightness else 1
     whammy_min := parse_u32 json "whammy_min" 500
     whammy_max := parse_u32 json "whammy_max" 65000
     whammy_reverse := extract_bool_value json "whammy_reverse".toList false
     tilt_wave_enabled := extract_bool_value json "tilt_wave_enabled".toList true
     led_color := (List.range 7).map (fun i => Ptr.buf (Buf.led_colors i))
     released_color := (List.range 7).map (fun i => Ptr.buf (Buf.released_colors i)) })

/-- The text `snprintf` formats in `config_generate_json`: the format string of
the source, line by line, each conversion replaced by its argument. -/
def config_json_text (m : Mem) (config : config_t) : cstring :=
  "\x7b\n".toList ++
  "  \"version\": \"".toList ++ config.metadata.version.read m ++ "\",\n".toList ++
  "  \"description\": \"".toList ++ config.metadata.description.read m ++ "\",\n".toList ++
  "  \"lastUpdated\": \"".toList ++ config.metadata.lastUpdated.read m ++ "\",\n".toList ++
  "  \"device_name\": \"".toList ++ config.device_name.read m ++ "\",\n".toList ++
  "  \"UP\": \"".toList ++ config.UP.read m ++ "\",\n".toList ++
  "  \"DOWN\": \"".toList ++ config.DOWN.read m ++ "\",\n".toList ++
  "  \"LEFT\": \"".toList ++ config.LEFT.read m ++ "\",\n".toList ++
  "  \"RIGHT\": \"".toList ++ config.RIGHT.read m ++ "\",\n".toList ++
  "  \"GREEN_FRET\": \"".toList ++ config.GREEN_FRET.read m ++ "\",\n".toList ++
  "  \"RED_FRET\": \"".toList ++ config.RED_FRET.read m ++ "\",\n".toList ++
  "  \"YELLOW_FRET\": \"".toList ++ config.YELLOW_FRET.read m ++ "\",\n".toList ++
  "  \"BLUE_FRET\": \"".toList ++ config.BLUE_FRET.read m ++ "\",\n".toList ++
  "  \"ORANGE_FRET\": \"".toList ++ config.ORANGE_FRET.read m ++ "\",\n".toList ++
  "  \"STRUM_UP\": \"".toList ++ config.STRUM_UP.read m ++ "\",\n".toList ++
  "  \"STRUM_DOWN\": \"".toList ++ config.STRUM_DOWN.read m ++ "\",\n".toList ++
  "  \"TILT\": \"".toList ++ config.TILT.read m ++ "\",\n".toList ++
  "  \"SELECT\": \"".toList ++ config.SELECT.read m ++ "\",\n".toList ++
  "  \"START\": \"".toList ++ config.START.read m ++ "\",\n".toList ++
  "  \"GUIDE\": \"".toList ++ config.GUIDE.read m ++ "\",\n".toList ++
  "  \"WHAMMY\": \"".toList ++ config.WHAMMY.read m ++ "\",\n".toList ++
  "  \"neopixel_pin\": \"".toList ++ config.neopixel_pin.read m ++ "\",\n".toList ++
  "  \"joystick_x_pin\": \"".toList ++ config.joystick_x_pin.read m ++ "\",\n".toList ++
  "  \"joystick_y_pin\": \"".toList ++ config.joystick_y_pin.read m ++ "\",\n".toList ++
  "  \"GREEN_FRET_led\": ".toList ++ fmt_u config.GREEN_FRET_led ++ ",\n".toList ++
  "  \"RED_FRET_led\": ".toList ++ fmt_u config.RED_FRET_led ++ ",\n".toList ++
  "  \"YELLOW_FRET_led\": ".toList ++ fmt_u config.YELLOW_FRET_led ++ ",\n".toList ++
  "  \"BLUE_FRET_led\": ".toList ++ fmt_u config.BLUE_FRET_led ++ ",\n".toList ++
  "  \"ORANGE_FRET_led\": ".toList ++ fmt_u config.ORANGE_FRET_led ++ ",\n".toList ++
  "  \"STRUM_UP_led\": ".toList ++ fmt_u config.STRUM_UP_led ++ ",\n".toList ++
  "  \"STRUM_DOWN_led\": ".toList ++ fmt_u config.STRUM_DOWN_led ++ ",\n".toList ++
  "  \"hat_mode\": \"".toList ++ config.hat_mode.read m ++ "\",\n".toList ++
  "  \"led_brightness\": ".toList ++ fmt_f2 config.led_brightness ++ ",\n".toList ++
  "  \"whammy_min\": ".toList ++ fmt_u config.whammy_min ++ ",\n".toList ++
  "  \"whammy_max\": ".toList ++ fmt_u config.whammy_max ++ ",\n".toList ++
  "  \"whammy_reverse\": ".toList ++ (if config.whammy_reverse then "true" else "false").toList
    ++ ",\n".toList ++
  "  \"tilt_wave_enabled\": ".toList ++ (if config.tilt_wave_enabled then "true" else "false").toList
    ++ ",\n".toList ++
  "  \"led_color\": [\n".toList ++
  "    \"".toList ++ (config.led_color.getD 0 Ptr.null).read m ++
  "\", \"".toList ++ (config.led_color.getD 1 Ptr.null).read m ++
  "\", \"".toList ++ (config.led_color.getD 2 Ptr.null).read m ++
  "\", \"".toList ++ (config.led_color.getD 3 Ptr.null).read m ++
  "\", \"".toList ++ (config.led_color.getD 4 Ptr.null).read m ++
  "\", \"".toList ++ (config.led_color.getD 5 Ptr.null).read m ++
  "\", \"".toList ++ (config.led_color.getD 6 Ptr.null).read m ++ "\"\n".toList ++
  "  ],\n".toList ++
  "  \"released_color\": [\n".toList ++
  "    \"".toList ++ (config.released_color.getD 0 Ptr.null).read m ++
  "\", \"".toList ++ (config.released_color.getD 1 Ptr.null).read m ++
  "\", \"".toList ++ (config.released_color.getD 2 Ptr.null).read m ++
  "\", \"".toList ++ (config.released_color.getD 3 Ptr.null).read m ++
  "\", \"".toList ++ (config.released_color.getD 4 Ptr.null).read m ++
  "\", \"".toList ++ (config.released_color.getD 5 Ptr.null).read m ++
  "\", \"".toList ++ (config.released_color.getD 6 Ptr.null).read m ++ "\"\n".toList ++
  "  ]\n".toList ++
  "\x7d".toList

/-- The C function `config_generate_json(config, buffer, buffer_size)`: `some`
text when it returns `true` (`written > 0 && written < buffer_size`), `none`
when it returns `false`. -/
def config_generate_json (m : Mem) (config : config_t) (buffer_size : Nat) : Option cstring :=
  let written := (config_json_text m config).length
  if written > 0 ∧ written < buffer_size then some (config_json_text m config) else none

/-- What the sector reads after `flash_range_erase` and `flash_range_program`
were given an image: the behaviour of the flash device, a parameter. On a
device that works it is the identity. -/
abbrev FlashDevice := config_storage_t → config_storage_t

/-- The image `config_data` that `config_storage_save_to_flash` prepares in RAM:
zero-filled, header set, the text copied in by `memcpy`. -/
def flash_image (json_data : cstring) (json_size : Nat) : config_storage_t :=
  { header := { magic := CONFIG_MAGIC_HEADER
                version := CONFIG_VERSION
                json_size := json_size
                checksum := config_storage_calculate_crc32 json_data json_size }
    json_data := json_data.take json_size
      ++ List.replicate (CONFIG_JSON_MAX_SIZE - json_size) (Char.ofNat 0) }

/-- The C function `config_storage_save_to_flash(json_data, json_size)`: its
result and the sector afterwards. -/
def config_storage_save_to_flash (dev : FlashDevice) (json_data : cstring) (json_size : Nat)
    (flash : config_storage_t) : Bool × config_storage_t :=
  if json_size > CONFIG_JSON_MAX_SIZE then (false, flash)
  else
    let flash1 := dev (flash_image json_data json_size)
    if !config_storage_is_valid flash1 then (false, flash1) else (true, flash1)

/-- The C function `config_storage_init`: its result and the sector afterwards. -/
def config_storage_init (dev : FlashDevice) (flash : config_storage_t) : Bool × config_storage_t :=
  if config_storage_is_valid flash then (true, flash)
  else config_storage_save_to_flash dev default_config_json default_config_json.length flash

/-- The C function `config_storage_get_json(buffer, buffer_size, actual_size)`:
`none` when it returns `false`, else the C string left in `buffer` (the bytes
copied, read up to the first NUL). -/
def config_storage_get_json (flash_config : config_storage_t) (buffer_size : Nat) : Option cstring :=
  if !config_storage_is_valid flash_config then none
  else if buffer_size < flash_config.header.json_size + 1 then none
  else some ((flash_config.json_data.take flash_config.header.json_size).takeWhile
    (fun c => c != Char.ofNat 0))

/-- The C function `config_storage_load_from_flash(config)`: `none` when it
returns `false`, else the static buffers and the `config_t` after parsing. -/
def config_storage_load_from_flash (flash_config : config_storage_t) (m : Mem) :
    Option (Mem × config_t) :=
  match config_storage_get_json flash_config (CONFIG_JSON_MAX_SIZE + 1) with
  | none => none
  | some json_buffer => some (config_parse_json json_buffer m)

end ConfigStorage

namespace Config

open Libc ConfigStorage

/-- The constant `default_config` of `config.c`. -/
def default_config : config_t :=
  { metadata := { version := Ptr.lit "4.0.0".toList
                  description := Ptr.lit "BumbleGum Guitar Controller Configuration".toList
                  lastUpdated := Ptr.lit "2025-08-21".toList }
    device_name := Ptr.lit "Guitar Controller".toList
    UP := Ptr.lit "GP2".toList
    DOWN := Ptr.lit "GP3".toList
    LEFT := Ptr.lit "GP4".toList
    RIGHT := Ptr.lit "GP5".toList
    GREEN_FRET := Ptr.lit "GP10".toList
    GREEN_FRET_led := 6
    RED_FRET := Ptr.lit "GP11".toList
    RED_FRET_led := 5
    YELLOW_FRET := Ptr.lit "GP12".toList
    YELLOW_FRET_led := 4
    BLUE_FRET := Ptr.lit "GP13".toList
    BLUE_FRET_led := 3
    ORANGE_FRET := Ptr.lit "GP14".toList
    ORANGE_FRET_led := 2
    STRUM_UP := Ptr.lit "GP7".toList
    STRUM_UP_led := 0
    STRUM_DOWN := Ptr.lit "GP8".toList
    STRUM_DOWN_led := 1
    TILT := Ptr.lit "GP9".toList
    SELECT := Ptr.lit "GP0".toList
    START := Ptr.lit "GP1".toList
    GUIDE := Ptr.lit "GP6".toList
    WHAMMY := Ptr.lit "GP27".toList
    neopixel_pin := Ptr.lit "GP23".toList
    joystick_x_pin := Ptr.lit "GP28".toList
    joystick_y_pin := Ptr.lit "GP29".toList
    hat_mode := Ptr.lit "dpad".toList
    led_brightness := 1
    whammy_min := 500
    whammy_max := 65000
    whammy_reverse := false
    tilt_wave_enabled := true
    led_color := ["#FFFFFF", "#FFFFFF", "#B33E00", "#0000FF", "#FFFF00", "#FF0000", "#00FF00"].map
      (fun s => Ptr.lit s.toList)
    released_color := ["#888888", "#888888", "#884400", "#0000FF", "#AAAA00", "#AA0000", "#00AA00"].map
      (fun s => Ptr.lit s.toList) }

/-- The test `!p || strlen(p) == 0` of `config_validate`. -/
def missing (m : Mem) (p : Ptr) : Bool := p == Ptr.null || (p.read m).isEmpty

/-- The array `pins` of `config_validate`. -/
def pins (config : config_t) : List Ptr :=
  [config.UP, config.DOWN, config.LEFT, config.RIGHT,
   config.GREEN_FRET, config.RED_FRET, config.YELLOW_FRET,
   config.BLUE_FRET, config.ORANGE_FRET,
   config.STRUM_UP, config.STRUM_DOWN, config.TILT,
   config.SELECT, config.START, config.GUIDE,
   config.WHAMMY, config.neopixel_pin,
   config.joystick_x_pin, config.joystick_y_pin]

/-- Body of the pin loop of `config_validate`: `false` where the source returns
`false` (`!pins[i] || strncmp(pins[i], GP, 2) != 0`, then `atoi(pins[i] + 2)`
outside 0..29). -/
def pin_ok (m : Mem) (p : Ptr) : Bool :=
  if p == Ptr.null || !starts_with "GP".toList (p.read m) then false
  else
    let pin_num := atoi ((p.read m).drop 2)
    if pin_num < 0 ∨ pin_num > 29 then false else true

/-- One test of the colour loop of `config_validate`: `false` where the source
returns `false` (`!c || strlen(c) == 0 || c[0] != HASH`). -/
def color_ok (m : Mem) (p : Ptr) : Bool :=
  if p == Ptr.null || (p.read m).isEmpty || (p.read m).head? != some '#' then false else true

/-- The C function `config_validate(config)` (on a non-NULL `config`). -/
def config_validate (m : Mem) (config : config_t) : Bool :=
  if missing m config.metadata.version then false
  else if missing m config.metadata.description then false
  else if missing m config.metadata.lastUpdated then false
  else if missing m config.device_name then false
  else if !(pins config).all (pin_ok m) then false
  else if config.GREEN_FRET_led > 6 ∨ config.RED_FRET_led > 6 ∨
      config.YELLOW_FRET_led > 6 ∨ config.BLUE_FRET_led > 6 ∨
      config.ORANGE_FRET_led > 6 ∨ config.STRUM_UP_led > 6 ∨
      config.STRUM_DOWN_led > 6 then false
  else if config.led_brightness < 0 ∨ config.led_brightness > 1 then false
  else if config.whammy_min ≥ config.whammy_max then false
  else if config.hat_mode == Ptr.null ||
      (config.hat_mode.read m != "dpad".toList && config.hat_mode.read m != "joystick".toList) then false
  else if !(List.range 7).all (fun i =>
      color_ok m (config.led_color.getD i Ptr.null) &&
      color_ok m (config.released_color.getD i Ptr.null)) then false
  else true

/-- The program state the configuration code works on: the static buffers of
`config_parse_json`, the global `device_config`, and the configuration sector. -/
structure State where
  statics : Mem
  device_config : config_t
  flash : config_storage_t

/-- The C function `config_init`. The two flash writes it can perform (the one
of `config_storage_init`, the one of the fallback branch) each get the device
behaviour that applies to them. -/
def config_init (dev1 dev2 : FlashDevice) (s : State) : State :=
  let init := config_storage_init dev1 s.flash
  match config_storage_load_from_flash init.2 s.statics with
  | some loaded => { statics := loaded.1, device_config := loaded.2, flash := init.2 }
  | none =>
    match config_generate_json s.statics default_config 1024 with
    | some json_buffer =>
      { statics := s.statics
        device_config := default_config
        flash := (config_storage_save_to_flash dev2 json_buffer json_buffer.length init.2).2 }
    | none => { statics := s.statics, device_config := default_config, flash := init.2 }

/-- The C function `config_update_from_json(json_string)`: its result and the
state afterwards. `config_parse_json` cannot fail, so the first early return of
the source is never taken. -/
def config_update_from_json (dev : FlashDevice) (json_string : cstring) (s : State) : Bool × State :=
  let parsed := config_parse_json json_string s.statics
  if !config_validate parsed.1 parsed.2 then
    (false, { s with statics := parsed.1 })
  else
    let saved := config_storage_save_to_flash dev json_string json_string.length s.flash
    if !saved.1 then
      (false, { s with statics := parsed.1, flash := saved.2 })
    else
      (true, { statics := parsed.1, device_config := parsed.2, flash := saved.2 })

end Config

namespace SmartUnified

/-- The constant `MODE_MAGIC` of `main_smart_unified.cpp`. -/
def MODE_MAGIC : Nat := 0xBEEF0000

/-- The constant `MODE_XINPUT`. -/
def MODE_XINPUT : Nat := MODE_MAGIC ||| 0x0001

/-- The constant `MODE_HID`. -/
def MODE_HID : Nat := MODE_MAGIC ||| 0x0002

/-- The C function `detect_persistent_mode`, on the value of the watchdog scratch
register `scratch[MODE_STORAGE_REG]`: its result (`true` is HID, `false` is
XInput) and the register afterwards. -/
def detect_persistent_mode (scratch : Nat) : Bool × Nat :=
  let stored_mode := scratch
  let scratch1 := 0
  if stored_mode = MODE_HID then (true, scratch1)
  else if stored_mode = MODE_XINPUT then (false, scratch1)
  else (false, scratch1)

/-- What the boot sequence of `main` works on: the global `g_use_hid_mode` and
the scratch register. -/
structure Boot where
  g_use_hid_mode : Bool
  scratch : Nat
  deriving DecidableEq, Repr

/-- The statements of `main` from reset up to the call of `tusb_init` that touch
`g_use_hid_mode` or the scratch register: the assignment from
`detect_persistent_mode` after `board_init`, and the second assignment from
`detect_persistent_mode` after the LED flashes (`config_init`, the GPIO and ADC
set-up use neither). -/
def main_until_tusb_init (scratch_at_reset : Nat) : Boot :=
  let s0 : Boot := { g_use_hid_mode := false, scratch := scratch_at_reset }
  let first := detect_persistent_mode s0.scratch
  let s1 : Boot := { g_use_hid_mode := first.1, scratch := first.2 }
  let second := detect_persistent_mode s1.scratch
  let s2 : Boot := { g_use_hid_mode := second.1, scratch := second.2 }
  s2

end SmartUnified

namespace UsbModeStorage

/-- The enumerator `USB_MODE_XINPUT`. -/
def USB_MODE_XINPUT : Nat := 0

/-- The enumerator `USB_MODE_HID`. -/
def USB_MODE_HID : Nat := 1

/-- The constant `USB_MODE_MAGIC`. -/
def USB_MODE_MAGIC : Nat := 0x42474721

/-- The constant `USB_MODE_VERSION`. -/
def USB_MODE_VERSION : Nat := 1

/-- The struct `usb_mode_config_t` (the padding is never read); `usb_mode` is the
stored enumeration value as the 32-bit word it occupies. -/
structure usb_mode_config_t where
  magic : Nat
  version : Nat
  usb_mode : Nat
  checksum : Nat
  deriving DecidableEq, Repr

/-- The C function `calculate_checksum` (a `uint32_t` sum). -/
def calculate_checksum (config : usb_mode_config_t) : Nat :=
  (config.magic + config.version + config.usb_mode) % 2 ^ 32

/-- The statics `current_config` and `config_loaded`, the flash sector, and the
number of erase-and-program operations performed so far. -/
structure Storage where
  current_config : usb_mode_config_t
  config_loaded : Bool
  flash : usb_mode_config_t
  flash_writes : Nat
  deriving DecidableEq, Repr

/-- The C function `load_config_from_flash`. -/
def load_config_from_flash (s : Storage) : Bool × Storage :=
  let current := s.flash
  if current.magic ≠ USB_MODE_MAGIC ∨ current.version ≠ USB_MODE_VERSION ∨
      calculate_checksum current ≠ current.checksum then
    let d : usb_mode_config_t :=
      { magic := USB_MODE_MAGIC, version := USB_MODE_VERSION, usb_mode := USB_MODE_XINPUT, checksum := 0 }
    (false, { s with current_config := { d with checksum := calculate_checksum d } })
  else (true, { s with current_config := current })

/-- The C function `save_config_to_flash`; `dev` is what the sector reads after
the erase and program of the given image. -/
def save_config_to_flash (dev : usb_mode_config_t → usb_mode_config_t) (s : Storage) : Bool × Storage :=
  let current := { s.current_config with checksum := calculate_checksum s.current_config }
  (true, { s with current_config := current, flash := dev current, flash_writes := s.flash_writes + 1 })

/-- The C function `usb_mode_storage_init`. -/
def usb_mode_storage_init (s : Storage) : Storage :=
  if !s.config_loaded then { (load_config_from_flash s).2 with config_loaded := true } else s

/-- The C function `usb_mode_storage_get`: its result and the state afterwards. -/
def usb_mode_storage_get (s : Storage) : Nat × Storage :=
  let s1 := if !s.config_loaded then usb_mode_storage_init s else s
  (s1.current_config.usb_mode, s1)

/-- The C function `usb_mode_storage_set(mode)`: its result and the state
afterwards. -/
def usb_mode_storage_set (dev : usb_mode_config_t → usb_mode_config_t) (mode : Nat) (s : Storage) :
    Bool × Storage :=
  let s1 := if !s.config_loaded then usb_mode_storage_init s else s
  if s1.current_config.usb_mode ≠ mode then
    save_config_to_flash dev { s1 with current_config := { s1.current_config with usb_mode := mode } }
  else (true, s1)

/-- The C function `usb_mode_check_boot_combo`; `green_level` and `red_level` are
what `gpio_get` returns for the green and the red button line after the 50 ms
delay (`true` is high, the buttons pull the line low). -/
def usb_mode_check_boot_combo (dev : usb_mode_config_t → usb_mode_config_t)
    (green_level red_level : Bool) (s : Storage) : Nat × Storage :=
  let green_pressed := !green_level
  let red_pressed := !red_level
  if green_pressed && !red_pressed then
    (USB_MODE_XINPUT, (usb_mode_storage_set dev USB_MODE_XINPUT s).2)
  else if red_pressed && !green_pressed then
    (USB_MODE_HID, (usb_mode_storage_set dev USB_MODE_HID s).2)
  else usb_mode_storage_get s

end UsbModeStorage

namespace CArith

/-- Conversion of an integer value to `uint32_t`. -/
def to_u32 (x : Int) : Nat := (x % 4294967296).toNat

/-- Conversion of an integer value to `int32_t` (two's complement). -/
def to_i32 (x : Int) : Int := (x + 2147483648) % 4294967296 - 2147483648

/-- Conversion of an integer value to `uint16_t`. -/
def to_u16 (x : Int) : Nat := (x % 65536).toNat

/-- Conversion of an integer value to `int16_t` (two's complement). -/
def to_i16 (x : Int) : Int := (x + 32768) % 65536 - 32768

/-- Conversion of an integer value to `uint8_t`. -/
def to_u8 (x : Int) : Nat := (x % 256).toNat

/-- Conversion of an integer value to `int8_t` (two's complement). -/
def to_i8 (x : Int) : Int := (x + 128) % 256 - 128

end CArith

namespace Config

open Libc ConfigStorage CArith

/-- The C function `config_gp_to_gpio(gp_string)`. -/
def config_gp_to_gpio (m : Mem) (gp_string : Ptr) : Nat :=
  if gp_string == Ptr.null || decide ((gp_string.read m).length < 3) then 0
  else if !starts_with "GP".toList (gp_string.read m) then 0
  else to_u8 (atoi ((gp_string.read m).drop 2))

/-- The C function `config_get_green_pin`, on the global `device_config`. -/
def config_get_green_pin (m : Mem) (device_config : config_t) : Nat :=
  config_gp_to_gpio m device_config.GREEN_FRET

/-- The C function `config_get_red_pin`. -/
def config_get_red_pin (m : Mem) (device_config : config_t) : Nat :=
  config_gp_to_gpio m device_config.RED_FRET

/-- The C function `config_get_yellow_pin`. -/
def config_get_yellow_pin (m : Mem) (device_config : config_t) : Nat :=
  config_gp_to_gpio m device_config.YELLOW_FRET

/-- The C function `config_get_blue_pin`. -/
def config_get_blue_pin (m : Mem) (device_config : config_t) : Nat :=
  config_gp_to_gpio m device_config.BLUE_FRET

/-- The C function `config_get_orange_pin`. -/
def config_get_orange_pin (m : Mem) (device_config : config_t) : Nat :=
  config_gp_to_gpio m device_config.ORANGE_FRET

/-- The C function `config_get_strum_up_pin`. -/
def config_get_strum_up_pin (m : Mem) (device_config : config_t) : Nat :=
  config_gp_to_gpio m device_config.STRUM_UP

/-- The C function `config_get_strum_down_pin`. -/
def config_get_strum_down_pin (m : Mem) (device_config : config_t) : Nat :=
  config_gp_to_gpio m device_config.STRUM_DOWN

/-- The C function `config_get_start_pin`. -/
def config_get_start_pin (m : Mem) (device_config : config_t) : Nat :=
  config_gp_to_gpio m device_config.START

/-- The C function `config_get_select_pin`. -/
def config_get_select_pin (m : Mem) (device_config : config_t) : Nat :=
  config_gp_to_gpio m device_config.SELECT

/-- The C function `config_get_dpad_up_pin`. -/
def config_get_dpad_up_pin (m : Mem) (device_config : config_t) : Nat :=
  config_gp_to_gpio m device_config.UP

/-- The C function `config_get_dpad_down_pin`. -/
def config_get_dpad_down_pin (m : Mem) (device_config : config_t) : Nat :=
  config_gp_to_gpio m device_config.DOWN

/-- The C function `config_get_dpad_left_pin`. -/
def config_get_dpad_left_pin (m : Mem) (device_config : config_t) : Nat :=
  config_gp_to_gpio m device_config.LEFT

/-- The C function `config_get_dpad_right_pin`. -/
def config_get_dpad_right_pin (m : Mem) (device_config : config_t) : Nat :=
  config_gp_to_gpio m device_config.RIGHT

/-- The C function `config_get_guide_pin`. -/
def config_get_guide_pin (m : Mem) (device_config : config_t) : Nat :=
  config_gp_to_gpio m device_config.GUIDE

/-- The C function `config_get_whammy_pin`. -/
def config_get_whammy_pin (m : Mem) (device_config : config_t) : Nat :=
  config_gp_to_gpio m device_config.WHAMMY

/-- The C function `config_get_neopixel_pin`. -/
def config_get_neopixel_pin (m : Mem) (device_config : config_t) : Nat :=
  config_gp_to_gpio m device_config.neopixel_pin

/-- The C function `config_get_joystick_x_pin`. -/
def config_get_joystick_x_pin (m : Mem) (device_config : config_t) : Nat :=
  config_gp_to_gpio m device_config.joystick_x_pin

/-- The C function `config_get_joystick_y_pin`. -/
def config_get_joystick_y_pin (m : Mem) (device_config : config_t) : Nat :=
  config_gp_to_gpio m device_config.joystick_y_pin

end Config

namespace Main

open Libc ConfigStorage Config CArith

/-- The struct `xinput_report_t` of `main.cpp` (packed, 18 bytes). -/
structure xinput_report_t where
  buttons : Nat
  lt : Nat
  rt : Nat
  lx : Int
  ly : Int
  rx : Int
  ry : Int
  reserved : List Nat
  deriving DecidableEq, Repr

/-- The constant `XINPUT_DPAD_UP`. -/
def XINPUT_DPAD_UP : Nat := 0x0001

/-- The constant `XINPUT_DPAD_DOWN`. -/
def XINPUT_DPAD_DOWN : Nat := 0x0002

/-- The constant `XINPUT_DPAD_LEFT`. -/
def XINPUT_DPAD_LEFT : Nat := 0x0004

/-- The constant `XINPUT_DPAD_RIGHT`. -/
def XINPUT_DPAD_RIGHT : Nat := 0x0008

/-- The constant `XINPUT_START`. -/
def XINPUT_START : Nat := 0x0010

/-- The constant `XINPUT_BACK`. -/
def XINPUT_BACK : Nat := 0x0020

/-- The constant `XINPUT_LB`. -/
def XINPUT_LB : Nat := 0x0100

/-- The constant `XINPUT_GUIDE`. -/
def XINPUT_GUIDE : Nat := 0x0400

/-- The constant `XINPUT_A`. -/
def XINPUT_A : Nat := 0x1000

/-- The constant `XINPUT_B`. -/
def XINPUT_B : Nat := 0x2000

/-- The constant `XINPUT_X`. -/
def XINPUT_X : Nat := 0x4000

/-- The constant `XINPUT_Y`. -/
def XINPUT_Y : Nat := 0x8000

/-- What the hardware returns during one call of `read_guitar_buttons`: the
microsecond counter, the level of each GPIO line (`true` is high), the reading
`adc_read` delivers for the whammy once its channel is selected, and the two
joystick readings (channels 2 and 3). -/
structure Env where
  time_us_32 : Nat
  gpio_get : Nat → Bool
  adc_read_whammy : Nat → Nat
  adc_read_joy_x : Nat
  adc_read_joy_y : Nat

/-- The file-scope variables of `main.cpp` that `read_guitar_buttons` writes, and
its function-scope statics. -/
structure Globals where
  green : Bool
  red : Bool
  yellow : Bool
  blue : Bool
  orange : Bool
  strum_up : Bool
  strum_down : Bool
  start : Bool
  select : Bool
  guide : Bool
  dpad_up : Bool
  dpad_down : Bool
  dpad_left : Bool
  dpad_right : Bool
  whammy_value : Nat
  tilt_x : Int
  tilt_y : Int
  xinput_report : xinput_report_t
  guide_trigger_count : Nat
  last_count_report : Nat
  extra_gpio_initialized : Bool
  tilt_debounce_time : Nat
  tilt_last_state : Bool
  deriving DecidableEq, Repr

/-- The globals at program start (zero-initialised). -/
def Globals.zero : Globals :=
  { green := false, red := false, yellow := false, blue := false, orange := false
    strum_up := false, strum_down := false, start := false, select := false, guide := false
    dpad_up := false, dpad_down := false, dpad_left := false, dpad_right := false
    whammy_value := 0, tilt_x := 0, tilt_y := 0
    xinput_report := { buttons := 0, lt := 0, rt := 0, lx := 0, ly := 0, rx := 0, ry := 0,
                       reserved := List.replicate 6 0 }
    guide_trigger_count := 0, last_count_report := 0, extra_gpio_initialized := false
    tilt_debounce_time := 0, tilt_last_state := false }

/-- The statics of the tilt debounce and the value it reports. -/
structure Tilt where
  tilt_active : Bool
  tilt_debounce_time : Nat
  tilt_last_state : Bool
  deriving DecidableEq, Repr

/-- The tilt debounce of `read_guitar_buttons` (the block after `tilt_raw` is
read): `tilt_active` defaults to the last stable state; a differing raw level is
taken over when `now - tilt_debounce_time > 50` in `uint32_t` arithmetic. -/
def tilt_debounce (now : Nat) (tilt_raw : Bool) (tilt_debounce_time : Nat) (tilt_last_state : Bool) :
    Tilt :=
  let tilt_active := tilt_last_state
  if tilt_raw != tilt_last_state then
    if to_u32 ((now : Int) - tilt_debounce_time) > 50 then
      { tilt_active := tilt_raw, tilt_debounce_time := now, tilt_last_state := tilt_raw }
    else { tilt_active := tilt_active, tilt_debounce_time := tilt_debounce_time,
           tilt_last_state := tilt_last_state }
  else { tilt_active := tilt_active, tilt_debounce_time := tilt_debounce_time,
         tilt_last_state := tilt_last_state }

/-- The C function `read_guitar_buttons` of `main.cpp`. The one-time `gpio_init`
calls and the `printf` are dropped. -/
def read_guitar_buttons (m : Mem) (device_config : config_t) (env : Env) (g : Globals) : Globals :=
  let now := to_u32 ((env.time_us_32 : Int)) / 1000
  let green := !env.gpio_get (config_get_green_pin m device_config)
  let red := !env.gpio_get (config_get_red_pin m device_config)
  let yellow := !env.gpio_get (config_get_yellow_pin m device_config)
  let blue := !env.gpio_get (config_get_blue_pin m device_config)
  let orange := !env.gpio_get (config_get_orange_pin m device_config)
  let strum_up := !env.gpio_get (config_get_strum_up_pin m device_config)
  let strum_down := !env.gpio_get (config_get_strum_down_pin m device_config)
  let start := !env.gpio_get (config_get_start_pin m device_config)
  let select := !env.gpio_get (config_get_select_pin m device_config)
  let tilt_raw := !env.gpio_get 9
  let tilt := tilt_debounce now tilt_raw g.tilt_debounce_time g.tilt_last_state
  let guide := !env.gpio_get 6
  let gpio2_pressed := !env.gpio_get 2
  let gpio7_pressed := !env.gpio_get 7
  let gpio3_pressed := !env.gpio_get 3
  let gpio8_pressed := !env.gpio_get 8
  let dpad_up := !env.gpio_get (config_get_dpad_up_pin m device_config)
  let dpad_down := !env.gpio_get (config_get_dpad_down_pin m device_config)
  let dpad_left := !env.gpio_get (config_get_dpad_left_pin m device_config)
  let dpad_right := !env.gpio_get (config_get_dpad_right_pin m device_config)
  let buttons := 0
  let buttons := if green then buttons ||| XINPUT_A else buttons
  let buttons := if red then buttons ||| XINPUT_B else buttons
  let buttons := if yellow then buttons ||| XINPUT_Y else buttons
  let buttons := if blue then buttons ||| XINPUT_X else buttons
  let buttons := if orange then buttons ||| XINPUT_LB else buttons
  let buttons := if strum_up then buttons ||| XINPUT_DPAD_UP else buttons
  let buttons := if strum_down then buttons ||| XINPUT_DPAD_DOWN else buttons
  let buttons := if start then buttons ||| XINPUT_START else buttons
  let buttons := if select then buttons ||| XINPUT_BACK else buttons
  let buttons := if guide then buttons ||| XINPUT_GUIDE else buttons
  let guide_trigger_count := if guide then to_u32 ((g.guide_trigger_count : Int) + 1)
    else g.guide_trigger_count
  let count_due := decide (to_u32 ((now : Int) - g.last_count_report) > 5000)
  let last_count_report := if count_due then now else g.last_count_report
  let guide_trigger_count := if count_due then 0 else guide_trigger_count
  let buttons := if gpio2_pressed || gpio7_pressed then buttons ||| XINPUT_DPAD_UP else buttons
  let buttons := if gpio3_pressed || gpio8_pressed then buttons ||| XINPUT_DPAD_DOWN else buttons
  let buttons := if dpad_left then buttons ||| XINPUT_DPAD_LEFT else buttons
  let buttons := if dpad_right then buttons ||| XINPUT_DPAD_RIGHT else buttons
  let whammy_adc_channel := to_u8 ((config_get_whammy_pin m device_config : Int) - 26)
  let whammy_raw := to_u16 (env.adc_read_whammy whammy_adc_channel)
  let whammy_value := to_u16 ((to_u32 ((whammy_raw : Int) * 255) / 4095 : Nat))
  let joy_x_raw := to_u16 env.adc_read_joy_x
  let joy_x_value := to_i16 (to_i32 (((joy_x_raw : Int) - 2048) * 16))
  let joy_y_raw := to_u16 env.adc_read_joy_y
  let joy_y_value := to_i16 (to_i32 (((joy_y_raw : Int) - 2048) * 16))
  let whammy_stick_value :=
    to_i16 (to_i16 ((to_u32 ((whammy_value : Int) * 65535) / 255 : Nat)) - 32768)
  let tilt_stick_value : Int := if tilt.tilt_active then -32768 else 32767
  { green := green, red := red, yellow := yellow, blue := blue, orange := orange
    strum_up := strum_up, strum_down := strum_down, start := start, select := select
    guide := guide
    dpad_up := dpad_up, dpad_down := dpad_down, dpad_left := dpad_left, dpad_right := dpad_right
    whammy_value := whammy_value
    tilt_x := whammy_stick_value
    tilt_y := tilt_stick_value
    xinput_report :=
      { buttons := buttons, lt := 0, rt := 0, lx := joy_x_value, ly := joy_y_value,
        rx := whammy_stick_value, ry := tilt_stick_value, reserved := List.replicate 6 0 }
    guide_trigger_count := guide_trigger_count
    last_count_report := last_count_report
    extra_gpio_initialized := true
    tilt_debounce_time := tilt.tilt_debounce_time
    tilt_last_state := tilt.tilt_last_state }

/-- The two bytes of a 16-bit value in memory, low byte first (the target is
little-endian). -/
def le16 (x : Int) : List Nat := [to_u16 x % 256, to_u16 x / 256]

/-- The bytes of the packed struct `xinput_report_t` as `memcpy` reads them. -/
def xinput_report_bytes (r : xinput_report_t) : List Nat :=
  le16 r.buttons ++ [to_u8 r.lt, to_u8 r.rt] ++ le16 r.lx ++ le16 r.ly ++ le16 r.rx ++ le16 r.ry
    ++ r.reserved.take 6

/-- The array `report_packet` that the send path of `main` builds: 22 zero bytes,
the two header bytes set, then `sizeof(xinput_report)` bytes copied in at
offset 2. -/
def report_packet (r : xinput_report_t) : List Nat :=
  let packet := List.replicate 22 0
  let packet := packet.set 0 0x00
  let packet := packet.set 1 0x14
  packet.take 2 ++ xinput_report_bytes r
    ++ packet.drop (2 + (xinput_report_bytes r).length)

/-- One sample of the tilt line: the raw level (`true` is tilted, the line reads
low) and the millisecond time `now` of the call. -/
structure TiltSample where
  tilt_raw : Bool
  now : Nat
  deriving DecidableEq, Repr

/-- The values `tilt_active` takes over a sequence of calls, each with the time
of its call, from given statics. -/
def tilt_trace (tilt_debounce_time : Nat) (tilt_last_state : Bool) :
    List TiltSample → List (Nat × Bool)
  | [] => []
  | s :: rest =>
    let t := tilt_debounce s.now s.tilt_raw tilt_debounce_time tilt_last_state
    (s.now, t.tilt_active) :: tilt_trace t.tilt_debounce_time t.tilt_last_state rest

/-- The times at which a reported value differs from the one reported before it
(`previous` is the value before the first sample). -/
def change_times (previous : Bool) : List (Nat × Bool) → List Nat
  | [] => []
  | (t, v) :: rest =>
    if v != previous then t :: change_times v rest else change_times previous rest

end Main

namespace HidInterface

open CArith

/-- The struct `button_state_t` of `usb_interface.h`. -/
structure button_state_t where
  green : Bool
  red : Bool
  yellow : Bool
  blue : Bool
  orange : Bool
  strum_up : Bool
  strum_down : Bool
  start : Bool
  select : Bool
  guide : Bool
  dpad_up : Bool
  dpad_down : Bool
  dpad_left : Bool
  dpad_right : Bool
  whammy : Nat
  joy_x : Int
  joy_y : Int
  deriving DecidableEq, Repr

/-- The struct `hid_report_t` of `hid_interface.c`. -/
structure hid_report_t where
  report_id : Nat
  buttons1 : Nat
  buttons2 : Nat
  dpad : Nat
  whammy : Nat
  joy_x : Int
  joy_y : Int
  reserved : Nat
  deriving DecidableEq, Repr

/-- The global `hid_report` as the C function `hid_send_report(state)` fills it
(the hand-over to `tud_hid_report` is left out). -/
def hid_send_report (state : button_state_t) : hid_report_t :=
  let buttons1 := 0
  let buttons2 := 0
  let buttons1 := if state.green then buttons1 ||| (1 <<< 0) else buttons1
  let buttons1 := if state.red then buttons1 ||| (1 <<< 1) else buttons1
  let buttons1 := if state.yellow then buttons1 ||| (1 <<< 2) else buttons1
  let buttons1 := if state.blue then buttons1 ||| (1 <<< 3) else buttons1
  let buttons1 := if state.orange then buttons1 ||| (1 <<< 4) else buttons1
  let buttons1 := if state.strum_up then buttons1 ||| (1 <<< 5) else buttons1
  let buttons1 := if state.strum_down then buttons1 ||| (1 <<< 6) else buttons1
  let buttons1 := if state.start then buttons1 ||| (1 <<< 7) else buttons1
  let buttons2 := if state.select then buttons2 ||| (1 <<< 0) else buttons2
  let buttons2 := if state.guide then buttons2 ||| (1 <<< 1) else buttons2
  let hat :=
    if state.dpad_up && !state.dpad_left && !state.dpad_right then 1
    else if state.dpad_up && state.dpad_right then 2
    else if state.dpad_right && !state.dpad_up && !state.dpad_down then 3
    else if state.dpad_down && state.dpad_right then 4
    else if state.dpad_down && !state.dpad_left && !state.dpad_right then 5
    else if state.dpad_down && state.dpad_left then 6
    else if state.dpad_left && !state.dpad_up && !state.dpad_down then 7
    else if state.dpad_up && state.dpad_left then 8
    else 0
  { report_id := 0
    buttons1 := buttons1
    buttons2 := buttons2
    dpad := hat
    whammy := to_u8 ((to_u32 ((state.whammy : Int) * 255) / 4095 : Nat))
    joy_x := to_i8 (state.joy_x.tdiv 256)
    joy_y := to_i8 (state.joy_y.tdiv 256)
    reserved := 0 }

end HidInterface

namespace ConfigManager

/-- Modelled from the spec: the struct `bgg_config_t` of the header
`src/config_manager.h`, which the two `main_dual_*` files include and which is
not among the sources. The members they use are taken as the data model
describes them: pin assignments as GPIO numbers, `whammy_min` and `whammy_max`
as unsigned integers (`uint32_t`, as in `config.h`), `whammy_reverse` as a
boolean. -/
structure bgg_config_t where
  UP : Nat
  DOWN : Nat
  LEFT : Nat
  RIGHT : Nat
  GREEN_FRET : Nat
  RED_FRET : Nat
  YELLOW_FRET : Nat
  BLUE_FRET : Nat
  ORANGE_FRET : Nat
  STRUM_UP : Nat
  STRUM_DOWN : Nat
  TILT : Nat
  SELECT : Nat
  START : Nat
  GUIDE : Nat
  WHAMMY : Nat
  whammy_min : Nat
  whammy_max : Nat
  whammy_reverse : Bool
  deriving DecidableEq, Repr

/-- What the hardware returns during one call of `read_inputs`: the level of each
GPIO line (`true` is high) and the reading `adc_read` delivers once a channel is
selected. -/
structure Env where
  gpio_get : Nat → Bool
  adc_read : Nat → Nat

end ConfigManager

namespace DualHid

open CArith ConfigManager

/-- The struct `hid_gamepad_report_t` of `main_dual_hid.cpp`. -/
structure hid_gamepad_report_t where
  buttons1 : Nat
  buttons2 : Nat
  hat : Nat
  x : Nat
  y : Nat
  z : Nat
  rz : Nat
  brake : Nat
  accelerator : Nat
  deriving DecidableEq, Repr

/-- The C function `calculate_hat_value(up, down, left, right)`. -/
def calculate_hat_value (up down left right : Bool) : Nat :=
  if up && !down && !left && !right then 0
  else if up && !down && !left && right then 1
  else if !up && !down && !left && right then 2
  else if !up && down && !left && right then 3
  else if !up && down && !left && !right then 4
  else if !up && down && left && !right then 5
  else if !up && !down && left && !right then 6
  else if up && !down && left && !right then 7
  else 8

/-- The whammy calibration of `read_inputs` in `main_dual_hid.cpp`, from the
16-bit reading to the `int32_t whammy_scaled` that is then cast to `uint8_t`.
The bounds are `uint32_t`, so the comparisons, the difference, the product and
the quotient are evaluated in `uint32_t`, as written out here. -/
def whammy_scaled (device_config : bgg_config_t) (whammy_raw : Nat) : Int :=
  let whammy_calibrated : Int := to_u16 whammy_raw
  let whammy_calibrated :=
    if to_u32 whammy_calibrated < device_config.whammy_min then to_i32 device_config.whammy_min
    else whammy_calibrated
  let whammy_calibrated :=
    if to_u32 whammy_calibrated > device_config.whammy_max then to_i32 device_config.whammy_max
    else whammy_calibrated
  let whammy_range : Int :=
    to_i32 (to_u32 ((device_config.whammy_max : Int) - device_config.whammy_min))
  let whammy_scaled : Int :=
    to_i32 ((to_u32 ((to_u32 ((to_u32 whammy_calibrated : Int) - device_config.whammy_min) : Int) * 255)
      / to_u32 whammy_range : Nat))
  if device_config.whammy_reverse then to_i32 (255 - whammy_scaled) else whammy_scaled

/-- The C function `read_inputs` of `main_dual_hid.cpp`: the global
`gamepad_report` after the call. -/
def read_inputs (device_config : bgg_config_t) (env : Env) (gamepad_report : hid_gamepad_report_t) :
    hid_gamepad_report_t :=
  let buttons1 := 0
  let buttons2 := 0
  let buttons1 := if !env.gpio_get device_config.GREEN_FRET then buttons1 ||| 0x01 else buttons1
  let buttons1 := if !env.gpio_get device_config.RED_FRET then buttons1 ||| 0x02 else buttons1
  let buttons1 := if !env.gpio_get device_config.YELLOW_FRET then buttons1 ||| 0x04 else buttons1
  let buttons1 := if !env.gpio_get device_config.BLUE_FRET then buttons1 ||| 0x08 else buttons1
  let buttons1 := if !env.gpio_get device_config.ORANGE_FRET then buttons1 ||| 0x10 else buttons1
  let buttons1 := if !env.gpio_get device_config.SELECT then buttons1 ||| 0x20 else buttons1
  let buttons1 := if !env.gpio_get device_config.START then buttons1 ||| 0x40 else buttons1
  let buttons1 := if !env.gpio_get device_config.GUIDE then buttons1 ||| 0x80 else buttons1
  let buttons2 := if !env.gpio_get device_config.STRUM_UP then buttons2 ||| 0x01 else buttons2
  let buttons2 := if !env.gpio_get device_config.STRUM_DOWN then buttons2 ||| 0x02 else buttons2
  let buttons2 := if !env.gpio_get device_config.TILT then buttons2 ||| 0x04 else buttons2
  let up := !env.gpio_get device_config.UP
  let down := !env.gpio_get device_config.DOWN
  let left := !env.gpio_get device_config.LEFT
  let right := !env.gpio_get device_config.RIGHT
  let whammy_raw := env.adc_read (to_u32 ((device_config.WHAMMY : Int) - 26))
  { gamepad_report with
    buttons1 := buttons1
    buttons2 := buttons2
    hat := calculate_hat_value up down left right
    y := to_u8 (whammy_scaled device_config whammy_raw)
    x := 127
    z := 127
    rz := 127
    brake := 0
    accelerator := 0 }

end DualHid

namespace DualXInput

open CArith ConfigManager

/-- The struct `xinput_gamepad_t` of `main_dual_xinput.cpp`. -/
structure xinput_gamepad_t where
  report_id : Nat
  report_size : Nat
  buttons : Nat
  left_trigger : Nat
  right_trigger : Nat
  left_stick_x : Int
  left_stick_y : Int
  right_stick_x : Int
  right_stick_y : Int
  reserved : List Nat
  deriving DecidableEq, Repr

/-- The global `gamepad_report` when the main loop starts: zero-initialised, then
`report_id = 0` and `report_size = 20`. -/
def gamepad_report_init : xinput_gamepad_t :=
  { report_id := 0, report_size := 20, buttons := 0, left_trigger := 0, right_trigger := 0
    left_stick_x := 0, left_stick_y := 0, right_stick_x := 0, right_stick_y := 0
    reserved := List.replicate 6 0 }

/-- The whammy calibration of `read_inputs` in `main_dual_xinput.cpp`, from the
16-bit reading to the `int32_t whammy_scaled` that is then cast to `int16_t`.
The bounds are `uint32_t`, so the comparisons, the difference, the product, the
quotient and the subtraction of 32768 are evaluated in `uint32_t`, as written
out here; the negation is on the `int32_t`. -/
def whammy_scaled (device_config : bgg_config_t) (whammy_raw : Nat) : Int :=
  let whammy_calibrated : Int := to_u16 whammy_raw
  let whammy_calibrated :=
    if to_u32 whammy_calibrated < device_config.whammy_min then to_i32 device_config.whammy_min
    else whammy_calibrated
  let whammy_calibrated :=
    if to_u32 whammy_calibrated > device_config.whammy_max then to_i32 device_config.whammy_max
    else whammy_calibrated
  let whammy_range : Int :=
    to_i32 (to_u32 ((device_config.whammy_max : Int) - device_config.whammy_min))
  let whammy_scaled : Int :=
    to_i32 (to_u32 (((to_u32 ((to_u32 ((to_u32 whammy_calibrated : Int) - device_config.whammy_min) : Int)
      * 65535) / to_u32 whammy_range : Nat) : Int) - 32768))
  if device_config.whammy_reverse then to_i32 (-whammy_scaled) else whammy_scaled

/-- The C function `read_inputs` of `main_dual_xinput.cpp`: the global
`gamepad_report` after the call. -/
def read_inputs (device_config : bgg_config_t) (env : Env) (gamepad_report : xinput_gamepad_t) :
    xinput_gamepad_t :=
  let buttons := 0
  let buttons := if !env.gpio_get device_config.GREEN_FRET then buttons ||| 0x1000 else buttons
  let buttons := if !env.gpio_get device_config.RED_FRET then buttons ||| 0x2000 else buttons
  let buttons := if !env.gpio_get device_config.YELLOW_FRET then buttons ||| 0x8000 else buttons
  let buttons := if !env.gpio_get device_config.BLUE_FRET then buttons ||| 0x4000 else buttons
  let buttons := if !env.gpio_get device_config.ORANGE_FRET then buttons ||| 0x0020 else buttons
  let buttons := if !env.gpio_get device_config.SELECT then buttons ||| 0x0040 else buttons
  let buttons := if !env.gpio_get device_config.START then buttons ||| 0x0010 else buttons
  let buttons := if !env.gpio_get device_config.GUIDE then buttons ||| 0x0400 else buttons
  let buttons := if !env.gpio_get device_config.UP then buttons ||| 0x0001 else buttons
  let buttons := if !env.gpio_get device_config.DOWN then buttons ||| 0x0002 else buttons
  let buttons := if !env.gpio_get device_config.LEFT then buttons ||| 0x0004 else buttons
  let buttons := if !env.gpio_get device_config.RIGHT then buttons ||| 0x0008 else buttons
  let left_trigger :=
    if !env.gpio_get device_config.STRUM_UP then 255 else gamepad_report.left_trigger
  let right_trigger :=
    if !env.gpio_get device_config.STRUM_DOWN then 255 else gamepad_report.right_trigger
  let whammy_raw := env.adc_read (to_u32 ((device_config.WHAMMY : Int) - 26))
  { gamepad_report with
    buttons := buttons
    left_trigger := left_trigger
    right_trigger := right_trigger
    left_stick_y := to_i16 (whammy_scaled device_config whammy_raw)
    right_stick_x := if !env.gpio_get device_config.TILT then 32767 else 0 }

end DualXInput

namespace ConfigStorage

open Libc

/-- What a call of `config_storage_get_json` leaves behind: its return value, the
value stored through `actual_size` (`none` when nothing is stored) and the bytes
written to `buffer`, the terminating NUL included (`none` when the buffer is not
written). -/
structure get_json_out where
  result : Bool
  actual_size : Option Nat
  buffer : Option (List Char)
  deriving DecidableEq, Repr

/-- The C function `config_storage_get_json(buffer, buffer_size, actual_size)`
called with a non-NULL `actual_size`, with the bytes it writes (the function
`config_storage_get_json` above keeps only the C string the buffer then holds). -/
def config_storage_get_json_bytes (flash_config : config_storage_t) (buffer_size : Nat) :
    get_json_out :=
  if !config_storage_is_valid flash_config then
    { result := false, actual_size := none, buffer := none }
  else if buffer_size < flash_config.header.json_size + 1 then
    { result := false, actual_size := some flash_config.header.json_size, buffer := none }
  else
    { result := true
      actual_size := some flash_config.header.json_size
      buffer := some (flash_config.json_data.take flash_config.header.json_size ++ [Char.ofNat 0]) }

end ConfigStorage

namespace Main

open Libc ConfigStorage Config CArith

/-- The local `whammy_adc_channel` of `read_guitar_buttons`:
`uint8_t whammy_adc_channel = config_get_whammy_pin() - 26`, the argument of
`adc_select_input`. -/
def whammy_adc_channel (m : Mem) (device_config : config_t) : Nat :=
  to_u8 ((config_get_whammy_pin m device_config : Int) - 26)

end Main

namespace MainUnified

open CArith

/-- The tilt debounce of `read_guitar_buttons` in `main_unified.cpp` (the block
after `tilt_raw` is read): as in `main.cpp`, except that `tilt_debounce_time` is
set to `now` at every call in which the raw level differs from the last stable
state, whether the level is taken over or not. -/
def tilt_debounce (now : Nat) (tilt_raw : Bool) (tilt_debounce_time : Nat) (tilt_last_state : Bool) :
    Main.Tilt :=
  let tilt_active := tilt_last_state
  if tilt_raw != tilt_last_state then
    if to_u32 ((now : Int) - tilt_debounce_time) > 50 then
      { tilt_active := tilt_raw, tilt_debounce_time := now, tilt_last_state := tilt_raw }
    else { tilt_active := tilt_active, tilt_debounce_time := now,
           tilt_last_state := tilt_last_state }
  else { tilt_active := tilt_active, tilt_debounce_time := tilt_debounce_time,
         tilt_last_state := tilt_last_state }

end MainUnified

namespace MainHid

open CArith

/-- The tilt debounce of `read_guitar_buttons` in `main_hid.cpp`: the same
statements as in `main_unified.cpp`. -/
def tilt_debounce (now : Nat) (tilt_raw : Bool) (tilt_debounce_time : Nat) (tilt_last_state : Bool) :
    Main.Tilt :=
  let tilt_active := tilt_last_state
  if tilt_raw != tilt_last_state then
    if to_u32 ((now : Int) - tilt_debounce_time) > 50 then
      { tilt_active := tilt_raw, tilt_debounce_time := now, tilt_last_state := tilt_raw }
    else { tilt_active := tilt_active, tilt_debounce_time := now,
           tilt_last_state := tilt_last_state }
  else { tilt_active := tilt_active, tilt_debounce_time := tilt_debounce_time,
         tilt_last_state := tilt_last_state }

end MainHid

/-! ## Auxiliary definitions for the statements below -/

namespace ConfigStorage

open Libc

/-- One `key: value` line of the generated text. -/
structure Line where
  key : cstring
  quoted : Bool
  value : cstring

/-- What follows the colon and blank on a line. -/
def Line.tail (l : Line) : cstring :=
  if l.quoted then '"' :: (l.value ++ ['"', ',', '\n']) else l.value ++ [',', '\n']

/-- The characters of one line: two blanks, the quoted key, colon, blank, value. -/
def Line.render (l : Line) : cstring :=
  ' ' :: ' ' :: '"' :: (l.key ++ '"' :: ':' :: ' ' :: l.tail)

/-- The characters of a sequence of lines. -/
def render_lines : List Line → cstring
  | [] => []
  | l :: ls => l.render ++ render_lines ls

/-- A key the line search can tell apart: no double quote in it, not empty, and
not starting with a colon or a comma. -/
def key_ok (key : cstring) : Bool :=
  !key.contains '"' && (match key with
    | [] => false
    | a :: _ => a != ':' && a != ',')

/-- The 36 `key: value` lines of the text `config_generate_json` formats. -/
def config_lines (m : Mem) (config : config_t) : List Line :=
  [ ⟨"version".toList, true, config.metadata.version.read m⟩,
    ⟨"description".toList, true, config.metadata.description.read m⟩,
    ⟨"lastUpdated".toList, true, config.metadata.lastUpdated.read m⟩,
    ⟨"device_name".toList, true, config.device_name.read m⟩,
    ⟨"UP".toList, true, config.UP.read m⟩,
    ⟨"DOWN".toList, true, config.DOWN.read m⟩,
    ⟨"LEFT".toList, true, config.LEFT.read m⟩,
    ⟨"RIGHT".toList, true, config.RIGHT.read m⟩,
    ⟨"GREEN_FRET".toList, true, config.GREEN_FRET.read m⟩,
    ⟨"RED_FRET".toList, true, config.RED_FRET.read m⟩,
    ⟨"YELLOW_FRET".toList, true, config.YELLOW_FRET.read m⟩,
    ⟨"BLUE_FRET".toList, true, config.BLUE_FRET.read m⟩,
    ⟨"ORANGE_FRET".toList, true, config.ORANGE_FRET.read m⟩,
    ⟨"STRUM_UP".toList, true, config.STRUM_UP.read m⟩,
    ⟨"STRUM_DOWN".toList, true, config.STRUM_DOWN.read m⟩,
    ⟨"TILT".toList, true, config.TILT.read m⟩,
    ⟨"SELECT".toList, true, config.SELECT.read m⟩,
    ⟨"START".toList, true, config.START.read m⟩,
    ⟨"GUIDE".toList, true, config.GUIDE.read m⟩,
    ⟨"WHAMMY".toList, true, config.WHAMMY.read m⟩,
    ⟨"neopixel_pin".toList, true, config.neopixel_pin.read m⟩,
    ⟨"joystick_x_pin".toList, true, config.joystick_x_pin.read m⟩,
    ⟨"joystick_y_pin".toList, true, config.joystick_y_pin.read m⟩,
    ⟨"GREEN_FRET_led".toList, false, fmt_u config.GREEN_FRET_led⟩,
    ⟨"RED_FRET_led".toList, false, fmt_u config.RED_FRET_led⟩,
    ⟨"YELLOW_FRET_led".toList, false, fmt_u config.YELLOW_FRET_led⟩,
    ⟨"BLUE_FRET_led".toList, false, fmt_u config.BLUE_FRET_led⟩,
    ⟨"ORANGE_FRET_led".toList, false, fmt_u config.ORANGE_FRET_led⟩,
    ⟨"STRUM_UP_led".toList, false, fmt_u config.STRUM_UP_led⟩,
    ⟨"STRUM_DOWN_led".toList, false, fmt_u config.STRUM_DOWN_led⟩,
    ⟨"hat_mode".toList, true, config.hat_mode.read m⟩,
    ⟨"led_brightness".toList, false, fmt_f2 config.led_brightness⟩,
    ⟨"whammy_min".toList, false, fmt_u config.whammy_min⟩,
    ⟨"whammy_max".toList, false, fmt_u config.whammy_max⟩,
    ⟨"whammy_reverse".toList, false, (if config.whammy_reverse then "true" else "false").toList⟩,
    ⟨"tilt_wave_enabled".toList, false, (if config.tilt_wave_enabled then "true" else "false").toList⟩ ]

/-- The end of the text `config_generate_json` formats: the two colour arrays
and the closing brace. -/
def config_json_colors (m : Mem) (config : config_t) : cstring :=
  "  \"led_color\": [\n".toList ++
  "    \"".toList ++ (config.led_color.getD 0 Ptr.null).read m ++
  "\", \"".toList ++ (config.led_color.getD 1 Ptr.null).read m ++
  "\", \"".toList ++ (config.led_color.getD 2 Ptr.null).read m ++
  "\", \"".toList ++ (config.led_color.getD 3 Ptr.null).read m ++
  "\", \"".toList ++ (config.led_color.getD 4 Ptr.null).read m ++
  "\", \"".toList ++ (config.led_color.getD 5 Ptr.null).read m ++
  "\", \"".toList ++ (config.led_color.getD 6 Ptr.null).read m ++ "\"\n".toList ++
  "  ],\n".toList ++
  "  \"released_color\": [\n".toList ++
  "    \"".toList ++ (config.released_color.getD 0 Ptr.null).read m ++
  "\", \"".toList ++ (config.released_color.getD 1 Ptr.null).read m ++
  "\", \"".toList ++ (config.released_color.getD 2 Ptr.null).read m ++
  "\", \"".toList ++ (config.released_color.getD 3 Ptr.null).read m ++
  "\", \"".toList ++ (config.released_color.getD 4 Ptr.null).read m ++
  "\", \"".toList ++ (config.released_color.getD 5 Ptr.null).read m ++
  "\", \"".toList ++ (config.released_color.getD 6 Ptr.null).read m ++ "\"\n".toList ++
  "  ]\n".toList ++
  "\x7d".toList

end ConfigStorage

namespace Config

open Libc ConfigStorage

/-- The pin format as the specification words it: `GP`, then one or more decimal
digits and nothing else, the number between 0 and 29. -/
def spec_pin_format (s : cstring) : Bool :=
  match s with
  | 'G' :: 'P' :: ds => !ds.isEmpty && ds.all isdigit && decide (digits_value ds 0 ≤ 29)
  | _ => false

/-- The colour format as the specification words it: exactly seven characters, a
hash sign and six hexadecimal digits. -/
def spec_color_format (s : cstring) : Bool :=
  match s with
  | '#' :: ds => decide (ds.length = 6) && ds.all (fun c =>
      isdigit c || (decide (65 ≤ c.toNat) && decide (c.toNat ≤ 70))
        || (decide (97 ≤ c.toNat) && decide (c.toNat ≤ 102)))
  | _ => false

/-- The default profile with four pin strings that are not of the form `GP`
plus a number. -/
def loose_pins_config : config_t :=
  { default_config with
    UP := Ptr.lit "GP".toList
    DOWN := Ptr.lit "GPx".toList
    LEFT := Ptr.lit "GP-0".toList
    RIGHT := Ptr.lit "GP5abc".toList }

/-- The default profile with a first LED colour that is a lone hash sign. -/
def loose_color_config : config_t :=
  { default_config with
    led_color := (["#", "#FFFFFF", "#B33E00", "#0000FF", "#FFFF00", "#FF0000", "#00FF00"].map
      (fun s => Ptr.lit s.toList)) }

/-- A string member the text format can carry: no double quote in it, and short
enough for the static buffer of `size` bytes that `config_parse_json` copies it
into. -/
def fits (m : Mem) (p : Ptr) (size : Nat) : Prop :=
  '"' ∉ p.read m ∧ (p.read m).length < size

/-- The profiles the text format carries without loss, apart from the colour
tables and the brightness: the metadata, device name and pin strings have no
double quote and fit their buffers, and `whammy_max` is in the range of `int`. -/
def round_trip_safe (m : Mem) (config : config_t) : Prop :=
  fits m config.metadata.version 16 ∧ fits m config.metadata.description 64 ∧
  fits m config.metadata.lastUpdated 16 ∧ fits m config.device_name 64 ∧
  (∀ p ∈ pins config, fits m p 8) ∧ (config.whammy_max : Int) ≤ INT_MAX

/-- The string members of a profile other than the colour tables, as the C
strings they designate: metadata, device name, the 19 pins, `hat_mode`. -/
def strings_of (m : Mem) (config : config_t) : List cstring :=
  [config.metadata.version.read m, config.metadata.description.read m,
   config.metadata.lastUpdated.read m, config.device_name.read m]
  ++ (pins config).map (fun p => p.read m) ++ [config.hat_mode.read m]

/-- The integer and boolean members of a profile: the 7 LED indices, the whammy
bounds, `whammy_reverse`, `tilt_wave_enabled`. -/
def scalars_of (config : config_t) : List Nat × Bool × Bool :=
  ([config.GREEN_FRET_led, config.RED_FRET_led, config.YELLOW_FRET_led, config.BLUE_FRET_led,
    config.ORANGE_FRET_led, config.STRUM_UP_led, config.STRUM_DOWN_led,
    config.whammy_min, config.whammy_max],
   config.whammy_reverse, config.tilt_wave_enabled)

/-- The default profile with an ISO time stamp in `lastUpdated`, a quoted word in
the device name and a brightness of 0.333. -/
def lossy_config : config_t :=
  { default_config with
    metadata := { default_config.metadata with lastUpdated := Ptr.lit "2025-08-21T10:00:00Z".toList }
    device_name := Ptr.lit "Guitar \"Hero\"".toList
    led_brightness := 333 / 1000 }

/-- The global `device_config` before `config_init` ran: zero-initialised. -/
def config_zero : config_t :=
  { metadata := { version := Ptr.null, description := Ptr.null, lastUpdated := Ptr.null }
    device_name := Ptr.null
    UP := Ptr.null, DOWN := Ptr.null, LEFT := Ptr.null, RIGHT := Ptr.null
    GREEN_FRET := Ptr.null, RED_FRET := Ptr.null, YELLOW_FRET := Ptr.null
    BLUE_FRET := Ptr.null, ORANGE_FRET := Ptr.null
    STRUM_UP := Ptr.null, STRUM_DOWN := Ptr.null, TILT := Ptr.null
    SELECT := Ptr.null, START := Ptr.null, GUIDE := Ptr.null
    WHAMMY := Ptr.null, neopixel_pin := Ptr.null
    joystick_x_pin := Ptr.null, joystick_y_pin := Ptr.null
    GREEN_FRET_led := 0, RED_FRET_led := 0, YELLOW_FRET_led := 0, BLUE_FRET_led := 0
    ORANGE_FRET_led := 0, STRUM_UP_led := 0, STRUM_DOWN_led := 0
    hat_mode := Ptr.null
    led_brightness := 0
    whammy_min := 0, whammy_max := 0
    whammy_reverse := false, tilt_wave_enabled := false
    led_color := List.replicate 7 Ptr.null
    released_color := List.replicate 7 Ptr.null }

/-- The configuration sector of a flash that was erased and never programmed:
every byte 0xFF. -/
def erased_flash : config_storage_t :=
  { header := { magic := 0xFFFFFFFF, version := 0xFFFFFFFF, json_size := 0xFFFFFFFF,
                checksum := 0xFFFFFFFF }
    json_data := List.replicate CONFIG_JSON_MAX_SIZE (Char.ofNat 255) }

/-- The state at reset over an erased configuration sector. -/
def first_boot : State :=
  { statics := Mem.zero, device_config := config_zero, flash := erased_flash }

/-- A configuration text with a new device name and an out-of-range pin. -/
def rejected_json : cstring := "\x7b\"device_name\": \"Mine\", \"UP\": \"GP99\"\x7d".toList

/-- The state after `config_init` ran at first boot on a flash device that
works: the default text was saved and loaded back from flash. -/
def booted : State := config_init id id first_boot

end Config

namespace Main

open Libc ConfigStorage Config CArith

/-- The hardware of a call in which only fret buttons are held: the lines GP10 to
GP14 read low for the pressed frets, every other line reads high. -/
def frets_env (green red yellow blue orange : Bool) (time_us_32 : Nat)
    (adc_read_whammy : Nat → Nat) (adc_read_joy_x adc_read_joy_y : Nat) : Env :=
  { time_us_32 := time_us_32
    gpio_get := fun pin =>
      if pin = 10 then !green else if pin = 11 then !red else if pin = 12 then !yellow
      else if pin = 13 then !blue else if pin = 14 then !orange else true
    adc_read_whammy := adc_read_whammy
    adc_read_joy_x := adc_read_joy_x
    adc_read_joy_y := adc_read_joy_y }

end Main

namespace HidInterface

/-- A button state in which only fret buttons are pressed. -/
def frets_state (green red yellow blue orange : Bool) (whammy : Nat) (joy_x joy_y : Int) :
    button_state_t :=
  { green := green, red := red, yellow := yellow, blue := blue, orange := orange
    strum_up := false, strum_down := false, start := false, select := false, guide := false
    dpad_up := false, dpad_down := false, dpad_left := false, dpad_right := false
    whammy := whammy, joy_x := joy_x, joy_y := joy_y }

end HidInterface

namespace Main

/-- A report with green and red held, lx = 0, ly = -1, rx = -32768, ry = 32767. -/
def sample_report : xinput_report_t :=
  { buttons := 0x3000, lt := 0, rt := 0, lx := 0, ly := -1, rx := -32768, ry := 32767
    reserved := List.replicate 6 0 }

end Main

namespace ConfigManager

/-- A profile with the default pin numbers and the default whammy range
500..65000. -/
def sample_config : bgg_config_t :=
  { UP := 2, DOWN := 3, LEFT := 4, RIGHT := 5, GREEN_FRET := 10, RED_FRET := 11
    YELLOW_FRET := 12, BLUE_FRET := 13, ORANGE_FRET := 14, STRUM_UP := 7, STRUM_DOWN := 8
    TILT := 9, SELECT := 0, START := 1, GUIDE := 6, WHAMMY := 27
    whammy_min := 500, whammy_max := 65000, whammy_reverse := false }

/-- The hardware with every line high, except the lines listed, and a given ADC
reading. -/
def lines_low (low : List Nat) (raw : Nat) : Env :=
  { gpio_get := fun pin => !low.contains pin, adc_read := fun _ => raw }

end ConfigManager

namespace DualHid

open CArith ConfigManager

/-- The whammy axis byte `gamepad_report.y` after `read_inputs`, for a profile
with the reversal flag set as given and the ADC reading `whammy_raw`. -/
def whammy_axis (device_config : bgg_config_t) (whammy_reverse : Bool) (gpio_get : Nat → Bool)
    (gamepad_report : hid_gamepad_report_t) (whammy_raw : Nat) : Nat :=
  (read_inputs { device_config with whammy_reverse := whammy_reverse }
    { gpio_get := gpio_get, adc_read := fun _ => whammy_raw } gamepad_report).y

end DualHid

namespace DualXInput

open CArith ConfigManager

/-- The whammy axis `gamepad_report.left_stick_y` after `read_inputs`, for a
profile with the reversal flag set as given and the ADC reading `whammy_raw`. -/
def whammy_axis (device_config : bgg_config_t) (whammy_reverse : Bool) (gpio_get : Nat → Bool)
    (gamepad_report : xinput_gamepad_t) (whammy_raw : Nat) : Int :=
  (read_inputs { device_config with whammy_reverse := whammy_reverse }
    { gpio_get := gpio_get, adc_read := fun _ => whammy_raw } gamepad_report).left_stick_y

end DualXInput

namespace Main

/-- A tilt line that bounces: tilted at 10 ms and 60 ms, released at 100 ms and
120 ms. -/
def sample_tilt : List TiltSample :=
  [⟨true, 10⟩, ⟨true, 60⟩, ⟨false, 100⟩, ⟨false, 120⟩]

end Main

namespace Main

open CArith

/-- The values `tilt_active` takes over a sequence of calls of a given debounce
block, each with the time of its call, from given statics. -/
def tilt_trace_with (debounce : Nat → Bool → Nat → Bool → Tilt) (tilt_debounce_time : Nat)
    (tilt_last_state : Bool) : List TiltSample → List (Nat × Bool)
  | [] => []
  | s :: rest =>
    let t := debounce s.now s.tilt_raw tilt_debounce_time tilt_last_state
    (s.now, t.tilt_active) :: tilt_trace_with debounce t.tilt_debounce_time t.tilt_last_state rest

/-- A line that is stable at the released level and reads tilted in one single
sample, at 1080 ms. -/
def glitch_samples : List TiltSample :=
  [⟨false, 1000⟩, ⟨false, 1040⟩, ⟨true, 1080⟩, ⟨false, 1120⟩, ⟨false, 1125⟩]

/-- A line that is tilted at 100 ms and released for good from 120 ms on, sampled
every 40 ms. -/
def release_samples : List TiltSample :=
  [⟨true, 100⟩, ⟨false, 120⟩, ⟨false, 160⟩, ⟨false, 200⟩, ⟨false, 240⟩, ⟨false, 280⟩]

end Main

namespace Main

open Libc ConfigStorage Config CArith

/-- The default profile with the whammy bar assigned to the pin `GP<pin>`. -/
def whammy_pin_config (pin : Nat) : config_t :=
  { default_config with WHAMMY := Ptr.lit ("GP".toList ++ fmt_u pin) }

/-- The hardware of a call in which every line is high, the whammy ADC reads
`whammy_raw` on whatever channel is selected and the joystick reads mid-scale. -/
def whammy_env (whammy_raw : Nat) : Env :=
  { time_us_32 := 0, gpio_get := fun _ => true, adc_read_whammy := fun _ => whammy_raw
    adc_read_joy_x := 2048, adc_read_joy_y := 2048 }

/-- The right-stick X value `read_guitar_buttons` reports for the whammy reading
`whammy_raw`, with the default profile. -/
def whammy_stick (m : Mem) (g : Globals) (whammy_raw : Nat) : Int :=
  (read_guitar_buttons m default_config (whammy_env whammy_raw) g).xinput_report.rx

end Main

namespace ConfigStorage

open Libc

/-- One bit step of the standard CRC-32 (reflected form): shift right, and
exclusive-or with the reflected polynomial 0xEDB88320 when the bit shifted out
is 1. -/
def crc32_bit_step (crc : Nat) : Nat :=
  if crc % 2 = 1 then (crc >>> 1) ^^^ 0xEDB88320 else crc >>> 1

/-- The table entry of the standard CRC-32 for a byte value: eight bit steps. -/
def crc32_standard_entry (i : Nat) : Nat :=
  crc32_bit_step (crc32_bit_step (crc32_bit_step (crc32_bit_step
    (crc32_bit_step (crc32_bit_step (crc32_bit_step (crc32_bit_step i)))))))

/-- The standard CRC-32 as the specification words it: initial value 0xFFFFFFFF,
for each byte one look-up in the table of the reflected polynomial 0xEDB88320,
final complement. -/
def crc32_standard (data : List Char) : Nat :=
  (data.foldl (fun crc byte =>
      (crc >>> 8) ^^^ crc32_standard_entry ((crc ^^^ byte.toNat) &&& 0xFF)) 0xFFFFFFFF)
    ^^^ 0xFFFFFFFF

/-- One bit step of the CRC-32 in its unreflected form: shift left within 32
bits, and exclusive-or with the polynomial 0x04C11DB7 when the bit shifted out
is 1. -/
def crc32_msb_bit_step (crc : Nat) : Nat :=
  if crc &&& 0x80000000 ≠ 0 then ((crc <<< 1) % 4294967296) ^^^ 0x04C11DB7
  else (crc <<< 1) % 4294967296

/-- The table entry of the unreflected CRC-32 for a byte value: the byte in the
top bits, eight bit steps. -/
def crc32_msb_entry (i : Nat) : Nat :=
  crc32_msb_bit_step (crc32_msb_bit_step (crc32_msb_bit_step (crc32_msb_bit_step
    (crc32_msb_bit_step (crc32_msb_bit_step (crc32_msb_bit_step (crc32_msb_bit_step (i <<< 24))))))))

end ConfigStorage

namespace Config

open Libc ConfigStorage

/-- A flash device on which nothing can be programmed: the sector reads erased
after every write. -/
def dead_flash : FlashDevice := fun _ => erased_flash

end Config

namespace ConfigStorage

open Libc

/-- The key does not occur in the text: `strstr` finds no occurrence of the
search string (the key between double quotes, then a colon). -/
def absent (key : String) (json : cstring) : Bool :=
  (strstr (search_str key.toList) json).isNone

/-- The string members `config_parse_json` looks up by key. -/
inductive StringMember where
  | version | description | lastUpdated | device_name
  | UP | DOWN | LEFT | RIGHT
  | GREEN_FRET | RED_FRET | YELLOW_FRET | BLUE_FRET | ORANGE_FRET
  | STRUM_UP | STRUM_DOWN | TILT | SELECT | START | GUIDE
  | WHAMMY | neopixel_pin | joystick_x_pin | joystick_y_pin
  | hat_mode
  deriving DecidableEq, Repr

/-- The key of a string member. -/
def StringMember.key : StringMember → String
  | .version => "version" | .description => "description" | .lastUpdated => "lastUpdated"
  | .device_name => "device_name"
  | .UP => "UP" | .DOWN => "DOWN" | .LEFT => "LEFT" | .RIGHT => "RIGHT"
  | .GREEN_FRET => "GREEN_FRET" | .RED_FRET => "RED_FRET" | .YELLOW_FRET => "YELLOW_FRET"
  | .BLUE_FRET => "BLUE_FRET" | .ORANGE_FRET => "ORANGE_FRET"
  | .STRUM_UP => "STRUM_UP" | .STRUM_DOWN => "STRUM_DOWN" | .TILT => "TILT"
  | .SELECT => "SELECT" | .START => "START" | .GUIDE => "GUIDE"
  | .WHAMMY => "WHAMMY" | .neopixel_pin => "neopixel_pin"
  | .joystick_x_pin => "joystick_x_pin" | .joystick_y_pin => "joystick_y_pin"
  | .hat_mode => "hat_mode"

/-- The literal `config_parse_json` falls back to for a string member. -/
def StringMember.dflt : StringMember → String
  | .version => "4.0.0" | .description => "BumbleGum Guitar Controller Configuration"
  | .lastUpdated => "2025-08-21" | .device_name => "Guitar Controller"
  | .UP => "GP2" | .DOWN => "GP3" | .LEFT => "GP4" | .RIGHT => "GP5"
  | .GREEN_FRET => "GP10" | .RED_FRET => "GP11" | .YELLOW_FRET => "GP12"
  | .BLUE_FRET => "GP13" | .ORANGE_FRET => "GP14"
  | .STRUM_UP => "GP7" | .STRUM_DOWN => "GP8" | .TILT => "GP9"
  | .SELECT => "GP0" | .START => "GP1" | .GUIDE => "GP6"
  | .WHAMMY => "GP27" | .neopixel_pin => "GP23"
  | .joystick_x_pin => "GP28" | .joystick_y_pin => "GP29"
  | .hat_mode => "dpad"

/-- The member of `config_t` a string member names. -/
def StringMember.get : StringMember → config_t → Ptr
  | .version => fun c => c.metadata.version
  | .description => fun c => c.metadata.description
  | .lastUpdated => fun c => c.metadata.lastUpdated
  | .device_name => fun c => c.device_name
  | .UP => fun c => c.UP | .DOWN => fun c => c.DOWN | .LEFT => fun c => c.LEFT
  | .RIGHT => fun c => c.RIGHT
  | .GREEN_FRET => fun c => c.GREEN_FRET | .RED_FRET => fun c => c.RED_FRET
  | .YELLOW_FRET => fun c => c.YELLOW_FRET | .BLUE_FRET => fun c => c.BLUE_FRET
  | .ORANGE_FRET => fun c => c.ORANGE_FRET
  | .STRUM_UP => fun c => c.STRUM_UP | .STRUM_DOWN => fun c => c.STRUM_DOWN
  | .TILT => fun c => c.TILT
  | .SELECT => fun c => c.SELECT | .START => fun c => c.START | .GUIDE => fun c => c.GUIDE
  | .WHAMMY => fun c => c.WHAMMY | .neopixel_pin => fun c => c.neopixel_pin
  | .joystick_x_pin => fun c => c.joystick_x_pin | .joystick_y_pin => fun c => c.joystick_y_pin
  | .hat_mode => fun c => c.hat_mode

/-- The integer members `config_parse_json` looks up by key: the seven LED
indices and the two whammy bounds. -/
inductive IntMember where
  | GREEN_FRET_led | RED_FRET_led | YELLOW_FRET_led | BLUE_FRET_led | ORANGE_FRET_led
  | STRUM_UP_led | STRUM_DOWN_led
  | whammy_min | whammy_max
  deriving DecidableEq, Repr

/-- The key of an integer member. -/
def IntMember.key : IntMember → String
  | .GREEN_FRET_led => "GREEN_FRET_led" | .RED_FRET_led => "RED_FRET_led"
  | .YELLOW_FRET_led => "YELLOW_FRET_led" | .BLUE_FRET_led => "BLUE_FRET_led"
  | .ORANGE_FRET_led => "ORANGE_FRET_led"
  | .STRUM_UP_led => "STRUM_UP_led" | .STRUM_DOWN_led => "STRUM_DOWN_led"
  | .whammy_min => "whammy_min" | .whammy_max => "whammy_max"

/-- The value `config_parse_json` falls back to for an integer member. -/
def IntMember.dflt : IntMember → Nat
  | .GREEN_FRET_led => 6 | .RED_FRET_led => 5 | .YELLOW_FRET_led => 4 | .BLUE_FRET_led => 3
  | .ORANGE_FRET_led => 2 | .STRUM_UP_led => 0 | .STRUM_DOWN_led => 1
  | .whammy_min => 500 | .whammy_max => 65000

/-- The member of `config_t` an integer member names. -/
def IntMember.get : IntMember → config_t → Nat
  | .GREEN_FRET_led => fun c => c.GREEN_FRET_led | .RED_FRET_led => fun c => c.RED_FRET_led
  | .YELLOW_FRET_led => fun c => c.YELLOW_FRET_led | .BLUE_FRET_led => fun c => c.BLUE_FRET_led
  | .ORANGE_FRET_led => fun c => c.ORANGE_FRET_led
  | .STRUM_UP_led => fun c => c.STRUM_UP_led | .STRUM_DOWN_led => fun c => c.STRUM_DOWN_led
  | .whammy_min => fun c => c.whammy_min | .whammy_max => fun c => c.whammy_max

/-- The text after a key starts no integer literal: it is empty, or its first
character is neither a digit, nor a sign, nor white space. -/
def not_numeric : cstring → Bool
  | [] => true
  | c :: _ => !isdigit c && !isspace c && c != '-' && c != '+'

/-- The empty object. -/
def empty_json : cstring := "\x7b\x7d".toList

/-- A text in which `whammy_min` is given as the quoted string abc. -/
def malformed_whammy_json : cstring :=
  "\x7b\"device_name\": \"Mine\", \"GREEN_FRET_led\": 3, \"whammy_min\": \"abc\", \"whammy_max\": 60000\x7d".toList

/-- The same text with `whammy_min` given as the number 700. -/
def wellformed_whammy_json : cstring :=
  "\x7b\"device_name\": \"Mine\", \"GREEN_FRET_led\": 3, \"whammy_min\": 700, \"whammy_max\": 60000\x7d".toList

/-- A text in which the LED index of the green fret is given as the word none. -/
def malformed_led_json : cstring :=
  "\x7b\"GREEN_FRET_led\": none, \"whammy_min\": 700\x7d".toList

/-- A text in which `whammy_min` is given as an object that itself holds a key
`whammy_max`, ahead of the top-level `whammy_max`. -/
def nested_whammy_json : cstring :=
  "\x7b\"whammy_min\": \x7b\"whammy_max\": 1\x7d, \"whammy_max\": 60000\x7d".toList

/-- The same text with `whammy_min` given as the number 700. -/
def flat_whammy_json : cstring :=
  "\x7b\"whammy_min\": 700, \"whammy_max\": 60000\x7d".toList

/-- A text in which a pin and a flag are given as bare words. -/
def malformed_others_json : cstring :=
  "\x7b\"UP\": GP9, \"whammy_reverse\": yes, \"whammy_min\": none\x7d".toList

/-- A text in which the LED index of the green fret is 262. -/
def led_262_json : cstring := "\x7b\"GREEN_FRET_led\": 262\x7d".toList

/-- A text in which the LED index of the green fret is 256. -/
def led_256_json : cstring := "\x7b\"GREEN_FRET_led\": 256\x7d".toList

end ConfigStorage

/-! ## Theorems: configuration text and flash record (`config_storage.c`) -/

namespace ConfigStorage

open Libc

theorem Mem.write_same (m : Mem) (b : Buf) (s : cstring) : (m.write b s) b = s := by
  simp [Mem.write]

theorem Mem.write_other (m : Mem) (b b2 : Buf) (s : cstring) (h : b2 ≠ b) :
    (m.write b s) b2 = m b2 := by
  simp [Mem.write, h]

theorem parse_string_mem_other (json : cstring) (key : String) (b : Buf) (size : Nat)
    (dflt : String) (m : Mem) (b2 : Buf) (h : b2 ≠ b) :
    (parse_string json key b size dflt m).1 b2 = m b2 := by
  unfold parse_string
  cases extract_string_value json key.toList size with
  | none => rfl
  | some s => exact Mem.write_other m b b2 s h

theorem store_colors_other (m : Mem) (b2 : Buf) (h1 : ∀ i, b2 ≠ Buf.led_colors i)
    (h2 : ∀ i, b2 ≠ Buf.released_colors i) : store_colors m b2 = m b2 := by
  unfold store_colors
  generalize List.range 7 = l
  induction l generalizing m with
  | nil => rfl
  | cons a t ih =>
    rw [List.foldl_cons, ih, Mem.write_other _ _ _ _ (h2 a), Mem.write_other _ _ _ _ (h1 a)]

/-- The string a parsed member reads as: the value found in the text, or the
built-in default. -/
theorem parse_string_read (json : cstring) (key : String) (b : Buf) (size : Nat)
    (dflt : String) (m m2 : Mem) (h : m2 b = (parse_string json key b size dflt m).1 b) :
    (parse_string json key b size dflt m).2.read m2
      = (extract_string_value json key.toList size).getD dflt.toList := by
  unfold parse_string at h ⊢
  revert h
  cases extract_string_value json key.toList size with
  | none => intro _; rfl
  | some s =>
    intro h
    simp only [Ptr.read, Option.getD_some]
    rw [h]
    exact Mem.write_same m b s

/-- The strings of a parsed profile, in the order `config_parse_json` extracts
them: each is the value found in the text, or the built-in default. -/
theorem config_parse_json_strings (json : cstring) (m : Mem) :
    (config_parse_json json m).2.metadata.version.read (config_parse_json json m).1
      = (extract_string_value json "version".toList 16).getD "4.0.0".toList ∧
    (config_parse_json json m).2.metadata.description.read (config_parse_json json m).1
      = (extract_string_value json "description".toList 64).getD "BumbleGum Guitar Controller Configuration".toList ∧
    (config_parse_json json m).2.metadata.lastUpdated.read (config_parse_json json m).1
      = (extract_string_value json "lastUpdated".toList 16).getD "2025-08-21".toList ∧
    (config_parse_json json m).2.device_name.read (config_parse_json json m).1
      = (extract_string_value json "device_name".toList 64).getD "Guitar Controller".toList ∧
    (config_parse_json json m).2.UP.read (config_parse_json json m).1
      = (extract_string_value json "UP".toList 8).getD "GP2".toList ∧
    (config_parse_json json m).2.DOWN.read (config_parse_json json m).1
      = (extract_string_value json "DOWN".toList 8).getD "GP3".toList ∧
    (config_parse_json json m).2.LEFT.read (config_parse_json json m).1
      = (extract_string_value json "LEFT".toList 8).getD "GP4".toList ∧
    (config_parse_json json m).2.RIGHT.read (config_parse_json json m).1
      = (extract_string_value json "RIGHT".toList 8).getD "GP5".toList ∧
    (config_parse_json json m).2.GREEN_FRET.read (config_parse_json json m).1
      = (extract_string_value json "GREEN_FRET".toList 8).getD "GP10".toList ∧
    (config_parse_json json m).2.RED_FRET.read (config_parse_json json m).1
      = (extract_string_value json "RED_FRET".toList 8).getD "GP11".toList ∧
    (config_parse_json json m).2.YELLOW_FRET.read (config_parse_json json m).1
      = (extract_string_value json "YELLOW_FRET".toList 8).getD "GP12".toList ∧
    (config_parse_json json m).2.BLUE_FRET.read (config_parse_json json m).1
      = (extract_string_value json "BLUE_FRET".toList 8).getD "GP13".toList ∧
    (config_parse_json json m).2.ORANGE_FRET.read (config_parse_json json m).1
      = (extract_string_value json "ORANGE_FRET".toList 8).getD "GP14".toList ∧
    (config_parse_json json m).2.STRUM_UP.read (config_parse_json json m).1
      = (extract_string_value json "STRUM_UP".toList 8).getD "GP7".toList ∧
    (config_parse_json json m).2.STRUM_DOWN.read (config_parse_json json m).1
      = (extract_string_value json "STRUM_DOWN".toList 8).getD "GP8".toList ∧
    (config_parse_json json m).2.TILT.read (config_parse_json json m).1
      = (extract_string_value json "TILT".toList 8).getD "GP9".toList ∧
    (config_parse_json json m).2.SELECT.read (config_parse_json json m).1
      = (extract_string_value json "SELECT".toList 8).getD "GP0".toList ∧
    (config_parse_json json m).2.START.read (config_parse_json json m).1
      = (extract_string_value json "START".toList 8).getD "GP1".toList ∧
    (config_parse_json json m).2.GUIDE.read (config_parse_json json m).1
      = (extract_string_value json "GUIDE".toList 8).getD "GP6".toList ∧
    (config_parse_json json m).2.WHAMMY.read (config_parse_json json m).1
      = (extract_string_value json "WHAMMY".toList 8).getD "GP27".toList ∧
    (config_parse_json json m).2.neopixel_pin.read (config_parse_json json m).1
      = (extract_string_value json "neopixel_pin".toList 8).getD "GP23".toList ∧
    (config_parse_json json m).2.joystick_x_pin.read (config_parse_json json m).1
      = (extract_string_value json "joystick_x_pin".toList 8).getD "GP28".toList ∧
    (config_parse_json json m).2.joystick_y_pin.read (config_parse_json json m).1
      = (extract_string_value json "joystick_y_pin".toList 8).getD "GP29".toList ∧
    (config_parse_json json m).2.hat_mode.read (config_parse_json json m).1
      = (extract_string_value json "hat_mode".toList 16).getD "dpad".toList := by
  refine ⟨?_, ?_, ?_, ?_, ?_, ?_, ?_, ?_, ?_, ?_, ?_, ?_, ?_, ?_, ?_, ?_, ?_, ?_, ?_, ?_, ?_, ?_, ?_, ?_⟩ <;>
  · unfold config_parse_json
    apply parse_string_read
    simp [parse_string_mem_other, store_colors_other]

theorem starts_with_refl_append (a b : cstring) : starts_with a (a ++ b) = true := by
  induction a with
  | nil => rfl
  | cons x t ih => simp [starts_with, ih]

theorem strstr_cons_ne (n : cstring) (c : Char) (rest : cstring) (h : c ≠ '"') :
    strstr ('"' :: n) (c :: rest) = strstr ('"' :: n) rest := by
  have : ('"' == c) = false := by
    simp [beq_eq_false_iff_ne]
    exact fun e => h e.symm
  simp [strstr, starts_with, this]

theorem strstr_skip (n pre rest : cstring) (h : '"' ∉ pre) :
    strstr ('"' :: n) (pre ++ rest) = strstr ('"' :: n) rest := by
  induction pre with
  | nil => rfl
  | cons c t ih =>
    rw [List.cons_append, strstr_cons_ne _ _ _ (by
      intro e; apply h; rw [e]; exact List.mem_cons_self _ _)]
    exact ih (fun hm => h (List.mem_cons_of_mem _ hm))

theorem strstr_quote (n rest : cstring) :
    strstr ('"' :: n) ('"' :: rest)
      = if starts_with n rest then some ('"' :: rest) else strstr ('"' :: n) rest := by
  simp [strstr, starts_with]

/-- A quoted key matches at a quoted word only if the word is that key and a
colon follows. -/
theorem starts_with_quoted (key v r : cstring) (hk : '"' ∉ key) (hv : '"' ∉ v)
    (h : starts_with (key ++ ['"', ':']) (v ++ '"' :: r) = true) :
    key = v ∧ r.head? = some ':' := by
  induction key generalizing v with
  | nil =>
    cases v with
    | nil =>
      cases r with
      | nil => simp [starts_with] at h
      | cons c t =>
        simp [starts_with] at h
        simp [← h]
    | cons c t =>
      simp only [List.nil_append, List.cons_append, starts_with, Bool.and_eq_true, beq_iff_eq] at h
      exact absurd (h.1 ▸ List.mem_cons_self _ _) hv
  | cons a t ih =>
    cases v with
    | nil =>
      simp only [List.nil_append, List.cons_append, starts_with, Bool.and_eq_true, beq_iff_eq] at h
      exact absurd (h.1 ▸ List.mem_cons_self _ _) hk
    | cons c u =>
      simp only [List.cons_append, starts_with, Bool.and_eq_true, beq_iff_eq] at h
      obtain ⟨e1, e2⟩ := ih u (fun hm => hk (List.mem_cons_of_mem _ hm))
        (fun hm => hv (List.mem_cons_of_mem _ hm)) h.2
      exact ⟨by rw [h.1, e1], e2⟩

theorem starts_with_head_ne (key r : cstring) (c : Char) (hk : key_ok key = true)
    (hc : c = ':' ∨ c = ',') : starts_with (key ++ ['"', ':']) (c :: r) = false := by
  cases key with
  | nil => simp [key_ok] at hk
  | cons a t =>
    simp only [key_ok, Bool.and_eq_true, bne_iff_ne, ne_eq] at hk
    have : (a == c) = false := by
      rw [beq_eq_false_iff_ne]
      rcases hc with e | e <;> rw [e]
      · exact hk.2.1
      · exact hk.2.2
    simp [starts_with, this]

theorem key_ok_quote (key : cstring) (hk : key_ok key = true) : '"' ∉ key := by
  simp only [key_ok, Bool.and_eq_true, Bool.not_eq_true', List.contains_eq_any_beq] at hk
  intro hm
  have := hk.1
  rw [List.any_eq_false] at this
  exact this _ hm (by simp)

/-- The search for a key passes over a whole line that carries another key. -/
theorem strstr_skip_line (key : cstring) (l : Line) (rest : cstring)
    (hk : key_ok key = true) (hl : key_ok l.key = true) (hv : '"' ∉ l.value)
    (hne : l.key ≠ key) :
    strstr (search_str key) (l.render ++ rest) = strstr (search_str key) rest := by
  have hkq := key_ok_quote key hk
  have hlq := key_ok_quote l.key hl
  unfold search_str Line.render
  simp only [List.cons_append, List.append_assoc]
  rw [strstr_cons_ne _ _ _ (by decide), strstr_cons_ne _ _ _ (by decide), strstr_quote]
  have m1 : starts_with (key ++ ['"', ':']) (l.key ++ '"' :: ':' :: ' ' :: (l.tail ++ rest)) = false := by
    rw [Bool.eq_false_iff]
    intro h
    exact hne (starts_with_quoted key l.key _ hkq hlq h).1.symm
  rw [m1]
  simp only [Bool.false_eq_true, if_false]
  rw [strstr_skip _ _ _ hlq, strstr_quote, starts_with_head_ne key _ ':' hk (Or.inl rfl)]
  simp only [Bool.false_eq_true, if_false]
  rw [strstr_cons_ne _ _ _ (by decide), strstr_cons_ne _ _ _ (by decide)]
  unfold Line.tail
  cases l.quoted with
  | false =>
    simp only [Bool.false_eq_true, if_false, List.append_assoc]
    rw [strstr_skip _ _ _ hv]
    simp only [List.cons_append, List.nil_append]
    rw [strstr_cons_ne _ _ _ (by decide), strstr_cons_ne _ _ _ (by decide)]
  | true =>
    simp only [if_true, List.cons_append, List.append_assoc]
    rw [strstr_quote]
    have m2 : starts_with (key ++ ['"', ':']) (l.value ++ ('"' :: ',' :: '\n' :: rest)) = false := by
      rw [Bool.eq_false_iff]
      intro h
      have := (starts_with_quoted key l.value _ hkq hv h).2
      simp at this
    simp only [List.nil_append, List.cons_append] at m2 ⊢
    rw [m2]
    simp only [Bool.false_eq_true, if_false]
    rw [strstr_skip _ _ _ hv, strstr_quote, starts_with_head_ne key _ ',' hk (Or.inr rfl)]
    simp only [Bool.false_eq_true, if_false]
    rw [strstr_cons_ne _ _ _ (by decide), strstr_cons_ne _ _ _ (by decide)]

/-- The search for a key stops at the line that carries it. -/
theorem strstr_find_line (key : cstring) (l : Line) (rest : cstring) (he : l.key = key) :
    strstr (search_str key) (l.render ++ rest)
      = some (search_str key ++ ' ' :: (l.tail ++ rest)) := by
  unfold search_str Line.render
  simp only [List.cons_append, List.append_assoc]
  rw [strstr_cons_ne _ _ _ (by decide), strstr_cons_ne _ _ _ (by decide), strstr_quote, he]
  have : starts_with (key ++ ['"', ':']) (key ++ '"' :: ':' :: ' ' :: (l.tail ++ rest)) = true := by
    have := starts_with_refl_append (key ++ ['"', ':']) (' ' :: (l.tail ++ rest))
    simpa using this
  rw [this]
  simp

/-- Looking a key up in rendered lines finds the first line that carries it. -/
theorem find_value_lines (key : cstring) (ls : List Line) (l : Line) (rest : cstring)
    (hk : key_ok key = true)
    (hwf : ∀ x ∈ ls, key_ok x.key = true ∧ '"' ∉ x.value)
    (hfind : ls.find? (fun x => x.key == key) = some l) :
    ∃ more, find_value (render_lines ls ++ rest) key = some (skip_blanks (' ' :: (l.tail ++ more))) := by
  induction ls with
  | nil => simp at hfind
  | cons x t ih =>
    rw [List.find?_cons] at hfind
    by_cases hx : x.key = key
    · have hb : (x.key == key) = true := by simpa using hx
      simp only [hb] at hfind
      have hxl : x = l := by simpa using hfind
      subst hxl
      refine ⟨render_lines t ++ rest, ?_⟩
      unfold find_value
      simp only [render_lines, List.append_assoc]
      rw [strstr_find_line key x _ hx]
      simp
    · have hb : (x.key == key) = false := by simpa using hx
      simp only [hb] at hfind
      obtain ⟨more, hm⟩ := ih (fun y hy => hwf y (List.mem_cons_of_mem _ hy)) hfind
      refine ⟨more, ?_⟩
      unfold find_value at hm ⊢
      simp only [render_lines, List.append_assoc]
      rw [strstr_skip_line key x _ hk (hwf x (List.mem_cons_self _ _)).1
        (hwf x (List.mem_cons_self _ _)).2 hx]
      exact hm

set_option maxRecDepth 100000 in
set_option maxHeartbeats 4000000 in
theorem config_json_text_lines (m : Mem) (config : config_t) :
    config_json_text m config
      = '\x7b' :: '\n' :: (render_lines (config_lines m config) ++ config_json_colors m config) := by
  simp only [config_json_text, config_json_colors, config_lines, render_lines, Line.render,
    Line.tail, if_true, Bool.false_eq_true, if_false, List.append_assoc,
    List.cons_append, List.nil_append, List.append_nil]
  rfl

theorem digit_char_spec (d : Nat) (h : d < 10) :
    isdigit (digit_char d) = true ∧ (digit_char d).toNat - 48 = d ∧ digit_char d ≠ '"' := by
  interval_cases d <;> decide

theorem isdigit_not_special (c : Char) (h : isdigit c = true) :
    isspace c = false ∧ c ≠ '-' ∧ c ≠ '+' ∧ c ≠ '"' ∧ c ≠ ' ' ∧ c ≠ '\t' ∧ c ≠ '\n' := by
  simp only [isdigit, Bool.and_eq_true, decide_eq_true_eq] at h
  have key : ∀ d : Char, d.toNat < 48 → c ≠ d := by
    intro d hd e
    rw [e] at h
    omega
  refine ⟨?_, key _ (by decide), key _ (by decide), key _ (by decide), key _ (by decide),
    key _ (by decide), key _ (by decide)⟩
  simp only [isspace, Bool.or_eq_false_iff, beq_eq_false_iff_ne]
  exact ⟨⟨⟨⟨⟨key _ (by decide), key _ (by decide)⟩, key _ (by decide)⟩, key _ (by decide)⟩,
    key _ (by decide)⟩, key _ (by decide)⟩

theorem fmt_u_aux_append (fuel n : Nat) (acc r : cstring) :
    fmt_u_aux fuel n acc ++ r = fmt_u_aux fuel n (acc ++ r) := by
  induction fuel generalizing n acc with
  | zero => rfl
  | succ f ih =>
    unfold fmt_u_aux
    split_ifs
    · rfl
    · rw [ih]
      rfl

theorem digits_value_fmt_u_aux (fuel n : Nat) (acc : cstring) (h : n < fuel) :
    digits_value (fmt_u_aux fuel n acc) 0 = digits_value acc n := by
  induction fuel generalizing n acc with
  | zero => omega
  | succ f ih =>
    unfold fmt_u_aux
    split_ifs with h10
    · have hd := digit_char_spec n h10
      simp [digits_value, hd.1, hd.2.1]
    · rw [ih _ _ (by omega)]
      have hd := digit_char_spec (n % 10) (Nat.mod_lt _ (by norm_num))
      simp only [digits_value, hd.1, hd.2.1, if_true]
      congr 1
      omega

theorem fmt_u_aux_head (fuel n : Nat) (acc : cstring) (h : n < fuel) :
    ∃ c t, fmt_u_aux fuel n acc = c :: t ∧ isdigit c = true := by
  induction fuel generalizing n acc with
  | zero => omega
  | succ f ih =>
    unfold fmt_u_aux
    split_ifs with h10
    · exact ⟨_, _, rfl, (digit_char_spec n h10).1⟩
    · exact ih _ _ (by omega)

theorem fmt_u_aux_digits (fuel n : Nat) (acc : cstring) :
    ∀ c ∈ fmt_u_aux fuel n acc, isdigit c = true ∨ c ∈ acc := by
  induction fuel generalizing n acc with
  | zero => intro c hc; exact Or.inr hc
  | succ f ih =>
    unfold fmt_u_aux
    split_ifs with h10
    · intro c hc
      rcases List.mem_cons.mp hc with e | e
      · left; rw [e]; exact (digit_char_spec n h10).1
      · right; exact e
    · intro c hc
      rcases ih _ _ c hc with e | e
      · left; exact e
      · rcases List.mem_cons.mp e with e2 | e2
        · left; rw [e2]; exact (digit_char_spec _ (Nat.mod_lt _ (by norm_num))).1
        · right; exact e2

theorem fmt_u_no_quote (n : Nat) : '"' ∉ fmt_u n := by
  intro h
  rcases fmt_u_aux_digits (n + 1) n [] _ h with e | e
  · exact absurd e (by decide)
  · simp at e

theorem fmt_f2_no_quote (q : ℚ) : '"' ∉ fmt_f2 q := by
  unfold fmt_f2
  simp only [List.mem_append, List.mem_cons, not_or]
  refine ⟨⟨?_, fmt_u_no_quote _⟩, ?_⟩
  · split_ifs <;> simp
  · refine ⟨by decide, ?_, ?_, by simp⟩
    · exact fun e => (digit_char_spec _ (Nat.mod_lt _ (by norm_num))).2.2 e.symm
    · exact fun e => (digit_char_spec _ (Nat.mod_lt _ (by norm_num))).2.2 e.symm

/-- `atoi` reads back what `%d` or `%lu` printed, when a comma follows. -/
theorem atoi_fmt_u (n : Nat) (more : cstring) (h : (n : Int) ≤ INT_MAX) :
    atoi (skip_blanks (' ' :: (fmt_u n ++ ',' :: more))) = n := by
  obtain ⟨c, t, hct, hc⟩ := fmt_u_aux_head (n + 1) n [] (Nat.lt_succ_self n)
  have hs := isdigit_not_special c hc
  have hv : digits_value (fmt_u n ++ ',' :: more) 0 = n := by
    unfold fmt_u
    rw [fmt_u_aux_append, digits_value_fmt_u_aux _ _ _ (Nat.lt_succ_self n)]
    simp [digits_value, isdigit]
  have e1 : skip_blanks (' ' :: (fmt_u n ++ ',' :: more)) = fmt_u n ++ ',' :: more := by
    unfold fmt_u
    rw [hct]
    have hb : (c == ' ' || c == '\t' || c == '\n') = false := by
      simp [hs.2.2.2.2.1, hs.2.2.2.2.2.1, hs.2.2.2.2.2.2]
    simp [skip_blanks, List.dropWhile, hb]
  rw [e1]
  unfold atoi
  have e2 : List.dropWhile isspace (fmt_u n ++ ',' :: more) = c :: (t ++ ',' :: more) := by
    unfold fmt_u
    rw [hct]
    simp [List.dropWhile, hs.1]
  have e3 : fmt_u n ++ ',' :: more = c :: (t ++ ',' :: more) := by
    unfold fmt_u
    rw [hct]
    rfl
  rw [e2]
  have e4 : clamp_int (digits_value (c :: (t ++ ',' :: more)) 0 : Int) = n := by
    rw [← e3, hv]
    unfold clamp_int
    have : ¬ ((n : Int) > INT_MAX) := by omega
    have h2 : ¬ ((n : Int) < INT_MIN) := by
      unfold INT_MIN
      omega
    simp [this, h2]
  split
  · next t2 heq => exact absurd (List.cons.inj heq).1 hs.2.1
  · next t2 heq => exact absurd (List.cons.inj heq).1 hs.2.2.1
  · exact e4

/-- `extract_string_value` reads back a quoted value without a double quote in
it that fits the buffer. -/
theorem extract_string_of_find (json key v more : cstring) (size : Nat)
    (hv : '"' ∉ v) (hlen : v.length < size)
    (hfind : find_value json key
      = some (skip_blanks (' ' :: ('"' :: (v ++ ['"', ',', '\n']) ++ more)))) :
    extract_string_value json key size = some v := by
  unfold extract_string_value
  rw [hfind]
  have e1 : skip_blanks (' ' :: ('"' :: (v ++ ['"', ',', '\n']) ++ more))
      = '"' :: (v ++ '"' :: ',' :: '\n' :: more) := by
    simp [skip_blanks, List.dropWhile]
  rw [e1]
  simp only []
  have e2 : (v ++ '"' :: ',' :: '\n' :: more).contains '"' = true := by
    simp
  have e3 : (v ++ '"' :: ',' :: '\n' :: more).takeWhile (fun c => c != '"') = v := by
    rw [List.takeWhile_append_of_pos]
    · simp [List.takeWhile]
    · intro c hc
      simp only [bne_iff_ne, ne_eq]
      intro e
      exact hv (e ▸ hc)
  rw [e2, e3]
  simp only [if_true]
  have e4 : ¬ (v.length ≥ size) := by omega
  rw [if_neg e4, List.take_left]

theorem extract_int_of_find (json key more : cstring) (n : Nat) (h : (n : Int) ≤ INT_MAX)
    (hfind : find_value json key = some (skip_blanks (' ' :: ((fmt_u n ++ [',', '\n']) ++ more)))) :
    extract_int_value json key = n := by
  unfold extract_int_value
  rw [hfind]
  simp only [List.append_assoc, List.cons_append, List.nil_append]
  exact atoi_fmt_u n _ h

theorem extract_bool_of_find (json key more : cstring) (b d : Bool)
    (hfind : find_value json key
      = some (skip_blanks (' ' :: ((((if b then "true" else "false") : String).toList ++ [',', '\n']) ++ more)))) :
    extract_bool_value json key d = b := by
  unfold extract_bool_value
  rw [hfind]
  cases b <;> simp [skip_blanks, List.dropWhile, starts_with]

theorem shiftRight_xor (a b k : Nat) : (a ^^^ b) >>> k = (a >>> k) ^^^ (b >>> k) := by
  apply Nat.eq_of_testBit_eq
  intro i
  simp [Nat.testBit_shiftRight, Nat.testBit_xor]

theorem eq_of_shiftRight_mod (a b : Nat) (h1 : a >>> 8 = b >>> 8)
    (h2 : a &&& 0xFF = b &&& 0xFF) : a = b := by
  rw [Nat.shiftRight_eq_div_pow, Nat.shiftRight_eq_div_pow] at h1
  have e : (0xFF : Nat) = 2 ^ 8 - 1 := by norm_num
  rw [e, Nat.and_pow_two_sub_one_eq_mod, Nat.and_pow_two_sub_one_eq_mod] at h2
  rw [← Nat.div_add_mod a (2 ^ 8), ← Nat.div_add_mod b (2 ^ 8), h1, h2]

set_option maxRecDepth 1000000 in
theorem crc32_table_top_nodup : (crc32_table.map (fun t => t >>> 24)).Nodup := by
  decide

set_option maxRecDepth 1000000 in
theorem crc32_table_bound : ∀ t ∈ crc32_table, t < 4294967296 := by
  decide

set_option maxRecDepth 100000 in
theorem crc32_table_length : crc32_table.length = 256 := by
  decide

theorem and_ff_lt (x : Nat) : x &&& 0xFF < 256 := by
  have e : (0xFF : Nat) = 2 ^ 8 - 1 := by norm_num
  rw [e, Nat.and_pow_two_sub_one_eq_mod]
  exact Nat.mod_lt _ (by norm_num)

theorem crc32_table_lt (i : Nat) : crc32_table.getD i 0 < 2 ^ 32 := by
  by_cases hi : i < crc32_table.length
  · rw [List.getD_eq_getElem _ _ hi]
    have h := crc32_table_bound _ (List.getElem_mem hi)
    norm_num
    exact h
  · rw [List.getD_eq_default _ _ (by omega)]
    norm_num

theorem crc32_table_top_inj (i j : Nat) (hi : i < 256) (hj : j < 256)
    (h : crc32_table.getD i 0 >>> 24 = crc32_table.getD j 0 >>> 24) : i = j := by
  have hi2 : i < crc32_table.length := by rw [crc32_table_length]; exact hi
  have hj2 : j < crc32_table.length := by rw [crc32_table_length]; exact hj
  rw [List.getD_eq_getElem _ _ hi2, List.getD_eq_getElem _ _ hj2] at h
  have hi3 : i < (crc32_table.map (fun t => t >>> 24)).length := by simpa using hi2
  have hj3 : j < (crc32_table.map (fun t => t >>> 24)).length := by simpa using hj2
  have e : (crc32_table.map (fun t => t >>> 24))[i] = (crc32_table.map (fun t => t >>> 24))[j] := by
    simpa using h
  exact (List.Nodup.getElem_inj_iff crc32_table_top_nodup).mp e

theorem crc32_step_lt (crc : Nat) (byte : Char) (h : crc < 2 ^ 32) : crc32_step crc byte < 2 ^ 32 := by
  unfold crc32_step
  apply Nat.xor_lt_two_pow
  · rw [Nat.shiftRight_eq_div_pow]
    exact lt_of_le_of_lt (Nat.div_le_self _ _) h
  · exact crc32_table_lt _

/-- The top byte of the next state names the table index that was used. -/
theorem crc32_step_top (crc : Nat) (byte : Char) (h : crc < 2 ^ 32) :
    crc32_step crc byte >>> 24 = crc32_table.getD ((crc ^^^ byte.toNat) &&& 0xFF) 0 >>> 24 := by
  unfold crc32_step
  simp only []
  rw [shiftRight_xor]
  have z : crc >>> 8 >>> 24 = 0 := by
    rw [← Nat.shiftRight_add, Nat.shiftRight_eq_div_pow]
    exact Nat.div_eq_of_lt h
  rw [z, Nat.zero_xor]

theorem crc32_step_index (c1 c2 : Nat) (b1 b2 : Char) (h1 : c1 < 2 ^ 32) (h2 : c2 < 2 ^ 32)
    (h : crc32_step c1 b1 = crc32_step c2 b2) :
    (c1 ^^^ b1.toNat) &&& 0xFF = (c2 ^^^ b2.toNat) &&& 0xFF ∧ c1 >>> 8 = c2 >>> 8 := by
  have ht := congrArg (fun x => x >>> 24) h
  simp only [] at ht
  rw [crc32_step_top c1 b1 h1, crc32_step_top c2 b2 h2] at ht
  have hidx := crc32_table_top_inj _ _ (and_ff_lt _) (and_ff_lt _) ht
  refine ⟨hidx, ?_⟩
  unfold crc32_step at h
  simp only [] at h
  rw [hidx] at h
  exact Nat.xor_left_inj.mp h

/-- One round is injective in the running checksum. -/
theorem crc32_step_inj_crc (c1 c2 : Nat) (b : Char) (h1 : c1 < 2 ^ 32) (h2 : c2 < 2 ^ 32)
    (h : crc32_step c1 b = crc32_step c2 b) : c1 = c2 := by
  obtain ⟨hidx, hhi⟩ := crc32_step_index c1 c2 b b h1 h2 h
  have e : c1 ^^^ b.toNat = c2 ^^^ b.toNat := by
    apply eq_of_shiftRight_mod _ _ _ hidx
    rw [shiftRight_xor, shiftRight_xor, hhi]
  exact Nat.xor_left_inj.mp e

/-- One round is injective in the data byte. -/
theorem crc32_step_inj_byte (c : Nat) (b1 b2 : Char) (hc : c < 2 ^ 32)
    (hb1 : b1.toNat < 256) (hb2 : b2.toNat < 256)
    (h : crc32_step c b1 = crc32_step c b2) : b1 = b2 := by
  obtain ⟨hidx, -⟩ := crc32_step_index c c b1 b2 hc hc h
  have z : ∀ b : Nat, b < 256 → b >>> 8 = 0 := by
    intro b hb
    rw [Nat.shiftRight_eq_div_pow]
    exact Nat.div_eq_of_lt hb
  have e : c ^^^ b1.toNat = c ^^^ b2.toNat := by
    apply eq_of_shiftRight_mod _ _ _ hidx
    rw [shiftRight_xor, shiftRight_xor, z _ hb1, z _ hb2]
  have e2 : b1.toNat = b2.toNat := Nat.xor_right_inj.mp e
  rw [← Char.ofNat_toNat b1, ← Char.ofNat_toNat b2, e2]

theorem crc32_foldl_lt (l : List Char) (c : Nat) (h : c < 2 ^ 32) :
    l.foldl crc32_step c < 2 ^ 32 := by
  induction l generalizing c with
  | nil => exact h
  | cons a t ih => exact ih _ (crc32_step_lt c a h)

theorem crc32_foldl_inj (l : List Char) (c1 c2 : Nat) (h1 : c1 < 2 ^ 32) (h2 : c2 < 2 ^ 32)
    (h : l.foldl crc32_step c1 = l.foldl crc32_step c2) : c1 = c2 := by
  induction l generalizing c1 c2 with
  | nil => exact h
  | cons a t ih =>
    exact crc32_step_inj_crc c1 c2 a h1 h2
      (ih _ _ (crc32_step_lt c1 a h1) (crc32_step_lt c2 a h2) h)

/-- Changing one byte inside the checksummed range changes the checksum. -/
theorem crc32_set_ne (data : List Char) (size i : Nat) (b : Char)
    (hi : i < size) (hs : size ≤ data.length)
    (hold : (data.getD i (Char.ofNat 0)).toNat < 256) (hb : b.toNat < 256)
    (hne : b ≠ data.getD i (Char.ofNat 0)) :
    config_storage_calculate_crc32 (data.set i b) size ≠ config_storage_calculate_crc32 data size := by
  have hil : i < data.length := by omega
  have hsplit : data = data.take i ++ data.getD i (Char.ofNat 0) :: data.drop (i + 1) := by
    rw [List.getD_eq_getElem _ _ hil]
    simp
  have hset : data.set i b = data.take i ++ b :: data.drop (i + 1) := by
    rw [List.set_eq_take_append_cons_drop, if_pos hil]
  have hlen : (data.take i).length = i := by
    rw [List.length_take]; omega
  obtain ⟨k, hk⟩ : ∃ k, size - i = k + 1 := ⟨size - i - 1, by omega⟩
  have t1 : (data.set i b).take size
      = data.take i ++ b :: (data.drop (i + 1)).take k := by
    rw [hset, List.take_append_eq_append_take, hlen, List.take_of_length_le (by omega), hk,
      List.take_succ_cons]
  have t2 : data.take size
      = data.take i ++ data.getD i (Char.ofNat 0) :: (data.drop (i + 1)).take k := by
    conv_lhs => rw [hsplit]
    rw [List.take_append_eq_append_take, hlen, List.take_of_length_le (by omega), hk,
      List.take_succ_cons]
  unfold config_storage_calculate_crc32
  rw [t1, t2, List.foldl_append, List.foldl_append, List.foldl_cons, List.foldl_cons]
  intro h
  have h0 : (4294967295 : Nat) < 2 ^ 32 := by norm_num
  have hc := crc32_foldl_lt (data.take i) 0xFFFFFFFF h0
  have h1 := Nat.xor_left_inj.mp h
  have h2 := crc32_foldl_inj _ _ _ (crc32_step_lt _ _ hc) (crc32_step_lt _ _ hc) h1
  exact hne (crc32_step_inj_byte _ _ _ hc hb hold h2)

theorem flash_image_length (json : cstring) (size : Nat) (h1 : size ≤ json.length)
    (h2 : size ≤ CONFIG_JSON_MAX_SIZE) :
    (flash_image json size).json_data.length = CONFIG_JSON_MAX_SIZE := by
  simp only [flash_image, List.length_append, List.length_take, List.length_replicate]
  omega

theorem flash_image_bytes (json : cstring) (size : Nat) (h : ∀ c ∈ json, c.toNat < 256) :
    ∀ c ∈ (flash_image json size).json_data, c.toNat < 256 := by
  intro c hc
  simp only [flash_image, List.mem_append, List.mem_replicate] at hc
  rcases hc with hc | hc
  · exact h c (List.mem_of_mem_take hc)
  · rw [hc.2]
    decide

theorem flash_image_crc (json : cstring) (size : Nat) (h : size ≤ json.length) :
    config_storage_calculate_crc32 (flash_image json size).json_data size
      = config_storage_calculate_crc32 json size := by
  unfold config_storage_calculate_crc32 flash_image
  simp only []
  rw [List.take_append_of_le_length (by rw [List.length_take]; omega), List.take_take,
    Nat.min_self]

/-- The image `config_storage_save_to_flash` prepares passes
`config_storage_is_valid`. -/
theorem flash_image_valid (json : cstring) (h0 : 0 < json.length)
    (h1 : json.length ≤ CONFIG_JSON_MAX_SIZE) :
    config_storage_is_valid (flash_image json json.length) = true := by
  unfold config_storage_is_valid
  have e1 : (flash_image json json.length).header.magic = CONFIG_MAGIC_HEADER := rfl
  have e2 : (flash_image json json.length).header.version = CONFIG_VERSION := rfl
  have e3 : (flash_image json json.length).header.json_size = json.length := rfl
  have e4 : (flash_image json json.length).header.checksum
      = config_storage_calculate_crc32 json json.length := rfl
  rw [e1, e2, e3, e4, flash_image_crc json json.length (le_refl _)]
  simp only [ne_eq, not_true_eq_false, if_false]
  rw [if_neg (by omega)]

theorem flash_image_get_json (json : cstring) (h0 : 0 < json.length)
    (h1 : json.length ≤ CONFIG_JSON_MAX_SIZE) (hnul : ∀ c ∈ json, c ≠ Char.ofNat 0) :
    config_storage_get_json (flash_image json json.length) (CONFIG_JSON_MAX_SIZE + 1) = some json := by
  unfold config_storage_get_json
  rw [flash_image_valid json h0 h1]
  simp only [Bool.not_true, Bool.false_eq_true, if_false]
  have hs : (flash_image json json.length).header.json_size = json.length := rfl
  rw [hs, if_neg (by omega)]
  have hd : (flash_image json json.length).json_data.take json.length = json := by
    simp only [flash_image]
    rw [List.take_append_of_le_length (by rw [List.length_take]; omega), List.take_take,
      Nat.min_self, List.take_length]
  rw [hd]
  congr 1
  rw [List.takeWhile_eq_self_iff]
  intro c hc
  simpa using hnul c hc

/-- C2: for every flash record that `config_storage_is_valid` accepts (its
`json_data` an array of `CONFIG_JSON_MAX_SIZE` bytes), replacing one byte of the
payload `json_data[0 .. json_size)` by a different byte makes
`config_storage_is_valid` return `false`, and with it `config_storage_get_json`
and `config_storage_load_from_flash` fail. -/
theorem single_byte_corruption_detected (flash : config_storage_t) (i : Nat) (b : Char)
    (buffer_size : Nat) (m : Mem)
    (hlen : flash.json_data.length = CONFIG_JSON_MAX_SIZE)
    (hbytes : ∀ c ∈ flash.json_data, c.toNat < 256)
    (hb : b.toNat < 256)
    (hvalid : config_storage_is_valid flash = true)
    (hi : i < flash.header.json_size)
    (hne : b ≠ flash.json_data.getD i (Char.ofNat 0)) :
    config_storage_is_valid { flash with json_data := flash.json_data.set i b } = false ∧
    config_storage_get_json { flash with json_data := flash.json_data.set i b } buffer_size = none ∧
    config_storage_load_from_flash { flash with json_data := flash.json_data.set i b } m = none := by
  have hv : config_storage_is_valid { flash with json_data := flash.json_data.set i b } = false := by
    unfold config_storage_is_valid at hvalid ⊢
    simp only []
    split_ifs at hvalid with g1 g2 g3 g4
    rw [if_neg g1, if_neg g2, if_neg g3]
    have hs : flash.header.json_size ≤ flash.json_data.length := by
      rw [hlen]; push_neg at g3; exact g3.2
    have hold : (flash.json_data.getD i (Char.ofNat 0)).toNat < 256 := by
      apply hbytes
      rw [List.getD_eq_getElem _ _ (by omega)]
      exact List.getElem_mem _
    have hcrc := crc32_set_ne flash.json_data flash.header.json_size i b hi hs hold hb hne
    push_neg at g4
    rw [← g4]
    rw [if_pos hcrc]
  refine ⟨hv, ?_, ?_⟩
  · unfold config_storage_get_json
    rw [hv]
    rfl
  · unfold config_storage_load_from_flash config_storage_get_json
    rw [hv]
    rfl

/-- Witness for C2: the image of the two-character text of an empty JSON object,
its first byte replaced by `x`. -/
theorem single_byte_corruption_detected_witness :
    config_storage_is_valid
      { flash_image "\x7b\x7d".toList 2 with
        json_data := (flash_image "\x7b\x7d".toList 2).json_data.set 0 'x' } = false ∧
    config_storage_get_json
      { flash_image "\x7b\x7d".toList 2 with
        json_data := (flash_image "\x7b\x7d".toList 2).json_data.set 0 'x' } 2049 = none ∧
    config_storage_load_from_flash
      { flash_image "\x7b\x7d".toList 2 with
        json_data := (flash_image "\x7b\x7d".toList 2).json_data.set 0 'x' } Mem.zero = none :=
  single_byte_corruption_detected (flash_image "\x7b\x7d".toList 2) 0 'x' 2049 Mem.zero
    (flash_image_length _ 2 (by decide) (by decide))
    (flash_image_bytes _ 2 (by decide)) (by decide)
    (by simp only [config_storage_is_valid, flash_image_crc]; decide) (by decide) (by decide)

end ConfigStorage

/-! ## Theorems: validation, boot and update of the profile (`config.c`) -/

namespace Config

open Libc ConfigStorage

/-- One link of an early-return chain: reaching `true` means the guard failed. -/
theorem guard_chain {p : Prop} [Decidable p] {x : Bool}
    (h : (if p then false else x) = true) : ¬p ∧ x = true := by
  by_cases hp : p
  · simp [hp] at h
  · simpa [hp] using h

/-- Everything `config_validate` has checked when it returns `true`. -/
theorem config_validate_true (m : Mem) (c : config_t) (h : config_validate m c = true) :
    missing m c.metadata.version = false ∧ missing m c.metadata.description = false ∧
    missing m c.metadata.lastUpdated = false ∧ missing m c.device_name = false ∧
    (pins c).all (pin_ok m) = true ∧
    (c.GREEN_FRET_led ≤ 6 ∧ c.RED_FRET_led ≤ 6 ∧ c.YELLOW_FRET_led ≤ 6 ∧ c.BLUE_FRET_led ≤ 6 ∧
      c.ORANGE_FRET_led ≤ 6 ∧ c.STRUM_UP_led ≤ 6 ∧ c.STRUM_DOWN_led ≤ 6) ∧
    (0 ≤ c.led_brightness ∧ c.led_brightness ≤ 1) ∧
    c.whammy_min < c.whammy_max ∧
    (c.hat_mode ≠ Ptr.null ∧
      (c.hat_mode.read m = "dpad".toList ∨ c.hat_mode.read m = "joystick".toList)) ∧
    (List.range 7).all (fun i => color_ok m (c.led_color.getD i Ptr.null) &&
      color_ok m (c.released_color.getD i Ptr.null)) = true := by
  unfold config_validate at h
  obtain ⟨h1, h⟩ := guard_chain h
  obtain ⟨h2, h⟩ := guard_chain h
  obtain ⟨h3, h⟩ := guard_chain h
  obtain ⟨h4, h⟩ := guard_chain h
  obtain ⟨h5, h⟩ := guard_chain h
  obtain ⟨h6, h⟩ := guard_chain h
  obtain ⟨h7, h⟩ := guard_chain h
  obtain ⟨h8, h⟩ := guard_chain h
  obtain ⟨h9, h⟩ := guard_chain h
  obtain ⟨h10, -⟩ := guard_chain h
  refine ⟨by simpa using h1, by simpa using h2, by simpa using h3, by simpa using h4,
    by simpa using h5, by omega, ?_, by omega, ?_, by simpa using h10⟩
  · push_neg at h7
    exact h7
  · rw [Bool.or_eq_true, Bool.and_eq_true, not_or, not_and_or] at h9
    refine ⟨by simpa using h9.1, ?_⟩
    rcases h9.2 with e | e
    · left
      simpa using e
    · right
      simpa using e

/-- C7: `config_validate` returns `false` for every candidate in which some LED
index is above 6, or `whammy_min >= whammy_max`, or `hat_mode` is neither
`dpad` nor `joystick`, or one of `metadata.version`, `metadata.description`,
`metadata.lastUpdated`, `device_name` is the empty string. -/
theorem config_validate_rejects_out_of_range (m : Mem) (c : config_t)
    (h : (c.GREEN_FRET_led > 6 ∨ c.RED_FRET_led > 6 ∨ c.YELLOW_FRET_led > 6 ∨
          c.BLUE_FRET_led > 6 ∨ c.ORANGE_FRET_led > 6 ∨ c.STRUM_UP_led > 6 ∨
          c.STRUM_DOWN_led > 6) ∨
      c.whammy_min ≥ c.whammy_max ∨
      (c.hat_mode.read m ≠ "dpad".toList ∧ c.hat_mode.read m ≠ "joystick".toList) ∨
      c.metadata.version.read m = [] ∨ c.metadata.description.read m = [] ∨
      c.metadata.lastUpdated.read m = [] ∨ c.device_name.read m = []) :
    config_validate m c = false := by
  by_contra hv
  rw [Bool.not_eq_false] at hv
  obtain ⟨v1, v2, v3, v4, -, vl, -, vw, vh, -⟩ := config_validate_true m c hv
  simp only [missing, Bool.or_eq_false_iff, List.isEmpty_eq_false] at v1 v2 v3 v4
  rcases h with h | h | h | h | h | h | h
  · omega
  · omega
  · rcases vh.2 with e | e
    · exact h.1 e
    · exact h.2 e
  · exact v1.2 h
  · exact v2.2 h
  · exact v3.2 h
  · exact v4.2 h

/-- Witness for C7: the default profile with `whammy_min` raised to `whammy_max`. -/
theorem config_validate_rejects_out_of_range_witness :
    config_validate Mem.zero { default_config with whammy_min := 65000 } = false :=
  config_validate_rejects_out_of_range Mem.zero { default_config with whammy_min := 65000 }
    (Or.inr (Or.inl (by decide)))

/-- C5, as stated, fails: a profile whose pins UP, DOWN, LEFT, RIGHT are `GP`,
`GPx`, `GP-0`, `GP5abc` is accepted by `config_validate`, though none of the
four has the form `GP` plus a decimal number. -/
theorem config_validate_accepts_loose_pins :
    config_validate Mem.zero loose_pins_config = true ∧
    (pins loose_pins_config).map (fun p => spec_pin_format (p.read Mem.zero))
      = [false, false, false, false, true, true, true, true, true, true, true, true, true, true,
         true, true, true, true, true] := by
  decide

/-- C5, amended: `config_validate` returns `true` only if each of the 19
pin-assignment strings is non-NULL, starts with `GP`, and `atoi` of what follows
the two letters (leading white space, optional sign, leading digits, 0 when
there is no digit) lies between 0 and 29. -/
theorem config_validate_pins (m : Mem) (c : config_t) (h : config_validate m c = true) :
    (pins c).length = 19 ∧
    ∀ p ∈ pins c, p ≠ Ptr.null ∧ starts_with "GP".toList (p.read m) = true ∧
      0 ≤ atoi ((p.read m).drop 2) ∧ atoi ((p.read m).drop 2) ≤ 29 := by
  refine ⟨rfl, ?_⟩
  intro p hp
  have hall := (config_validate_true m c h).2.2.2.2.1
  rw [List.all_eq_true] at hall
  have hok := hall p hp
  unfold pin_ok at hok
  obtain ⟨g1, hok⟩ := guard_chain hok
  obtain ⟨g2, -⟩ := guard_chain hok
  rw [Bool.or_eq_true, not_or] at g1
  refine ⟨by simpa using g1.1, by simpa using g1.2, ?_, ?_⟩
  · push_neg at g2
    exact g2.1
  · push_neg at g2
    exact g2.2

/-- Witness for the amended C5: the profile with the four loose pin strings. -/
theorem config_validate_pins_witness :
    (pins loose_pins_config).length = 19 ∧
    ∀ p ∈ pins loose_pins_config, p ≠ Ptr.null ∧ starts_with "GP".toList (p.read Mem.zero) = true ∧
      0 ≤ atoi ((p.read Mem.zero).drop 2) ∧ atoi ((p.read Mem.zero).drop 2) ≤ 29 :=
  config_validate_pins Mem.zero loose_pins_config (by decide)

/-- C6, as stated, fails: a profile whose first LED colour is the one-character
string `#` is accepted by `config_validate`. -/
theorem config_validate_accepts_loose_color :
    config_validate Mem.zero loose_color_config = true ∧
    (loose_color_config.led_color.getD 0 Ptr.null).read Mem.zero = ['#'] ∧
    spec_color_format ((loose_color_config.led_color.getD 0 Ptr.null).read Mem.zero) = false := by
  decide

/-- C6, amended: `config_validate` returns `true` only if every one of the 14
strings in `led_color` and `released_color` is non-NULL, non-empty and starts
with a hash sign. -/
theorem config_validate_colors (m : Mem) (c : config_t) (h : config_validate m c = true) :
    ∀ i, i < 7 →
      (c.led_color.getD i Ptr.null ≠ Ptr.null ∧
        ∃ rest, (c.led_color.getD i Ptr.null).read m = '#' :: rest) ∧
      (c.released_color.getD i Ptr.null ≠ Ptr.null ∧
        ∃ rest, (c.released_color.getD i Ptr.null).read m = '#' :: rest) := by
  intro i hi
  have hall := (config_validate_true m c h).2.2.2.2.2.2.2.2.2
  rw [List.all_eq_true] at hall
  have hok := hall i (List.mem_range.mpr hi)
  rw [Bool.and_eq_true] at hok
  have key : ∀ p : Ptr, color_ok m p = true → p ≠ Ptr.null ∧ ∃ rest, p.read m = '#' :: rest := by
    intro p hp
    unfold color_ok at hp
    obtain ⟨g, -⟩ := guard_chain hp
    rw [Bool.or_eq_true, Bool.or_eq_true, not_or, not_or] at g
    refine ⟨by simpa using g.1.1, ?_⟩
    have g3 := g.2
    cases hr : p.read m with
    | nil => simp [hr] at g3
    | cons a rest =>
      refine ⟨rest, ?_⟩
      simp [hr] at g3
      rw [g3]
  exact ⟨key _ hok.1, key _ hok.2⟩

/-- Witness for the amended C6: the profile with the lone hash sign, at index 0. -/
theorem config_validate_colors_witness :
    (loose_color_config.led_color.getD 0 Ptr.null ≠ Ptr.null ∧
      ∃ rest, (loose_color_config.led_color.getD 0 Ptr.null).read Mem.zero = '#' :: rest) ∧
    (loose_color_config.released_color.getD 0 Ptr.null ≠ Ptr.null ∧
      ∃ rest, (loose_color_config.released_color.getD 0 Ptr.null).read Mem.zero = '#' :: rest) :=
  config_validate_colors Mem.zero loose_color_config (by decide) 0 (by decide)

theorem find_value_json_text (m : Mem) (config : config_t) (key : cstring) (l : Line)
    (hk : key_ok key = true)
    (hwf : ∀ x ∈ config_lines m config, key_ok x.key = true ∧ '"' ∉ x.value)
    (hfind : (config_lines m config).find? (fun x => x.key == key) = some l) :
    ∃ more, find_value (config_json_text m config) key
      = some (skip_blanks (' ' :: (l.tail ++ more))) := by
  obtain ⟨more, hm⟩ := find_value_lines key (config_lines m config) l
    (config_json_colors m config) hk hwf hfind
  refine ⟨more, ?_⟩
  rw [config_json_text_lines]
  unfold find_value at hm ⊢
  unfold search_str at hm ⊢
  rw [strstr_cons_ne _ _ _ (by decide), strstr_cons_ne _ _ _ (by decide)]
  exact hm

set_option maxRecDepth 100000 in
theorem config_lines_wf (m : Mem) (config : config_t)
    (hs : ∀ s ∈ strings_of m config, '"' ∉ s) :
    ∀ x ∈ config_lines m config, key_ok x.key = true ∧ '"' ∉ x.value := by
  have hb : ∀ b : Bool, '"' ∉ (if b then "true" else "false").toList := by
    intro b
    cases b <;> decide
  have hs2 : ∀ s, s ∈ strings_of m config → '"' ∉ s := hs
  simp only [strings_of, pins, List.map, List.cons_append, List.nil_append, List.mem_cons,
    List.mem_singleton, List.not_mem_nil, or_false, forall_eq_or_imp, forall_eq] at hs2
  intro x hx
  simp only [config_lines, List.mem_cons, List.mem_singleton, List.not_mem_nil, or_false] at hx
  rcases hx with rfl | rfl | rfl | rfl | rfl | rfl | rfl | rfl | rfl | rfl | rfl | rfl | rfl | rfl | rfl | rfl | rfl | rfl | rfl | rfl | rfl | rfl | rfl | rfl | rfl | rfl | rfl | rfl | rfl | rfl | rfl | rfl | rfl | rfl | rfl | rfl <;>
    refine ⟨rfl, ?_⟩ <;>
    first
      | exact fmt_u_no_quote _
      | exact fmt_f2_no_quote _
      | exact hb _
      | simp only [hs2, not_false_eq_true]

theorem config_generate_json_some (m : Mem) (P : config_t) (buffer_size : Nat) (T : cstring)
    (hgen : config_generate_json m P buffer_size = some T) : T = config_json_text m P := by
  unfold config_generate_json at hgen
  by_cases hc : (config_json_text m P).length > 0 ∧ (config_json_text m P).length < buffer_size
  · rw [show (let written := (config_json_text m P).length
        if written > 0 ∧ written < buffer_size then some (config_json_text m P) else none)
        = (if (config_json_text m P).length > 0 ∧ (config_json_text m P).length < buffer_size
          then some (config_json_text m P) else none) from rfl, if_pos hc] at hgen
    exact (Option.some.inj hgen).symm
  · rw [show (let written := (config_json_text m P).length
        if written > 0 ∧ written < buffer_size then some (config_json_text m P) else none)
        = (if (config_json_text m P).length > 0 ∧ (config_json_text m P).length < buffer_size
          then some (config_json_text m P) else none) from rfl, if_neg hc] at hgen
    exact absurd hgen (by simp)

/-- The integer and boolean members of a parsed profile, as the extractors
deliver them. -/
theorem config_parse_json_scalars (json : cstring) (m : Mem) :
    (config_parse_json json m).2.GREEN_FRET_led = parse_led json "GREEN_FRET_led" 6 ∧
    (config_parse_json json m).2.RED_FRET_led = parse_led json "RED_FRET_led" 5 ∧
    (config_parse_json json m).2.YELLOW_FRET_led = parse_led json "YELLOW_FRET_led" 4 ∧
    (config_parse_json json m).2.BLUE_FRET_led = parse_led json "BLUE_FRET_led" 3 ∧
    (config_parse_json json m).2.ORANGE_FRET_led = parse_led json "ORANGE_FRET_led" 2 ∧
    (config_parse_json json m).2.STRUM_UP_led = parse_led json "STRUM_UP_led" 0 ∧
    (config_parse_json json m).2.STRUM_DOWN_led = parse_led json "STRUM_DOWN_led" 1 ∧
    (config_parse_json json m).2.whammy_min = parse_u32 json "whammy_min" 500 ∧
    (config_parse_json json m).2.whammy_max = parse_u32 json "whammy_max" 65000 ∧
    (config_parse_json json m).2.whammy_reverse
      = extract_bool_value json "whammy_reverse".toList false ∧
    (config_parse_json json m).2.tilt_wave_enabled
      = extract_bool_value json "tilt_wave_enabled".toList true := by
  unfold config_parse_json
  exact ⟨rfl, rfl, rfl, rfl, rfl, rfl, rfl, rfl, rfl, rfl, rfl⟩

/-- C1, amended: for every profile `P` accepted by `config_validate` whose
metadata, device-name and pin strings contain no double quote and fit the static
buffers of the parser (15, 63, 15, 63 and 7 characters) and whose `whammy_max`
is at most `INT_MAX`, if `config_generate_json(P)` succeeds with text `T` then
`config_parse_json(T)` yields a profile equal to `P` in the metadata, the device
name, the 19 pin strings, `hat_mode`, the 7 LED indices, `whammy_min`,
`whammy_max`, `whammy_reverse` and `tilt_wave_enabled`. Nothing is said of
`led_brightness` and of the two colour tables. The strings of `P` are read in
the static buffers as they are before the parse, those of the result in the
buffers the parse leaves. -/
theorem config_round_trip (m : Mem) (P : config_t) (buffer_size : Nat) (T : cstring)
    (hvalid : config_validate m P = true)
    (hgen : config_generate_json m P buffer_size = some T)
    (hsafe : round_trip_safe m P) :
    strings_of (config_parse_json T m).1 (config_parse_json T m).2 = strings_of m P ∧
    scalars_of (config_parse_json T m).2 = scalars_of P := by
  rw [config_generate_json_some m P buffer_size T hgen]
  clear hgen
  obtain ⟨-, -, -, -, -, hled, -, hw, hhat, -⟩ := config_validate_true m P hvalid
  obtain ⟨f_version, f_description, f_lastUpdated, f_device_name, fp, hmax⟩ := hsafe
  have f_hat_mode : fits m P.hat_mode 16 := by
    rcases hhat.2 with e | e <;> rw [fits, e] <;> decide
  have f_UP : fits m P.UP 8 := fp P.UP (by simp [pins])
  have f_DOWN : fits m P.DOWN 8 := fp P.DOWN (by simp [pins])
  have f_LEFT : fits m P.LEFT 8 := fp P.LEFT (by simp [pins])
  have f_RIGHT : fits m P.RIGHT 8 := fp P.RIGHT (by simp [pins])
  have f_GREEN_FRET : fits m P.GREEN_FRET 8 := fp P.GREEN_FRET (by simp [pins])
  have f_RED_FRET : fits m P.RED_FRET 8 := fp P.RED_FRET (by simp [pins])
  have f_YELLOW_FRET : fits m P.YELLOW_FRET 8 := fp P.YELLOW_FRET (by simp [pins])
  have f_BLUE_FRET : fits m P.BLUE_FRET 8 := fp P.BLUE_FRET (by simp [pins])
  have f_ORANGE_FRET : fits m P.ORANGE_FRET 8 := fp P.ORANGE_FRET (by simp [pins])
  have f_STRUM_UP : fits m P.STRUM_UP 8 := fp P.STRUM_UP (by simp [pins])
  have f_STRUM_DOWN : fits m P.STRUM_DOWN 8 := fp P.STRUM_DOWN (by simp [pins])
  have f_TILT : fits m P.TILT 8 := fp P.TILT (by simp [pins])
  have f_SELECT : fits m P.SELECT 8 := fp P.SELECT (by simp [pins])
  have f_START : fits m P.START 8 := fp P.START (by simp [pins])
  have f_GUIDE : fits m P.GUIDE 8 := fp P.GUIDE (by simp [pins])
  have f_WHAMMY : fits m P.WHAMMY 8 := fp P.WHAMMY (by simp [pins])
  have f_neopixel_pin : fits m P.neopixel_pin 8 := fp P.neopixel_pin (by simp [pins])
  have f_joystick_x_pin : fits m P.joystick_x_pin 8 := fp P.joystick_x_pin (by simp [pins])
  have f_joystick_y_pin : fits m P.joystick_y_pin 8 := fp P.joystick_y_pin (by simp [pins])
  have hwf := config_lines_wf m P (by
    intro s hs
    simp only [strings_of, pins, List.map, List.cons_append, List.nil_append, List.mem_cons,
      List.mem_singleton, List.not_mem_nil, or_false] at hs
    rcases hs with rfl | rfl | rfl | rfl | rfl | rfl | rfl | rfl | rfl | rfl | rfl | rfl | rfl | rfl | rfl | rfl | rfl | rfl | rfl | rfl | rfl | rfl | rfl | rfl
    exacts [f_version.1, f_description.1, f_lastUpdated.1, f_device_name.1, f_UP.1, f_DOWN.1, f_LEFT.1, f_RIGHT.1, f_GREEN_FRET.1, f_RED_FRET.1, f_YELLOW_FRET.1, f_BLUE_FRET.1, f_ORANGE_FRET.1, f_STRUM_UP.1, f_STRUM_DOWN.1, f_TILT.1, f_SELECT.1, f_START.1, f_GUIDE.1, f_WHAMMY.1, f_neopixel_pin.1, f_joystick_x_pin.1, f_joystick_y_pin.1, f_hat_mode.1])
  have S := fun key l hk hf => find_value_json_text m P key l hk hwf hf
  obtain ⟨t_GREEN_FRET_led, t_RED_FRET_led, t_YELLOW_FRET_led, t_BLUE_FRET_led, t_ORANGE_FRET_led,
    t_STRUM_UP_led, t_STRUM_DOWN_led, t_whammy_min, t_whammy_max, t_whammy_reverse,
    t_tilt_wave_enabled⟩ := config_parse_json_scalars (config_json_text m P) m
  obtain ⟨r_version, r_description, r_lastUpdated, r_device_name, r_UP, r_DOWN, r_LEFT, r_RIGHT, r_GREEN_FRET, r_RED_FRET, r_YELLOW_FRET, r_BLUE_FRET, r_ORANGE_FRET, r_STRUM_UP, r_STRUM_DOWN, r_TILT, r_SELECT, r_START, r_GUIDE, r_WHAMMY, r_neopixel_pin, r_joystick_x_pin, r_joystick_y_pin, r_hat_mode⟩ :=
    config_parse_json_strings (config_json_text m P) m
  have s_version : (config_parse_json (config_json_text m P) m).2.metadata.version.read
      (config_parse_json (config_json_text m P) m).1 = P.metadata.version.read m := by
    obtain ⟨more, hm⟩ := S "version".toList ⟨"version".toList, true, P.metadata.version.read m⟩ rfl rfl
    rw [r_version, extract_string_of_find _ _ _ more 16 f_version.1 f_version.2 hm]
    rfl
  have s_description : (config_parse_json (config_json_text m P) m).2.metadata.description.read
      (config_parse_json (config_json_text m P) m).1 = P.metadata.description.read m := by
    obtain ⟨more, hm⟩ := S "description".toList ⟨"description".toList, true, P.metadata.description.read m⟩ rfl rfl
    rw [r_description, extract_string_of_find _ _ _ more 64 f_description.1 f_description.2 hm]
    rfl
  have s_lastUpdated : (config_parse_json (config_json_text m P) m).2.metadata.lastUpdated.read
      (config_parse_json (config_json_text m P) m).1 = P.metadata.lastUpdated.read m := by
    obtain ⟨more, hm⟩ := S "lastUpdated".toList ⟨"lastUpdated".toList, true, P.metadata.lastUpdated.read m⟩ rfl rfl
    rw [r_lastUpdated, extract_string_of_find _ _ _ more 16 f_lastUpdated.1 f_lastUpdated.2 hm]
    rfl
  have s_device_name : (config_parse_json (config_json_text m P) m).2.device_name.read
      (config_parse_json (config_json_text m P) m).1 = P.device_name.read m := by
    obtain ⟨more, hm⟩ := S "device_name".toList ⟨"device_name".toList, true, P.device_name.read m⟩ rfl rfl
    rw [r_device_name, extract_string_of_find _ _ _ more 64 f_device_name.1 f_device_name.2 hm]
    rfl
  have s_UP : (config_parse_json (config_json_text m P) m).2.UP.read
      (config_parse_json (config_json_text m P) m).1 = P.UP.read m := by
    obtain ⟨more, hm⟩ := S "UP".toList ⟨"UP".toList, true, P.UP.read m⟩ rfl rfl
    rw [r_UP, extract_string_of_find _ _ _ more 8 f_UP.1 f_UP.2 hm]
    rfl
  have s_DOWN : (config_parse_json (config_json_text m P) m).2.DOWN.read
      (config_parse_json (config_json_text m P) m).1 = P.DOWN.read m := by
    obtain ⟨more, hm⟩ := S "DOWN".toList ⟨"DOWN".toList, true, P.DOWN.read m⟩ rfl rfl
    rw [r_DOWN, extract_string_of_find _ _ _ more 8 f_DOWN.1 f_DOWN.2 hm]
    rfl
  have s_LEFT : (config_parse_json (config_json_text m P) m).2.LEFT.read
      (config_parse_json (config_json_text m P) m).1 = P.LEFT.read m := by
    obtain ⟨more, hm⟩ := S "LEFT".toList ⟨"LEFT".toList, true, P.LEFT.read m⟩ rfl rfl
    rw [r_LEFT, extract_string_of_find _ _ _ more 8 f_LEFT.1 f_LEFT.2 hm]
    rfl
  have s_RIGHT : (config_parse_json (config_json_text m P) m).2.RIGHT.read
      (config_parse_json (config_json_text m P) m).1 = P.RIGHT.read m := by
    obtain ⟨more, hm⟩ := S "RIGHT".toList ⟨"RIGHT".toList, true, P.RIGHT.read m⟩ rfl rfl
    rw [r_RIGHT, extract_string_of_find _ _ _ more 8 f_RIGHT.1 f_RIGHT.2 hm]
    rfl
  have s_GREEN_FRET : (config_parse_json (config_json_text m P) m).2.GREEN_FRET.read
      (config_parse_json (config_json_text m P) m).1 = P.GREEN_FRET.read m := by
    obtain ⟨more, hm⟩ := S "GREEN_FRET".toList ⟨"GREEN_FRET".toList, true, P.GREEN_FRET.read m⟩ rfl rfl
    rw [r_GREEN_FRET, extract_string_of_find _ _ _ more 8 f_GREEN_FRET.1 f_GREEN_FRET.2 hm]
    rfl
  have s_RED_FRET : (config_parse_json (config_json_text m P) m).2.RED_FRET.read
      (config_parse_json (config_json_text m P) m).1 = P.RED_FRET.read m := by
    obtain ⟨more, hm⟩ := S "RED_FRET".toList ⟨"RED_FRET".toList, true, P.RED_FRET.read m⟩ rfl rfl
    rw [r_RED_FRET, extract_string_of_find _ _ _ more 8 f_RED_FRET.1 f_RED_FRET.2 hm]
    rfl
  have s_YELLOW_FRET : (config_parse_json (config_json_text m P) m).2.YELLOW_FRET.read
      (config_parse_json (config_json_text m P) m).1 = P.YELLOW_FRET.read m := by
    obtain ⟨more, hm⟩ := S "YELLOW_FRET".toList ⟨"YELLOW_FRET".toList, true, P.YELLOW_FRET.read m⟩ rfl rfl
    rw [r_YELLOW_FRET, extract_string_of_find _ _ _ more 8 f_YELLOW_FRET.1 f_YELLOW_FRET.2 hm]
    rfl
  have s_BLUE_FRET : (config_parse_json (config_json_text m P) m).2.BLUE_FRET.read
      (config_parse_json (config_json_text m P) m).1 = P.BLUE_FRET.read m := by
    obtain ⟨more, hm⟩ := S "BLUE_FRET".toList ⟨"BLUE_FRET".toList, true, P.BLUE_FRET.read m⟩ rfl rfl
    rw [r_BLUE_FRET, extract_string_of_find _ _ _ more 8 f_BLUE_FRET.1 f_BLUE_FRET.2 hm]
    rfl
  have s_ORANGE_FRET : (config_parse_json (config_json_text m P) m).2.ORANGE_FRET.read
      (config_parse_json (config_json_text m P) m).1 = P.ORANGE_FRET.read m := by
    obtain ⟨more, hm⟩ := S "ORANGE_FRET".toList ⟨"ORANGE_FRET".toList, true, P.ORANGE_FRET.read m⟩ rfl rfl
    rw [r_ORANGE_FRET, extract_string_of_find _ _ _ more 8 f_ORANGE_FRET.1 f_ORANGE_FRET.2 hm]
    rfl
  have s_STRUM_UP : (config_parse_json (config_json_text m P) m).2.STRUM_UP.read
      (config_parse_json (config_json_text m P) m).1 = P.STRUM_UP.read m := by
    obtain ⟨more, hm⟩ := S "STRUM_UP".toList ⟨"STRUM_UP".toList, true, P.STRUM_UP.read m⟩ rfl rfl
    rw [r_STRUM_UP, extract_string_of_find _ _ _ more 8 f_STRUM_UP.1 f_STRUM_UP.2 hm]
    rfl
  have s_STRUM_DOWN : (config_parse_json (config_json_text m P) m).2.STRUM_DOWN.read
      (config_parse_json (config_json_text m P) m).1 = P.STRUM_DOWN.read m := by
    obtain ⟨more, hm⟩ := S "STRUM_DOWN".toList ⟨"STRUM_DOWN".toList, true, P.STRUM_DOWN.read m⟩ rfl rfl
    rw [r_STRUM_DOWN, extract_string_of_find _ _ _ more 8 f_STRUM_DOWN.1 f_STRUM_DOWN.2 hm]
    rfl
  have s_TILT : (config_parse_json (config_json_text m P) m).2.TILT.read
      (config_parse_json (config_json_text m P) m).1 = P.TILT.read m := by
    obtain ⟨more, hm⟩ := S "TILT".toList ⟨"TILT".toList, true, P.TILT.read m⟩ rfl rfl
    rw [r_TILT, extract_string_of_find _ _ _ more 8 f_TILT.1 f_TILT.2 hm]
    rfl
  have s_SELECT : (config_parse_json (config_json_text m P) m).2.SELECT.read
      (config_parse_json (config_json_text m P) m).1 = P.SELECT.read m := by
    obtain ⟨more, hm⟩ := S "SELECT".toList ⟨"SELECT".toList, true, P.SELECT.read m⟩ rfl rfl
    rw [r_SELECT, extract_string_of_find _ _ _ more 8 f_SELECT.1 f_SELECT.2 hm]
    rfl
  have s_START : (config_parse_json (config_json_text m P) m).2.START.read
      (config_parse_json (config_json_text m P) m).1 = P.START.read m := by
    obtain ⟨more, hm⟩ := S "START".toList ⟨"START".toList, true, P.START.read m⟩ rfl rfl
    rw [r_START, extract_string_of_find _ _ _ more 8 f_START.1 f_START.2 hm]
    rfl
  have s_GUIDE : (config_parse_json (config_json_text m P) m).2.GUIDE.read
      (config_parse_json (config_json_text m P) m).1 = P.GUIDE.read m := by
    obtain ⟨more, hm⟩ := S "GUIDE".toList ⟨"GUIDE".toList, true, P.GUIDE.read m⟩ rfl rfl
    rw [r_GUIDE, extract_string_of_find _ _ _ more 8 f_GUIDE.1 f_GUIDE.2 hm]
    rfl
  have s_WHAMMY : (config_parse_json (config_json_text m P) m).2.WHAMMY.read
      (config_parse_json (config_json_text m P) m).1 = P.WHAMMY.read m := by
    obtain ⟨more, hm⟩ := S "WHAMMY".toList ⟨"WHAMMY".toList, true, P.WHAMMY.read m⟩ rfl rfl
    rw [r_WHAMMY, extract_string_of_find _ _ _ more 8 f_WHAMMY.1 f_WHAMMY.2 hm]
    rfl
  have s_neopixel_pin : (config_parse_json (config_json_text m P) m).2.neopixel_pin.read
      (config_parse_json (config_json_text m P) m).1 = P.neopixel_pin.read m := by
    obtain ⟨more, hm⟩ := S "neopixel_pin".toList ⟨"neopixel_pin".toList, true, P.neopixel_pin.read m⟩ rfl rfl
    rw [r_neopixel_pin, extract_string_of_find _ _ _ more 8 f_neopixel_pin.1 f_neopixel_pin.2 hm]
    rfl
  have s_joystick_x_pin : (config_parse_json (config_json_text m P) m).2.joystick_x_pin.read
      (config_parse_json (config_json_text m P) m).1 = P.joystick_x_pin.read m := by
    obtain ⟨more, hm⟩ := S "joystick_x_pin".toList ⟨"joystick_x_pin".toList, true, P.joystick_x_pin.read m⟩ rfl rfl
    rw [r_joystick_x_pin, extract_string_of_find _ _ _ more 8 f_joystick_x_pin.1 f_joystick_x_pin.2 hm]
    rfl
  have s_joystick_y_pin : (config_parse_json (config_json_text m P) m).2.joystick_y_pin.read
      (config_parse_json (config_json_text m P) m).1 = P.joystick_y_pin.read m := by
    obtain ⟨more, hm⟩ := S "joystick_y_pin".toList ⟨"joystick_y_pin".toList, true, P.joystick_y_pin.read m⟩ rfl rfl
    rw [r_joystick_y_pin, extract_string_of_find _ _ _ more 8 f_joystick_y_pin.1 f_joystick_y_pin.2 hm]
    rfl
  have s_hat_mode : (config_parse_json (config_json_text m P) m).2.hat_mode.read
      (config_parse_json (config_json_text m P) m).1 = P.hat_mode.read m := by
    obtain ⟨more, hm⟩ := S "hat_mode".toList ⟨"hat_mode".toList, true, P.hat_mode.read m⟩ rfl rfl
    rw [r_hat_mode, extract_string_of_find _ _ _ more 16 f_hat_mode.1 f_hat_mode.2 hm]
    rfl
  have i_GREEN_FRET_led : (config_parse_json (config_json_text m P) m).2.GREEN_FRET_led = P.GREEN_FRET_led := by
    obtain ⟨more, hm⟩ := S "GREEN_FRET_led".toList ⟨"GREEN_FRET_led".toList, false, fmt_u P.GREEN_FRET_led⟩ rfl rfl
    rw [t_GREEN_FRET_led]
    unfold parse_led
    rw [extract_int_of_find _ _ more _ (by unfold INT_MAX; omega) hm]
    simp only [ge_iff_le, Int.natCast_nonneg, if_true, Int.toNat_ofNat]
    exact Nat.mod_eq_of_lt (by omega)
  have i_RED_FRET_led : (config_parse_json (config_json_text m P) m).2.RED_FRET_led = P.RED_FRET_led := by
    obtain ⟨more, hm⟩ := S "RED_FRET_led".toList ⟨"RED_FRET_led".toList, false, fmt_u P.RED_FRET_led⟩ rfl rfl
    rw [t_RED_FRET_led]
    unfold parse_led
    rw [extract_int_of_find _ _ more _ (by unfold INT_MAX; omega) hm]
    simp only [ge_iff_le, Int.natCast_nonneg, if_true, Int.toNat_ofNat]
    exact Nat.mod_eq_of_lt (by omega)
  have i_YELLOW_FRET_led : (config_parse_json (config_json_text m P) m).2.YELLOW_FRET_led = P.YELLOW_FRET_led := by
    obtain ⟨more, hm⟩ := S "YELLOW_FRET_led".toList ⟨"YELLOW_FRET_led".toList, false, fmt_u P.YELLOW_FRET_led⟩ rfl rfl
    rw [t_YELLOW_FRET_led]
    unfold parse_led
    rw [extract_int_of_find _ _ more _ (by unfold INT_MAX; omega) hm]
    simp only [ge_iff_le, Int.natCast_nonneg, if_true, Int.toNat_ofNat]
    exact Nat.mod_eq_of_lt (by omega)
  have i_BLUE_FRET_led : (config_parse_json (config_json_text m P) m).2.BLUE_FRET_led = P.BLUE_FRET_led := by
    obtain ⟨more, hm⟩ := S "BLUE_FRET_led".toList ⟨"BLUE_FRET_led".toList, false, fmt_u P.BLUE_FRET_led⟩ rfl rfl
    rw [t_BLUE_FRET_led]
    unfold parse_led
    rw [extract_int_of_find _ _ more _ (by unfold INT_MAX; omega) hm]
    simp only [ge_iff_le, Int.natCast_nonneg, if_true, Int.toNat_ofNat]
    exact Nat.mod_eq_of_lt (by omega)
  have i_ORANGE_FRET_led : (config_parse_json (config_json_text m P) m).2.ORANGE_FRET_led = P.ORANGE_FRET_led := by
    obtain ⟨more, hm⟩ := S "ORANGE_FRET_led".toList ⟨"ORANGE_FRET_led".toList, false, fmt_u P.ORANGE_FRET_led⟩ rfl rfl
    rw [t_ORANGE_FRET_led]
    unfold parse_led
    rw [extract_int_of_find _ _ more _ (by unfold INT_MAX; omega) hm]
    simp only [ge_iff_le, Int.natCast_nonneg, if_true, Int.toNat_ofNat]
    exact Nat.mod_eq_of_lt (by omega)
  have i_STRUM_UP_led : (config_parse_json (config_json_text m P) m).2.STRUM_UP_led = P.STRUM_UP_led := by
    obtain ⟨more, hm⟩ := S "STRUM_UP_led".toList ⟨"STRUM_UP_led".toList, false, fmt_u P.STRUM_UP_led⟩ rfl rfl
    rw [t_STRUM_UP_led]
    unfold parse_led
    rw [extract_int_of_find _ _ more _ (by unfold INT_MAX; omega) hm]
    simp only [ge_iff_le, Int.natCast_nonneg, if_true, Int.toNat_ofNat]
    exact Nat.mod_eq_of_lt (by omega)
  have i_STRUM_DOWN_led : (config_parse_json (config_json_text m P) m).2.STRUM_DOWN_led = P.STRUM_DOWN_led := by
    obtain ⟨more, hm⟩ := S "STRUM_DOWN_led".toList ⟨"STRUM_DOWN_led".toList, false, fmt_u P.STRUM_DOWN_led⟩ rfl rfl
    rw [t_STRUM_DOWN_led]
    unfold parse_led
    rw [extract_int_of_find _ _ more _ (by unfold INT_MAX; omega) hm]
    simp only [ge_iff_le, Int.natCast_nonneg, if_true, Int.toNat_ofNat]
    exact Nat.mod_eq_of_lt (by omega)
  have i_whammy_min : (config_parse_json (config_json_text m P) m).2.whammy_min = P.whammy_min := by
    obtain ⟨more, hm⟩ := S "whammy_min".toList ⟨"whammy_min".toList, false, fmt_u P.whammy_min⟩ rfl rfl
    rw [t_whammy_min]
    unfold parse_u32
    rw [extract_int_of_find _ _ more _ (by unfold INT_MAX at hmax ⊢; omega) hm]
    simp only [ge_iff_le, Int.natCast_nonneg, if_true, Int.toNat_ofNat]
    exact Nat.mod_eq_of_lt (by unfold INT_MAX at hmax; omega)
  have i_whammy_max : (config_parse_json (config_json_text m P) m).2.whammy_max = P.whammy_max := by
    obtain ⟨more, hm⟩ := S "whammy_max".toList ⟨"whammy_max".toList, false, fmt_u P.whammy_max⟩ rfl rfl
    rw [t_whammy_max]
    unfold parse_u32
    rw [extract_int_of_find _ _ more _ (by unfold INT_MAX at hmax ⊢; omega) hm]
    simp only [ge_iff_le, Int.natCast_nonneg, if_true, Int.toNat_ofNat]
    exact Nat.mod_eq_of_lt (by unfold INT_MAX at hmax; omega)
  have b_whammy_reverse : (config_parse_json (config_json_text m P) m).2.whammy_reverse = P.whammy_reverse := by
    obtain ⟨more, hm⟩ := S "whammy_reverse".toList
      ⟨"whammy_reverse".toList, false, (if P.whammy_reverse then "true" else "false").toList⟩ rfl rfl
    rw [t_whammy_reverse]
    exact extract_bool_of_find _ _ more _ false hm
  have b_tilt_wave_enabled : (config_parse_json (config_json_text m P) m).2.tilt_wave_enabled = P.tilt_wave_enabled := by
    obtain ⟨more, hm⟩ := S "tilt_wave_enabled".toList
      ⟨"tilt_wave_enabled".toList, false, (if P.tilt_wave_enabled then "true" else "false").toList⟩ rfl rfl
    rw [t_tilt_wave_enabled]
    exact extract_bool_of_find _ _ more _ true hm
  refine ⟨?_, ?_⟩
  · simp only [strings_of, pins, List.map, List.cons_append, List.nil_append]
    rw [s_version, s_description, s_lastUpdated, s_device_name, s_UP, s_DOWN, s_LEFT, s_RIGHT, s_GREEN_FRET, s_RED_FRET, s_YELLOW_FRET, s_BLUE_FRET, s_ORANGE_FRET, s_STRUM_UP, s_STRUM_DOWN, s_TILT, s_SELECT, s_START, s_GUIDE, s_WHAMMY, s_neopixel_pin, s_joystick_x_pin, s_joystick_y_pin, s_hat_mode]
  · simp only [scalars_of]
    rw [i_GREEN_FRET_led, i_RED_FRET_led, i_YELLOW_FRET_led, i_BLUE_FRET_led, i_ORANGE_FRET_led, i_STRUM_UP_led, i_STRUM_DOWN_led, i_whammy_min, i_whammy_max, b_whammy_reverse, b_tilt_wave_enabled]

set_option maxRecDepth 1000000 in
/-- C1, as stated, fails: the profile `lossy_config` is accepted by
`config_validate` and `config_generate_json` succeeds on it, yet parsing the
generated text gives `lastUpdated` cut to the 15 characters its buffer holds,
the device name cut at its first double quote, the brightness 0.333 as the 0.33
that was printed, and the built-in table in `released_color` (first entry
`#454545` where the profile has `#888888`). -/
theorem config_round_trip_fails :
    config_validate Mem.zero lossy_config = true ∧
    config_generate_json Mem.zero lossy_config 2048 = some (config_json_text Mem.zero lossy_config) ∧
    (lossy_config.metadata.lastUpdated.read Mem.zero = "2025-08-21T10:00:00Z".toList ∧
      (config_parse_json (config_json_text Mem.zero lossy_config) Mem.zero).2.metadata.lastUpdated.read
        (config_parse_json (config_json_text Mem.zero lossy_config) Mem.zero).1
        = "2025-08-21T10:0".toList) ∧
    (lossy_config.device_name.read Mem.zero = "Guitar \"Hero\"".toList ∧
      (config_parse_json (config_json_text Mem.zero lossy_config) Mem.zero).2.device_name.read
        (config_parse_json (config_json_text Mem.zero lossy_config) Mem.zero).1
        = "Guitar ".toList) ∧
    (lossy_config.led_brightness = 333 / 1000 ∧
      (config_parse_json (config_json_text Mem.zero lossy_config) Mem.zero).2.led_brightness
        = 33 / 100) ∧
    ((lossy_config.released_color.getD 0 Ptr.null).read Mem.zero = "#888888".toList ∧
      ((config_parse_json (config_json_text Mem.zero lossy_config) Mem.zero).2.released_color.getD 0
        Ptr.null).read (config_parse_json (config_json_text Mem.zero lossy_config) Mem.zero).1
        = "#454545".toList) := by
  refine ⟨by decide!, by decide!, ⟨by decide, by decide⟩, ⟨by decide, by decide⟩,
    ⟨rfl, by decide!⟩, ⟨by decide, by decide⟩⟩

set_option maxRecDepth 1000000 in
/-- Witness for the amended C1: the default profile. -/
theorem config_round_trip_witness :
    strings_of (config_parse_json (config_json_text Mem.zero default_config) Mem.zero).1
        (config_parse_json (config_json_text Mem.zero default_config) Mem.zero).2
      = strings_of Mem.zero default_config ∧
    scalars_of (config_parse_json (config_json_text Mem.zero default_config) Mem.zero).2
      = scalars_of default_config :=
  config_round_trip Mem.zero default_config 2048 (config_json_text Mem.zero default_config)
    (by decide) (by decide) (by unfold round_trip_safe fits; decide)

set_option maxRecDepth 200000 in
theorem default_config_json_facts :
    default_config_json.length = 1081 ∧ (∀ c ∈ default_config_json, c ≠ Char.ofNat 0) ∧
    extract_string_value default_config_json "version".toList 16 = some "4.0.0".toList ∧
    parse_u32 default_config_json "whammy_min" 500 = 500 ∧
    parse_u32 default_config_json "whammy_max" 65000 = 65000 := by
  have hnul : default_config_json.all (fun c => c != Char.ofNat 0) = true := by decide
  refine ⟨by decide, ?_, by decide, by decide, by decide⟩
  intro c hc
  simpa using List.all_eq_true.mp hnul c hc

theorem config_storage_save_default (dev : FlashDevice) (flash : config_storage_t) :
    config_storage_save_to_flash dev default_config_json default_config_json.length flash
      = (config_storage_is_valid (dev (flash_image default_config_json default_config_json.length)),
         dev (flash_image default_config_json default_config_json.length)) := by
  unfold config_storage_save_to_flash
  rw [if_neg (by rw [default_config_json_facts.1]; decide)]
  simp only []
  cases config_storage_is_valid (dev (flash_image default_config_json default_config_json.length)) <;>
    rfl

/-- C4: whenever the flash record fails `config_storage_is_valid` at boot,
`config_init` leaves `device_config` with `metadata.version` reading `4.0.0`,
`whammy_min = 500` and `whammy_max = 65000`: both when the write of the default
text went through (the sector then holds the image that was programmed) and
when it did not verify. -/
theorem config_init_defaults_on_invalid_flash (dev1 dev2 : FlashDevice) (s : State)
    (hinv : config_storage_is_valid s.flash = false)
    (hdev : dev1 (flash_image default_config_json default_config_json.length)
        = flash_image default_config_json default_config_json.length ∨
      config_storage_is_valid (dev1 (flash_image default_config_json default_config_json.length))
        = false) :
    (config_init dev1 dev2 s).device_config.metadata.version.read (config_init dev1 dev2 s).statics
      = "4.0.0".toList ∧
    (config_init dev1 dev2 s).device_config.whammy_min = 500 ∧
    (config_init dev1 dev2 s).device_config.whammy_max = 65000 := by
  obtain ⟨hlen, hnul, hver, hmin, hmax⟩ := default_config_json_facts
  have hinit : config_storage_init dev1 s.flash
      = (config_storage_is_valid (dev1 (flash_image default_config_json default_config_json.length)),
         dev1 (flash_image default_config_json default_config_json.length)) := by
    unfold config_storage_init
    rw [hinv]
    simp only [Bool.false_eq_true, if_false]
    exact config_storage_save_default dev1 s.flash
  unfold config_init
  simp only [hinit]
  rcases hdev with hok | hbad
  · rw [hok]
    have hget := flash_image_get_json default_config_json (by rw [hlen]; decide)
      (by rw [hlen]; decide) hnul
    have hload : config_storage_load_from_flash
        (flash_image default_config_json default_config_json.length) s.statics
        = some (config_parse_json default_config_json s.statics) := by
      unfold config_storage_load_from_flash
      rw [hget]
    rw [hload]
    simp only []
    refine ⟨?_, ?_, ?_⟩
    · rw [(config_parse_json_strings default_config_json s.statics).1, hver]
      rfl
    · rw [(config_parse_json_scalars default_config_json s.statics).2.2.2.2.2.2.2.1]
      exact hmin
    · rw [(config_parse_json_scalars default_config_json s.statics).2.2.2.2.2.2.2.2.1]
      exact hmax
  · have hload : config_storage_load_from_flash
        (dev1 (flash_image default_config_json default_config_json.length)) s.statics = none := by
      unfold config_storage_load_from_flash config_storage_get_json
      rw [hbad]
      rfl
    rw [hload]
    simp only []
    cases config_generate_json s.statics default_config 1024 <;> exact ⟨rfl, rfl, rfl⟩

/-- Witness for C4: first boot over erased flash, on a flash device that works. -/
theorem config_init_defaults_on_invalid_flash_witness :
    (config_init id id first_boot).device_config.metadata.version.read
        (config_init id id first_boot).statics = "4.0.0".toList ∧
    (config_init id id first_boot).device_config.whammy_min = 500 ∧
    (config_init id id first_boot).device_config.whammy_max = 65000 :=
  config_init_defaults_on_invalid_flash id id first_boot (by decide) (Or.inl rfl)

theorem config_init_loads (dev1 dev2 : FlashDevice) (s : State)
    (hinv : config_storage_is_valid s.flash = false)
    (hdev : dev1 (flash_image default_config_json default_config_json.length)
        = flash_image default_config_json default_config_json.length) :
    config_init dev1 dev2 s
      = { statics := (config_parse_json default_config_json s.statics).1
          device_config := (config_parse_json default_config_json s.statics).2
          flash := flash_image default_config_json default_config_json.length } := by
  obtain ⟨hlen, hnul, -, -, -⟩ := default_config_json_facts
  have hinit : config_storage_init dev1 s.flash
      = (config_storage_is_valid (dev1 (flash_image default_config_json default_config_json.length)),
         dev1 (flash_image default_config_json default_config_json.length)) := by
    unfold config_storage_init
    rw [hinv]
    simp only [Bool.false_eq_true, if_false]
    exact config_storage_save_default dev1 s.flash
  unfold config_init
  simp only [hinit]
  rw [hdev]
  have hget := flash_image_get_json default_config_json (by rw [hlen]; decide)
    (by rw [hlen]; decide) hnul
  have hload : config_storage_load_from_flash
      (flash_image default_config_json default_config_json.length) s.statics
      = some (config_parse_json default_config_json s.statics) := by
    unfold config_storage_load_from_flash
    rw [hget]
  rw [hload]

theorem booted_eq : booted
    = { statics := (config_parse_json default_config_json Mem.zero).1
        device_config := (config_parse_json default_config_json Mem.zero).2
        flash := flash_image default_config_json default_config_json.length } :=
  config_init_loads id id first_boot (by decide) rfl

/-- What does hold on a rejected update: the struct `device_config` itself (its
pointers and numbers) is as before; the static buffers are those the parse of
the rejected text left. -/
theorem config_update_rejected_keeps_struct (dev : FlashDevice) (json_string : cstring) (s : State)
    (h : (config_update_from_json dev json_string s).1 = false) :
    (config_update_from_json dev json_string s).2.device_config = s.device_config ∧
    (config_update_from_json dev json_string s).2.statics
      = (config_parse_json json_string s.statics).1 := by
  unfold config_update_from_json at h ⊢
  simp only [] at h ⊢
  split_ifs at h ⊢ with h1 h2
  · exact ⟨rfl, rfl⟩
  · exact ⟨rfl, rfl⟩

set_option maxRecDepth 1000000 in
/-- C3 fails on the code: after a boot that loaded the profile from flash, the
update text `rejected_json` is rejected by `config_update_from_json` (pin `GP99`
is out of range) and `device_config` keeps the same pointers, yet the device
name it reads has changed from `Guitar Controller` to `Mine` and the pin `UP`
from `GP2` to `GP99`: the parser wrote the rejected strings into the static
buffers the active profile points into. -/
theorem config_update_rejected_overwrites_active :
    (config_update_from_json id rejected_json booted).1 = false ∧
    (booted.device_config.device_name = Ptr.buf Buf.device_name_buf ∧
      (config_update_from_json id rejected_json booted).2.device_config.device_name
        = Ptr.buf Buf.device_name_buf) ∧
    (booted.device_config.device_name.read booted.statics = "Guitar Controller".toList ∧
      (config_update_from_json id rejected_json booted).2.device_config.device_name.read
        (config_update_from_json id rejected_json booted).2.statics = "Mine".toList) ∧
    (booted.device_config.UP.read booted.statics = "GP2".toList ∧
      (config_update_from_json id rejected_json booted).2.device_config.UP.read
        (config_update_from_json id rejected_json booted).2.statics = "GP99".toList) := by
  rw [booted_eq]
  refine ⟨by decide, ⟨by decide, by decide⟩, ⟨by decide, by decide⟩, ⟨by decide, by decide⟩⟩

end Config

/-! ## Theorems: one-shot mode flag (`main_smart_unified.cpp`) -/

namespace SmartUnified

theorem detect_persistent_mode_clears (flag : Nat) : (detect_persistent_mode flag).2 = 0 := by
  simp only [detect_persistent_mode]
  split_ifs <;> rfl

/-- C9: for every value of the scratch register, `detect_persistent_mode`
returns HID exactly when the value is `MODE_HID` (0xBEEF0002) and XInput
otherwise, it always leaves the register at 0, and a second call right after
returns XInput. -/
theorem detect_persistent_mode_consumes (flag : Nat) :
    MODE_HID = 0xBEEF0002 ∧
    ((detect_persistent_mode flag).1 = true ↔ flag = MODE_HID) ∧
    ((detect_persistent_mode flag).1 = false ↔ flag ≠ MODE_HID) ∧
    (detect_persistent_mode flag).2 = 0 ∧
    (detect_persistent_mode (detect_persistent_mode flag).2).1 = false := by
  have key : (detect_persistent_mode flag).1 = true ↔ flag = MODE_HID := by
    simp only [detect_persistent_mode]
    split_ifs with h1 h2 <;> simp [h1]
  refine ⟨by decide, key, ?_, detect_persistent_mode_clears flag, ?_⟩
  · rw [← Bool.not_eq_true, key]
  · rw [detect_persistent_mode_clears]
    decide

/-- Whatever the scratch register holds at reset, `main` reaches `tusb_init` with
`g_use_hid_mode` false and the register cleared. -/
theorem main_until_tusb_init_xinput (flag : Nat) :
    main_until_tusb_init flag = { g_use_hid_mode := false, scratch := 0 } := by
  unfold main_until_tusb_init
  simp only [detect_persistent_mode_clears]
  rfl

/-- C8: with `MODE_HID` (0xBEEF0002) in the scratch register at reset, the boot
sequence of `main` reaches `tusb_init` with `g_use_hid_mode` false (XInput): the
second call of `detect_persistent_mode` reads the register the first call
cleared and overwrites the HID choice. The register is 0. -/
theorem main_boot_drops_hid_flag :
    MODE_HID = 0xBEEF0002 ∧
    (detect_persistent_mode MODE_HID).1 = true ∧
    (main_until_tusb_init MODE_HID).g_use_hid_mode = false ∧
    (main_until_tusb_init MODE_HID).scratch = 0 := by
  decide

end SmartUnified

/-! ## Theorems: stored USB mode and boot combination (`usb_mode_storage.c`) -/

namespace UsbModeStorage

theorem usb_mode_storage_get_loaded (s : Storage) (h : s.config_loaded = true) :
    usb_mode_storage_get s = (s.current_config.usb_mode, s) := by
  simp [usb_mode_storage_get, h]

theorem usb_mode_storage_init_loaded (s : Storage) :
    (usb_mode_storage_init s).config_loaded = true := by
  unfold usb_mode_storage_init
  cases h : s.config_loaded <;> simp [h]

theorem load_config_from_flash_invalid (s : Storage)
    (h : s.flash.magic ≠ USB_MODE_MAGIC ∨ s.flash.version ≠ USB_MODE_VERSION ∨
      calculate_checksum s.flash ≠ s.flash.checksum) :
    (load_config_from_flash s).2.current_config.usb_mode = USB_MODE_XINPUT := by
  unfold load_config_from_flash
  simp only [h, if_true]

theorem ensure_loaded (s : Storage) :
    (if (!s.config_loaded) = true then usb_mode_storage_init s else s).config_loaded = true := by
  cases h : s.config_loaded
  · simpa using usb_mode_storage_init_loaded s
  · simp [h]

theorem usb_mode_storage_set_get (dev : usb_mode_config_t → usb_mode_config_t) (mode : Nat)
    (s : Storage) :
    (usb_mode_storage_get (usb_mode_storage_set dev mode s).2).1 = mode := by
  have hl := ensure_loaded s
  unfold usb_mode_storage_set
  simp only []
  generalize (if (!s.config_loaded) = true then usb_mode_storage_init s else s) = s1 at hl ⊢
  split_ifs with h1
  · rw [usb_mode_storage_get_loaded]
    · simp [save_config_to_flash]
    · simpa [save_config_to_flash] using hl
  · rw [usb_mode_storage_get_loaded _ hl]
    simpa using h1

theorem usb_mode_storage_get_idem (s : Storage) :
    usb_mode_storage_get (usb_mode_storage_get s).2 = usb_mode_storage_get s := by
  have hl := ensure_loaded s
  conv_rhs => rw [usb_mode_storage_get]
  conv_lhs => arg 1; rw [usb_mode_storage_get]
  simp only []
  generalize (if (!s.config_loaded) = true then usb_mode_storage_init s else s) = s1 at hl ⊢
  rw [usb_mode_storage_get_loaded _ hl]

theorem usb_mode_storage_get_flash (s : Storage) :
    (usb_mode_storage_get s).2.flash = s.flash ∧
    (usb_mode_storage_get s).2.flash_writes = s.flash_writes := by
  unfold usb_mode_storage_get usb_mode_storage_init load_config_from_flash
  cases s.config_loaded
  · simp only [Bool.not_false, if_true]
    split_ifs <;> exact ⟨rfl, rfl⟩
  · exact ⟨rfl, rfl⟩

theorem usb_mode_storage_set_persists (mode : Nat) (s : Storage)
    (hl : s.config_loaded = false) :
    (usb_mode_storage_get
      { (usb_mode_storage_set id mode s).2 with config_loaded := false }).1 = mode := by
  simp only [usb_mode_storage_set, usb_mode_storage_get, usb_mode_storage_init, hl, Bool.not_false, if_true,
    save_config_to_flash, load_config_from_flash]
  by_cases hv : s.flash.magic ≠ USB_MODE_MAGIC ∨ s.flash.version ≠ USB_MODE_VERSION ∨
      calculate_checksum s.flash ≠ s.flash.checksum
  · simp only [hv, if_true]
    by_cases hmode : USB_MODE_XINPUT = mode
    · simp [hmode.symm, hv]
    · simp [hmode, calculate_checksum]
  · simp only [hv, if_false]
    by_cases hmode : s.flash.usb_mode = mode
    · simp [hmode, hv]
    · push_neg at hv
      simp [hmode, calculate_checksum, hv.1, hv.2.1]

/-- C10: `usb_mode_check_boot_combo` returns XInput and makes XInput the stored
mode when only the green line is low; returns HID and makes HID the stored mode
when only the red line is low; when both lines or neither are low it returns the
stored mode, leaves it as it was and writes nothing to flash; and the stored
mode of a storage not yet loaded is XInput whenever the flash record has a wrong
magic, version or checksum. The stored mode is what `usb_mode_storage_get`
returns; at boot (nothing loaded yet) on a flash device that works, the mode a
single held button selects is also what a later boot loads from flash. -/
theorem usb_mode_check_boot_combo_precedence (dev : usb_mode_config_t → usb_mode_config_t)
    (s : Storage) :
    ((usb_mode_check_boot_combo dev false true s).1 = USB_MODE_XINPUT ∧
      (usb_mode_storage_get (usb_mode_check_boot_combo dev false true s).2).1 = USB_MODE_XINPUT) ∧
    ((usb_mode_check_boot_combo dev true false s).1 = USB_MODE_HID ∧
      (usb_mode_storage_get (usb_mode_check_boot_combo dev true false s).2).1 = USB_MODE_HID) ∧
    (∀ level : Bool,
      (usb_mode_check_boot_combo dev level level s).1 = (usb_mode_storage_get s).1 ∧
      (usb_mode_storage_get (usb_mode_check_boot_combo dev level level s).2).1
        = (usb_mode_storage_get s).1 ∧
      (usb_mode_check_boot_combo dev level level s).2.flash = s.flash ∧
      (usb_mode_check_boot_combo dev level level s).2.flash_writes = s.flash_writes) ∧
    (s.config_loaded = false →
      (s.flash.magic ≠ USB_MODE_MAGIC ∨ s.flash.version ≠ USB_MODE_VERSION ∨
        calculate_checksum s.flash ≠ s.flash.checksum) →
      (usb_mode_storage_get s).1 = USB_MODE_XINPUT) ∧
    (s.config_loaded = false →
      (usb_mode_storage_get
        { (usb_mode_check_boot_combo id false true s).2 with config_loaded := false }).1
        = USB_MODE_XINPUT ∧
      (usb_mode_storage_get
        { (usb_mode_check_boot_combo id true false s).2 with config_loaded := false }).1
        = USB_MODE_HID) := by
  refine ⟨⟨?_, ?_⟩, ⟨?_, ?_⟩, ?_, ?_, ?_⟩
  · simp [usb_mode_check_boot_combo]
  · simpa [usb_mode_check_boot_combo] using usb_mode_storage_set_get dev USB_MODE_XINPUT s
  · simp [usb_mode_check_boot_combo]
  · simpa [usb_mode_check_boot_combo] using usb_mode_storage_set_get dev USB_MODE_HID s
  · intro level
    have hc : usb_mode_check_boot_combo dev level level s = usb_mode_storage_get s := by
      cases level <;> simp [usb_mode_check_boot_combo]
    rw [hc, usb_mode_storage_get_idem]
    exact ⟨rfl, rfl, (usb_mode_storage_get_flash s).1, (usb_mode_storage_get_flash s).2⟩
  · intro hl hbad
    simp only [usb_mode_storage_get, usb_mode_storage_init, hl]
    simpa using load_config_from_flash_invalid s hbad
  · intro hl
    refine ⟨?_, ?_⟩
    · simpa [usb_mode_check_boot_combo] using usb_mode_storage_set_persists USB_MODE_XINPUT s hl
    · simpa [usb_mode_check_boot_combo] using usb_mode_storage_set_persists USB_MODE_HID s hl

/-- Witness for C10: a storage at boot over erased flash (all words 0xFFFFFFFF). -/
theorem usb_mode_check_boot_combo_precedence_witness :
    (usb_mode_storage_get
      { current_config := ⟨0, 0, 0, 0⟩, config_loaded := false,
        flash := ⟨0xFFFFFFFF, 0xFFFFFFFF, 0xFFFFFFFF, 0xFFFFFFFF⟩, flash_writes := 0 }).1
      = USB_MODE_XINPUT :=
  (usb_mode_check_boot_combo_precedence id
    { current_config := ⟨0, 0, 0, 0⟩, config_loaded := false,
      flash := ⟨0xFFFFFFFF, 0xFFFFFFFF, 0xFFFFFFFF, 0xFFFFFFFF⟩, flash_writes := 0 }).2.2.2.1
    rfl (by decide)

end UsbModeStorage

/-! ## Theorems: USB mode storage, setting the stored mode again -/

namespace UsbModeStorage

/-- A second `usb_mode_storage_set` with the same mode changes nothing. -/
theorem usb_mode_storage_set_twice (dev : usb_mode_config_t → usb_mode_config_t) (mode : Nat)
    (s : Storage) :
    usb_mode_storage_set dev mode (usb_mode_storage_set dev mode s).2
      = (true, (usb_mode_storage_set dev mode s).2) := by
  have hl := ensure_loaded s
  have key : ∀ t : Storage, t.config_loaded = true → t.current_config.usb_mode = mode →
      usb_mode_storage_set dev mode t = (true, t) := by
    intro t h1 h2
    simp [usb_mode_storage_set, h1, h2]
  apply key
  · unfold usb_mode_storage_set
    simp only []
    generalize (if (!s.config_loaded) = true then usb_mode_storage_init s else s) = s1 at hl ⊢
    split_ifs with h1
    · simpa [save_config_to_flash] using hl
    · exact hl
  · have := usb_mode_storage_set_get dev mode s
    rw [usb_mode_storage_get_loaded] at this
    · exact this
    · unfold usb_mode_storage_set
      simp only []
      generalize (if (!s.config_loaded) = true then usb_mode_storage_init s else s) = s1 at hl ⊢
      split_ifs with h1
      · simpa [save_config_to_flash] using hl
      · exact hl

/-- C11: `usb_mode_storage_set(m)` called when the stored mode (what
`usb_mode_storage_get` returns) already equals `m` returns `true`, performs no
flash erase or program (the sector and the count of flash writes are as before),
and leaves the state a mere `usb_mode_storage_get` leaves, so stored mode and
checksum are unchanged; and calling it twice with the same `m` leaves the same
state as calling it once. -/
theorem usb_mode_storage_set_idempotent (dev : usb_mode_config_t → usb_mode_config_t)
    (mode : Nat) (s : Storage) (h : (usb_mode_storage_get s).1 = mode) :
    (usb_mode_storage_set dev mode s).1 = true ∧
    (usb_mode_storage_set dev mode s).2.flash = s.flash ∧
    (usb_mode_storage_set dev mode s).2.flash_writes = s.flash_writes ∧
    (usb_mode_storage_set dev mode s).2 = (usb_mode_storage_get s).2 ∧
    (usb_mode_storage_get (usb_mode_storage_set dev mode s).2).1 = mode ∧
    (s.config_loaded = true → (usb_mode_storage_set dev mode s).2 = s) ∧
    usb_mode_storage_set dev mode (usb_mode_storage_set dev mode s).2
      = (true, (usb_mode_storage_set dev mode s).2) := by
  have hset : usb_mode_storage_set dev mode s = (true, (usb_mode_storage_get s).2) := by
    unfold usb_mode_storage_get at h ⊢
    unfold usb_mode_storage_set
    simp only [] at h ⊢
    rw [if_neg (by simpa using h)]
  have hf := usb_mode_storage_get_flash s
  refine ⟨by rw [hset], by rw [hset]; exact hf.1, by rw [hset]; exact hf.2, by rw [hset], ?_, ?_,
    usb_mode_storage_set_twice dev mode s⟩
  · exact usb_mode_storage_set_get dev mode s
  · intro hl
    rw [hset, usb_mode_storage_get_loaded s hl]

/-- Witness for C11: a loaded storage whose mode is HID, set to HID again. -/
theorem usb_mode_storage_set_idempotent_witness :
    (usb_mode_storage_set id USB_MODE_HID
      { current_config := ⟨USB_MODE_MAGIC, USB_MODE_VERSION, USB_MODE_HID, 0x42474723⟩,
        config_loaded := true,
        flash := ⟨USB_MODE_MAGIC, USB_MODE_VERSION, USB_MODE_HID, 0x42474723⟩,
        flash_writes := 0 }).2.flash_writes = 0 :=
  (usb_mode_storage_set_idempotent id USB_MODE_HID
    { current_config := ⟨USB_MODE_MAGIC, USB_MODE_VERSION, USB_MODE_HID, 0x42474723⟩,
      config_loaded := true,
      flash := ⟨USB_MODE_MAGIC, USB_MODE_VERSION, USB_MODE_HID, 0x42474723⟩,
      flash_writes := 0 } (by decide)).2.2.1

end UsbModeStorage

/-! ## Theorems: conversions of C integer types -/

namespace CArith

/-- `to_u16` is the identity on 16-bit values. -/
theorem to_u16_of_lt (n : Nat) (h : n < 65536) : to_u16 (n : Int) = n := by
  unfold to_u16
  omega

/-- `to_u32` is the identity on 32-bit values. -/
theorem to_u32_of_lt (n : Nat) (h : n < 4294967296) : to_u32 (n : Int) = n := by
  unfold to_u32
  omega

/-- A 32-bit value survives the conversion to `int32_t` and back. -/
theorem to_u32_to_i32 (n : Nat) (h : n < 4294967296) : to_u32 (to_i32 (n : Int)) = n := by
  unfold to_u32 to_i32
  omega

/-- The clamped reading, as a natural number. -/
theorem calibrated_eq (lo hi raw : Nat) (h1 : lo < hi) (h2 : hi < 4294967296) (h3 : raw < 65536) :
    to_u32 (if to_u32 (if to_u32 ((to_u16 (raw : Int) : Nat) : Int) < lo then to_i32 (lo : Int)
                         else ((to_u16 (raw : Int) : Nat) : Int)) > hi
              then to_i32 (hi : Int)
              else (if to_u32 ((to_u16 (raw : Int) : Nat) : Int) < lo then to_i32 (lo : Int)
                         else ((to_u16 (raw : Int) : Nat) : Int)))
      = min (max raw lo) hi := by
  rw [to_u16_of_lt raw h3, to_u32_of_lt raw (by omega)]
  by_cases ha : raw < lo
  · rw [if_pos ha, to_u32_to_i32 lo (by omega), if_neg (by omega), to_u32_to_i32 lo (by omega)]
    omega
  · rw [if_neg ha, to_u32_of_lt raw (by omega)]
    by_cases hb : raw > hi
    · rw [if_pos hb, to_u32_to_i32 hi h2]
      omega
    · rw [if_neg hb, to_u32_of_lt raw (by omega)]
      omega

/-- The subtraction of 32768 from a 16-bit quotient, taken in `uint32_t` and
stored in an `int32_t`. -/
theorem to_i32_sub_32768 (q : Nat) (h : q ≤ 65535) :
    to_i32 (to_u32 ((q : Int) - 32768)) = (q : Int) - 32768 := by
  unfold to_i32 to_u32
  omega

/-- The negation of the scaled value does not wrap. -/
theorem to_i32_neg (q : Nat) (h : q ≤ 65535) :
    to_i32 (-((q : Int) - 32768)) = 32768 - (q : Int) := by
  unfold to_i32
  omega

end CArith

/-! ## Theorems: the generic-joystick build (`main_dual_hid.cpp`) -/

namespace DualHid

open CArith ConfigManager

/-- C12: `calculate_hat_value` returns a value in 0..8 for all 16 combinations of
(up, down, left, right), and the nine combinations none, N, NE, E, SE, S, SW, W,
NW map to the pairwise distinct codes N=0, NE=1, E=2, SE=3, S=4, SW=5, W=6,
NW=7, none=8. -/
theorem calculate_hat_value_codes :
    (∀ up down left right : Bool, calculate_hat_value up down left right ≤ 8) ∧
    calculate_hat_value true false false false = 0 ∧
    calculate_hat_value true false false true = 1 ∧
    calculate_hat_value false false false true = 2 ∧
    calculate_hat_value false true false true = 3 ∧
    calculate_hat_value false true false false = 4 ∧
    calculate_hat_value false true true false = 5 ∧
    calculate_hat_value false false true false = 6 ∧
    calculate_hat_value true false true false = 7 ∧
    calculate_hat_value false false false false = 8 ∧
    ([calculate_hat_value true false false false, calculate_hat_value true false false true,
      calculate_hat_value false false false true, calculate_hat_value false true false true,
      calculate_hat_value false true false false, calculate_hat_value false true true false,
      calculate_hat_value false false true false, calculate_hat_value true false true false,
      calculate_hat_value false false false false].Nodup) := by
  decide

/-- C13, as stated, fails: with up and down held together with right,
`calculate_hat_value` gives center (8), not E (2); likewise with left it gives 8,
not W (6), and left+right with up or with down gives 8, not N (0) or S (4). -/
theorem calculate_hat_value_no_axis_cancel :
    calculate_hat_value true true false true = 8 ∧
    calculate_hat_value true true true false = 8 ∧
    calculate_hat_value true false true true = 8 ∧
    calculate_hat_value false true true true = 8 := by
  decide

/-- C13, amended: in `calculate_hat_value` a pair of opposite directions held
together cancels the whole hat: every combination that contains up+down or
left+right gives center (8), whatever else is held (so up+down alone,
left+right alone and all four give 8, and so do up+down+right, up+down+left,
left+right+up and left+right+down). -/
theorem calculate_hat_value_opposites_center (up down left right : Bool)
    (h : (up && down) || (left && right) = true) :
    calculate_hat_value up down left right = 8 := by
  revert h
  revert up down left right
  decide

/-- Witness for the amended C13: up, down and right held. -/
theorem calculate_hat_value_opposites_center_witness :
    calculate_hat_value true true false true = 8 :=
  calculate_hat_value_opposites_center true true false true (by decide)

/-- A difference of naturals taken in `uint32_t`. -/
theorem to_u32_sub (c lo : Nat) (h1 : lo ≤ c) (h2 : c - lo ≤ 65535) :
    to_u32 ((c : Int) - lo) = c - lo := by
  unfold to_u32
  omega

/-- The range `whammy_max - whammy_min` after its round through `int32_t`. -/
theorem to_u32_range (lo hi : Nat) (h1 : lo < hi) (h2 : hi < 4294967296) :
    to_u32 (to_i32 (to_u32 ((hi : Int) - lo))) = hi - lo := by
  unfold to_u32 to_i32
  omega

/-- The product by 255 of a 16-bit value does not wrap. -/
theorem to_u32_mul_255 (d : Nat) (h : d ≤ 65535) : to_u32 ((d : Int) * 255) = d * 255 := by
  unfold to_u32
  omega

/-- The product by 65535 of a 16-bit value does not wrap. -/
theorem to_u32_mul_65535 (d : Nat) (h : d ≤ 65535) : to_u32 ((d : Int) * 65535) = d * 65535 := by
  unfold to_u32
  omega

/-- `to_i32` is the identity on small naturals. -/
theorem to_i32_small (q : Nat) (h : q < 2147483648) : to_i32 (q : Int) = q := by
  unfold to_i32
  omega

/-- The reversal `255 - q` does not wrap. -/
theorem to_i32_255_sub (q : Nat) (h : q ≤ 255) : to_i32 (255 - (q : Int)) = 255 - (q : Int) := by
  unfold to_i32
  omega

/-- The quotient the calibration computes, in natural numbers. -/
theorem hid_whammy_scaled_eq (device_config : bgg_config_t) (whammy_raw : Nat)
    (h1 : device_config.whammy_min < device_config.whammy_max)
    (h2 : device_config.whammy_max < 4294967296) (h3 : whammy_raw < 65536) :
    whammy_scaled device_config whammy_raw
      = if device_config.whammy_reverse then
          255 - (((min (max whammy_raw device_config.whammy_min) device_config.whammy_max
                    - device_config.whammy_min) * 255
                  / (device_config.whammy_max - device_config.whammy_min) : Nat) : Int)
        else
          (((min (max whammy_raw device_config.whammy_min) device_config.whammy_max
                    - device_config.whammy_min) * 255
                  / (device_config.whammy_max - device_config.whammy_min) : Nat) : Int) := by
  unfold whammy_scaled
  simp only []
  rw [calibrated_eq _ _ _ h1 h2 h3]
  have hc1 : device_config.whammy_min ≤
      min (max whammy_raw device_config.whammy_min) device_config.whammy_max := by omega
  have hc2 : min (max whammy_raw device_config.whammy_min) device_config.whammy_max
      ≤ device_config.whammy_max := by omega
  have hc3 : min (max whammy_raw device_config.whammy_min) device_config.whammy_max
      - device_config.whammy_min ≤ 65535 := by omega
  generalize min (max whammy_raw device_config.whammy_min) device_config.whammy_max = c
    at hc1 hc2 hc3 ⊢
  have e1 := to_u32_sub c device_config.whammy_min hc1 hc3
  have e2 := to_u32_range device_config.whammy_min device_config.whammy_max h1 h2
  have e3 := to_u32_mul_255 (c - device_config.whammy_min) hc3
  rw [e1, e2, e3]
  have hq : (c - device_config.whammy_min) * 255
      / (device_config.whammy_max - device_config.whammy_min) ≤ 255 := by
    apply Nat.div_le_of_le_mul
    have : c - device_config.whammy_min ≤ device_config.whammy_max - device_config.whammy_min := by
      omega
    exact Nat.mul_le_mul_right 255 this
  generalize (c - device_config.whammy_min) * 255
      / (device_config.whammy_max - device_config.whammy_min) = q at hq
  have e4 := to_i32_small q (by omega)
  rw [e4]
  split
  · exact to_i32_255_sub q hq
  · rfl

/-- The axis byte is the natural-number quotient, or 255 minus it. -/
theorem hid_whammy_axis_eq (device_config : bgg_config_t) (whammy_reverse : Bool)
    (gpio_get : Nat → Bool) (gamepad_report : hid_gamepad_report_t) (whammy_raw : Nat)
    (h1 : device_config.whammy_min < device_config.whammy_max)
    (h2 : device_config.whammy_max < 4294967296) (h3 : whammy_raw < 65536) :
    (min (max whammy_raw device_config.whammy_min) device_config.whammy_max
        - device_config.whammy_min) * 255
      / (device_config.whammy_max - device_config.whammy_min) ≤ 255 ∧
    whammy_axis device_config whammy_reverse gpio_get gamepad_report whammy_raw
      = if whammy_reverse then
          255 - (min (max whammy_raw device_config.whammy_min) device_config.whammy_max
                    - device_config.whammy_min) * 255
                  / (device_config.whammy_max - device_config.whammy_min)
        else
          (min (max whammy_raw device_config.whammy_min) device_config.whammy_max
                    - device_config.whammy_min) * 255
                  / (device_config.whammy_max - device_config.whammy_min) := by
  have hq : (min (max whammy_raw device_config.whammy_min) device_config.whammy_max
        - device_config.whammy_min) * 255
      / (device_config.whammy_max - device_config.whammy_min) ≤ 255 := by
    apply Nat.div_le_of_le_mul
    exact Nat.mul_le_mul_right 255 (by omega)
  refine ⟨hq, ?_⟩
  have e := hid_whammy_scaled_eq { device_config with whammy_reverse := whammy_reverse } whammy_raw
    h1 h2 h3
  simp only [] at e
  unfold whammy_axis read_inputs
  simp only []
  rw [e]
  generalize (min (max whammy_raw device_config.whammy_min) device_config.whammy_max
        - device_config.whammy_min) * 255
      / (device_config.whammy_max - device_config.whammy_min) = q at hq
  cases whammy_reverse
  · simp only [Bool.false_eq_true, if_false]
    unfold to_u8
    omega
  · simp only [if_true]
    unfold to_u8
    omega

/-- C14: in `read_inputs` of `main_dual_hid.cpp`, for every profile with
`whammy_min < whammy_max` (32-bit bounds) and every 16-bit raw reading, the
whammy axis byte is in 0..255; with `whammy_reverse` false it is non-decreasing
in the raw reading, 0 for raw <= `whammy_min` and 255 for raw >= `whammy_max`;
with `whammy_reverse` true it equals 255 minus the non-reversed value, so it is
255 for raw <= `whammy_min` and 0 for raw >= `whammy_max`. -/
theorem whammy_axis_calibrated (device_config : bgg_config_t) (whammy_reverse : Bool)
    (gpio_get : Nat → Bool) (gamepad_report : hid_gamepad_report_t) (whammy_raw raw2 : Nat)
    (h1 : device_config.whammy_min < device_config.whammy_max)
    (h2 : device_config.whammy_max < 4294967296)
    (h3 : whammy_raw < 65536) (h4 : raw2 < 65536) :
    whammy_axis device_config whammy_reverse gpio_get gamepad_report whammy_raw ≤ 255 ∧
    (whammy_raw ≤ raw2 →
      whammy_axis device_config false gpio_get gamepad_report whammy_raw
        ≤ whammy_axis device_config false gpio_get gamepad_report raw2) ∧
    (whammy_raw ≤ device_config.whammy_min →
      whammy_axis device_config false gpio_get gamepad_report whammy_raw = 0) ∧
    (device_config.whammy_max ≤ whammy_raw →
      whammy_axis device_config false gpio_get gamepad_report whammy_raw = 255) ∧
    whammy_axis device_config true gpio_get gamepad_report whammy_raw
      = 255 - whammy_axis device_config false gpio_get gamepad_report whammy_raw ∧
    (whammy_raw ≤ device_config.whammy_min →
      whammy_axis device_config true gpio_get gamepad_report whammy_raw = 255) ∧
    (device_config.whammy_max ≤ whammy_raw →
      whammy_axis device_config true gpio_get gamepad_report whammy_raw = 0) := by
  obtain ⟨hq, e⟩ := hid_whammy_axis_eq device_config whammy_reverse gpio_get gamepad_report
    whammy_raw h1 h2 h3
  obtain ⟨-, ef⟩ := hid_whammy_axis_eq device_config false gpio_get gamepad_report whammy_raw h1 h2 h3
  obtain ⟨-, et⟩ := hid_whammy_axis_eq device_config true gpio_get gamepad_report whammy_raw h1 h2 h3
  obtain ⟨-, ef2⟩ := hid_whammy_axis_eq device_config false gpio_get gamepad_report raw2 h1 h2 h4
  simp only [Bool.false_eq_true, if_false] at ef ef2
  simp only [if_true] at et
  have hlo : whammy_raw ≤ device_config.whammy_min →
      (min (max whammy_raw device_config.whammy_min) device_config.whammy_max
        - device_config.whammy_min) * 255
      / (device_config.whammy_max - device_config.whammy_min) = 0 := by
    intro h
    have : min (max whammy_raw device_config.whammy_min) device_config.whammy_max
        - device_config.whammy_min = 0 := by omega
    rw [this]
    simp
  have hhi : device_config.whammy_max ≤ whammy_raw →
      (min (max whammy_raw device_config.whammy_min) device_config.whammy_max
        - device_config.whammy_min) * 255
      / (device_config.whammy_max - device_config.whammy_min) = 255 := by
    intro h
    have : min (max whammy_raw device_config.whammy_min) device_config.whammy_max
        - device_config.whammy_min = device_config.whammy_max - device_config.whammy_min := by
      omega
    rw [this]
    exact Nat.mul_div_cancel_left 255 (by omega)
  refine ⟨?_, ?_, ?_, ?_, ?_, ?_, ?_⟩
  · rw [e]
    split <;> omega
  · intro h
    rw [ef, ef2]
    apply Nat.div_le_div_right
    apply Nat.mul_le_mul_right
    omega
  · intro h
    rw [ef, hlo h]
  · intro h
    rw [ef, hhi h]
  · rw [et, ef]
  · intro h
    rw [et, hlo h]
  · intro h
    rw [et, hhi h]

/-- Witness for C14: the default range 500..65000 at the readings 500 and 65000. -/
theorem whammy_axis_calibrated_witness :
    whammy_axis sample_config true (fun _ => true) ⟨0, 0, 0, 0, 0, 0, 0, 0, 0⟩ 500 ≤ 255 :=
  (whammy_axis_calibrated sample_config true (fun _ => true) ⟨0, 0, 0, 0, 0, 0, 0, 0, 0⟩
    500 65000 (by decide) (by decide) (by decide) (by decide)).1

end DualHid

/-! ## Theorems: the console-style build (`main_dual_xinput.cpp`) -/

namespace DualXInput

open CArith ConfigManager

/-- The value `whammy_scaled` holds before the cast, through the
natural-number quotient. -/
theorem xinput_whammy_scaled_eq (device_config : bgg_config_t) (whammy_raw : Nat)
    (h1 : device_config.whammy_min < device_config.whammy_max)
    (h2 : device_config.whammy_max < 4294967296) (h3 : whammy_raw < 65536) :
    (min (max whammy_raw device_config.whammy_min) device_config.whammy_max
        - device_config.whammy_min) * 65535
      / (device_config.whammy_max - device_config.whammy_min) ≤ 65535 ∧
    whammy_scaled device_config whammy_raw
      = if device_config.whammy_reverse then
          32768 - (((min (max whammy_raw device_config.whammy_min) device_config.whammy_max
                    - device_config.whammy_min) * 65535
                  / (device_config.whammy_max - device_config.whammy_min) : Nat) : Int)
        else
          (((min (max whammy_raw device_config.whammy_min) device_config.whammy_max
                    - device_config.whammy_min) * 65535
                  / (device_config.whammy_max - device_config.whammy_min) : Nat) : Int) - 32768 := by
  have hq : (min (max whammy_raw device_config.whammy_min) device_config.whammy_max
        - device_config.whammy_min) * 65535
      / (device_config.whammy_max - device_config.whammy_min) ≤ 65535 := by
    apply Nat.div_le_of_le_mul
    exact Nat.mul_le_mul_right 65535 (by omega)
  refine ⟨hq, ?_⟩
  unfold whammy_scaled
  simp only []
  rw [calibrated_eq _ _ _ h1 h2 h3]
  have hc1 : device_config.whammy_min ≤
      min (max whammy_raw device_config.whammy_min) device_config.whammy_max := by omega
  have hc3 : min (max whammy_raw device_config.whammy_min) device_config.whammy_max
      - device_config.whammy_min ≤ 65535 := by omega
  generalize min (max whammy_raw device_config.whammy_min) device_config.whammy_max = c
    at hc1 hc3 hq ⊢
  have e1 := DualHid.to_u32_sub c device_config.whammy_min hc1 hc3
  have e2 := DualHid.to_u32_range device_config.whammy_min device_config.whammy_max h1 h2
  have e3 := DualHid.to_u32_mul_65535 (c - device_config.whammy_min) hc3
  rw [e1, e2, e3]
  generalize (c - device_config.whammy_min) * 65535
      / (device_config.whammy_max - device_config.whammy_min) = q at hq
  rw [to_i32_sub_32768 q hq]
  split
  · exact to_i32_neg q hq
  · rfl

/-- The axis after the cast to `int16_t`, through the natural-number quotient. -/
theorem xinput_whammy_axis_eq (device_config : bgg_config_t) (whammy_reverse : Bool)
    (gpio_get : Nat → Bool) (gamepad_report : xinput_gamepad_t) (whammy_raw : Nat)
    (h1 : device_config.whammy_min < device_config.whammy_max)
    (h2 : device_config.whammy_max < 4294967296) (h3 : whammy_raw < 65536) :
    whammy_axis device_config whammy_reverse gpio_get gamepad_report whammy_raw
      = if whammy_reverse then
          to_i16 (32768 - (((min (max whammy_raw device_config.whammy_min) device_config.whammy_max
                    - device_config.whammy_min) * 65535
                  / (device_config.whammy_max - device_config.whammy_min) : Nat) : Int))
        else
          (((min (max whammy_raw device_config.whammy_min) device_config.whammy_max
                    - device_config.whammy_min) * 65535
                  / (device_config.whammy_max - device_config.whammy_min) : Nat) : Int) - 32768 := by
  obtain ⟨hq, e⟩ := xinput_whammy_scaled_eq { device_config with whammy_reverse := whammy_reverse }
    whammy_raw h1 h2 h3
  simp only [] at e hq
  unfold whammy_axis read_inputs
  simp only []
  rw [e]
  generalize (min (max whammy_raw device_config.whammy_min) device_config.whammy_max
        - device_config.whammy_min) * 65535
      / (device_config.whammy_max - device_config.whammy_min) = q at hq
  cases whammy_reverse
  · simp only [Bool.false_eq_true, if_false]
    unfold to_i16
    omega
  · simp only [if_true]

/-- C15: with `whammy_reverse` false, `whammy_min < whammy_max` and a raw reading
equal to `whammy_max` (a 16-bit value), the whammy axis is the axis maximum in
both encoders: 255 in `read_inputs` of `main_dual_hid.cpp` and 32767, after the
conversion to `int16_t`, in `read_inputs` of `main_dual_xinput.cpp`. The product
`(raw - min) * 65535` stays below 2^32, so with the bounds held as `uint32_t` it
does not wrap; this includes the default range 500..65000. -/
theorem whammy_axis_max (device_config : bgg_config_t) (gpio_get : Nat → Bool)
    (hid_report : DualHid.hid_gamepad_report_t) (gamepad_report : xinput_gamepad_t)
    (h1 : device_config.whammy_min < device_config.whammy_max)
    (h2 : device_config.whammy_max < 65536) :
    DualHid.whammy_axis device_config false gpio_get hid_report device_config.whammy_max = 255 ∧
    whammy_axis device_config false gpio_get gamepad_report device_config.whammy_max = 32767 ∧
    (device_config.whammy_max - device_config.whammy_min) * 65535 < 4294967296 ∧
    DualHid.whammy_axis sample_config false gpio_get hid_report 65000 = 255 ∧
    whammy_axis sample_config false gpio_get gamepad_report 65000 = 32767 := by
  have key : ∀ cfg : bgg_config_t, cfg.whammy_min < cfg.whammy_max → cfg.whammy_max < 65536 →
      DualHid.whammy_axis cfg false gpio_get hid_report cfg.whammy_max = 255 ∧
      whammy_axis cfg false gpio_get gamepad_report cfg.whammy_max = 32767 := by
    intro cfg k1 k2
    constructor
    · obtain ⟨-, e⟩ := DualHid.hid_whammy_axis_eq cfg false gpio_get hid_report cfg.whammy_max
        k1 (by omega) k2
      rw [e]
      simp only [Bool.false_eq_true, if_false]
      have : min (max cfg.whammy_max cfg.whammy_min) cfg.whammy_max - cfg.whammy_min
          = cfg.whammy_max - cfg.whammy_min := by omega
      rw [this, Nat.mul_div_cancel_left 255 (by omega)]
    · rw [xinput_whammy_axis_eq cfg false gpio_get gamepad_report cfg.whammy_max k1 (by omega) k2]
      simp only [Bool.false_eq_true, if_false]
      have : min (max cfg.whammy_max cfg.whammy_min) cfg.whammy_max - cfg.whammy_min
          = cfg.whammy_max - cfg.whammy_min := by omega
      rw [this, Nat.mul_div_cancel_left 65535 (by omega)]
      rfl
  obtain ⟨a, b⟩ := key device_config h1 h2
  obtain ⟨c, d⟩ := key sample_config (by decide) (by decide)
  refine ⟨a, b, ?_, c, d⟩
  have : device_config.whammy_max - device_config.whammy_min ≤ 65535 := by omega
  omega

/-- Witness for C15: the default range 500..65000. -/
theorem whammy_axis_max_witness :
    whammy_axis sample_config false (fun _ => true) gamepad_report_init 65000 = 32767 :=
  (whammy_axis_max sample_config (fun _ => true) ⟨0, 0, 0, 0, 0, 0, 0, 0, 0⟩ gamepad_report_init
    (by decide) (by decide)).2.1

/-- C16, as stated, fails: in `read_inputs` of `main_dual_xinput.cpp` with
`whammy_reverse` true and `whammy_min < whammy_max`, a raw reading at or below
`whammy_min` gives `left_stick_y` = -32768 (the negation of -32768 is 32768,
which the cast to `int16_t` wraps), not the axis maximum 32767; a raw reading at
or above `whammy_max` gives -32767, not -32768; and the output is not
non-increasing: from the reading `whammy_min` to the reading `whammy_min + 1` it
rises. -/
theorem whammy_axis_reversed_wraps (device_config : bgg_config_t) (gpio_get : Nat → Bool)
    (gamepad_report : xinput_gamepad_t) (whammy_raw : Nat)
    (h1 : device_config.whammy_min < device_config.whammy_max)
    (h2 : device_config.whammy_max < 65536) (h3 : whammy_raw < 65536) :
    (whammy_raw ≤ device_config.whammy_min →
      whammy_axis device_config true gpio_get gamepad_report whammy_raw = -32768) ∧
    (device_config.whammy_max ≤ whammy_raw →
      whammy_axis device_config true gpio_get gamepad_report whammy_raw = -32767) ∧
    whammy_axis device_config true gpio_get gamepad_report device_config.whammy_min
      < whammy_axis device_config true gpio_get gamepad_report (device_config.whammy_min + 1) := by
  have e := xinput_whammy_axis_eq device_config true gpio_get gamepad_report whammy_raw h1 (by omega) h3
  simp only [if_true] at e
  have hlo : ∀ raw, raw < 65536 → raw ≤ device_config.whammy_min →
      whammy_axis device_config true gpio_get gamepad_report raw = -32768 := by
    intro raw k3 h
    rw [xinput_whammy_axis_eq device_config true gpio_get gamepad_report raw h1 (by omega) k3]
    simp only [if_true]
    have : min (max raw device_config.whammy_min) device_config.whammy_max
        - device_config.whammy_min = 0 := by omega
    rw [this]
    simp only [Nat.zero_mul, Nat.zero_div]
    rfl
  refine ⟨hlo whammy_raw h3, ?_, ?_⟩
  · intro h
    rw [e]
    have : min (max whammy_raw device_config.whammy_min) device_config.whammy_max
        - device_config.whammy_min = device_config.whammy_max - device_config.whammy_min := by
      omega
    rw [this, Nat.mul_div_cancel_left 65535 (by omega)]
    rfl
  · rw [hlo device_config.whammy_min (by omega) (le_refl _)]
    obtain ⟨hq, -⟩ := xinput_whammy_scaled_eq device_config (device_config.whammy_min + 1) h1
      (by omega) (by omega)
    rw [xinput_whammy_axis_eq device_config true gpio_get gamepad_report (device_config.whammy_min + 1)
      h1 (by omega) (by omega)]
    simp only [if_true]
    have : min (max (device_config.whammy_min + 1) device_config.whammy_min)
        device_config.whammy_max - device_config.whammy_min = 1 := by omega
    rw [this] at hq ⊢
    have h1q : 1 ≤ 1 * 65535 / (device_config.whammy_max - device_config.whammy_min) := by
      rw [Nat.le_div_iff_mul_le (by omega)]
      omega
    generalize 1 * 65535 / (device_config.whammy_max - device_config.whammy_min) = q at hq h1q
    unfold to_i16
    omega

/-- Failing input for C16: range 1000..3000, reversed, readings 1000 and 1001. -/
theorem whammy_axis_reversed_wraps_witness :
    whammy_axis { sample_config with whammy_min := 1000, whammy_max := 3000 } true
        (fun _ => true) gamepad_report_init 1000 = -32768 ∧
    whammy_axis { sample_config with whammy_min := 1000, whammy_max := 3000 } true
        (fun _ => true) gamepad_report_init 3000 = -32767 ∧
    whammy_axis { sample_config with whammy_min := 1000, whammy_max := 3000 } true
        (fun _ => true) gamepad_report_init 1001 = 32736 :=
  ⟨(whammy_axis_reversed_wraps { sample_config with whammy_min := 1000, whammy_max := 3000 }
      (fun _ => true) gamepad_report_init 1000 (by decide) (by decide) (by decide)).1
      (by decide),
   by decide, by decide⟩

/-- C19, as stated, fails: in `read_inputs` of `main_dual_xinput.cpp` the two
trigger bytes are only ever set to 255 and never cleared, so after a cycle with
STRUM_UP (STRUM_DOWN) held, `left_trigger` (`right_trigger`) is still 255 in a
later cycle in which the strum line is released. -/
theorem read_inputs_trigger_carry_over (device_config : bgg_config_t) (env1 env2 : Env)
    (gamepad_report : xinput_gamepad_t)
    (h1 : env1.gpio_get device_config.STRUM_UP = false)
    (h2 : env2.gpio_get device_config.STRUM_UP = true) :
    (read_inputs device_config env2 (read_inputs device_config env1 gamepad_report)).left_trigger
      = 255 := by
  simp [read_inputs, h1, h2]

/-- Failing input for C19: STRUM_UP (line 7) held in the first cycle, every line
released in the second. -/
theorem read_inputs_trigger_carry_over_witness :
    (read_inputs sample_config (lines_low [] 0)
      (read_inputs sample_config (lines_low [7] 0) gamepad_report_init)).left_trigger = 255 ∧
    (read_inputs sample_config (lines_low [] 0) gamepad_report_init).left_trigger = 0 :=
  ⟨read_inputs_trigger_carry_over sample_config (lines_low [7] 0) (lines_low [] 0)
    gamepad_report_init (by decide) (by decide), by decide⟩

end DualXInput

/-! ## Theorems: button masks, report frame and tilt debounce (`main.cpp`, `hid_interface.c`) -/

namespace Main

open Libc ConfigStorage Config CArith HidInterface

/-- The pins of `default_config` as the getters resolve them. -/
theorem default_pins (m : Mem) :
    config_get_green_pin m default_config = 10 ∧
    config_get_red_pin m default_config = 11 ∧
    config_get_yellow_pin m default_config = 12 ∧
    config_get_blue_pin m default_config = 13 ∧
    config_get_orange_pin m default_config = 14 ∧
    config_get_strum_up_pin m default_config = 7 ∧
    config_get_strum_down_pin m default_config = 8 ∧
    config_get_start_pin m default_config = 1 ∧
    config_get_select_pin m default_config = 0 ∧
    config_get_dpad_up_pin m default_config = 2 ∧
    config_get_dpad_down_pin m default_config = 3 ∧
    config_get_dpad_left_pin m default_config = 4 ∧
    config_get_dpad_right_pin m default_config = 5 ∧
    config_get_whammy_pin m default_config = 27 := by
  refine ⟨rfl, rfl, rfl, rfl, rfl, rfl, rfl, rfl, rfl, rfl, rfl, rfl, rfl, rfl⟩

/-- C17: for every set of fret buttons pressed while every other input is
released (pins of `default_config`), the button bitmask has exactly the bits of
the pressed frets and no other bit: in `read_guitar_buttons` of `main.cpp`
green = 0x1000, red = 0x2000, blue = 0x4000, yellow = 0x8000, orange = 0x0100
(green and red together give 0x3000); in `hid_send_report` green, red, yellow,
blue, orange are bits 0 to 4 of `buttons1` and `buttons2` is 0 (green and red
together give 0x03). -/
theorem fret_bitmask_exact (green red yellow blue orange : Bool) (m : Mem) (g : Globals)
    (time_us_32 : Nat) (adc_read_whammy : Nat → Nat) (adc_read_joy_x adc_read_joy_y : Nat)
    (whammy : Nat) (joy_x joy_y : Int) :
    (read_guitar_buttons m default_config
        (frets_env green red yellow blue orange time_us_32 adc_read_whammy adc_read_joy_x
          adc_read_joy_y) g).xinput_report.buttons
      = (if green then 0x1000 else 0) + (if red then 0x2000 else 0)
        + (if blue then 0x4000 else 0) + (if yellow then 0x8000 else 0)
        + (if orange then 0x0100 else 0) ∧
    (read_guitar_buttons m default_config
        (frets_env true true false false false time_us_32 adc_read_whammy adc_read_joy_x
          adc_read_joy_y) g).xinput_report.buttons = 0x3000 ∧
    (∀ i, (read_guitar_buttons m default_config
        (frets_env green red yellow blue orange time_us_32 adc_read_whammy adc_read_joy_x
          adc_read_joy_y) g).xinput_report.buttons.testBit i
      = ((i == 12 && green) || (i == 13 && red) || (i == 14 && blue) || (i == 15 && yellow)
          || (i == 8 && orange))) ∧
    (hid_send_report (frets_state green red yellow blue orange whammy joy_x joy_y)).buttons1
      = (if green then 1 else 0) + (if red then 2 else 0) + (if yellow then 4 else 0)
        + (if blue then 8 else 0) + (if orange then 16 else 0) ∧
    (hid_send_report (frets_state green red yellow blue orange whammy joy_x joy_y)).buttons2 = 0 ∧
    (hid_send_report (frets_state true true false false false whammy joy_x joy_y)).buttons1 = 0x03 ∧
    (∀ i, (hid_send_report
        (frets_state green red yellow blue orange whammy joy_x joy_y)).buttons1.testBit i
      = ((i == 0 && green) || (i == 1 && red) || (i == 2 && yellow) || (i == 3 && blue)
          || (i == 4 && orange))) := by
  obtain ⟨h1, h2, h3, h4, h5, h6, h7, h8, h9, h10, h11, h12, h13, h14⟩ := default_pins m
  have hb : ∀ gr rd yl bl og : Bool, (read_guitar_buttons m default_config
        (frets_env gr rd yl bl og time_us_32 adc_read_whammy adc_read_joy_x
          adc_read_joy_y) g).xinput_report.buttons
      = (if gr then 0x1000 else 0) + (if rd then 0x2000 else 0)
        + (if bl then 0x4000 else 0) + (if yl then 0x8000 else 0)
        + (if og then 0x0100 else 0) := by
    intro gr rd yl bl og
    simp only [read_guitar_buttons, h1, h2, h3, h4, h5, h6, h7, h8, h9, h10, h11, h12, h13, h14,
      frets_env]
    cases gr <;> cases rd <;> cases yl <;> cases bl <;> cases og <;> decide
  have hh : ∀ gr rd yl bl og : Bool,
      (hid_send_report (frets_state gr rd yl bl og whammy joy_x joy_y)).buttons1
      = (if gr then 1 else 0) + (if rd then 2 else 0) + (if yl then 4 else 0)
        + (if bl then 8 else 0) + (if og then 16 else 0) := by
    intro gr rd yl bl og
    cases gr <;> cases rd <;> cases yl <;> cases bl <;> cases og <;>
      simp [hid_send_report, frets_state]
  have bits : ∀ n : Nat, n < 65536 → ∀ i, n.testBit i = (decide (i < 16) && n.testBit i) := by
    intro n hn i
    by_cases hi : i < 16
    · simp [hi]
    · simp only [hi, decide_False, Bool.false_and]
      apply Nat.testBit_lt_two_pow
      calc n < 2 ^ 16 := hn
        _ ≤ 2 ^ i := Nat.pow_le_pow_right (by norm_num) (by omega)
  refine ⟨hb _ _ _ _ _, hb _ _ _ _ _, ?_, hh _ _ _ _ _, ?_, hh _ _ _ _ _, ?_⟩
  · intro i
    rw [hb]
    rw [bits _ (by cases green <;> cases red <;> cases yellow <;> cases blue <;> cases orange <;> decide)]
    by_cases hi : i < 16
    · interval_cases i <;> cases green <;> cases red <;> cases yellow <;> cases blue <;>
        cases orange <;> decide
    · have e1 : (i == 12) = false := by simp; omega
      have e2 : (i == 13) = false := by simp; omega
      have e3 : (i == 14) = false := by simp; omega
      have e4 : (i == 15) = false := by simp; omega
      have e5 : (i == 8) = false := by simp; omega
      simp [hi, e1, e2, e3, e4, e5]
  · cases green <;> cases red <;> cases yellow <;> cases blue <;> cases orange <;>
      simp [hid_send_report, frets_state]
  · intro i
    rw [hh]
    rw [bits _ (by cases green <;> cases red <;> cases yellow <;> cases blue <;> cases orange <;> decide)]
    by_cases hi : i < 16
    · interval_cases i <;> cases green <;> cases red <;> cases yellow <;> cases blue <;>
        cases orange <;> decide
    · have e1 : (i == 0) = false := by simp; omega
      have e2 : (i == 1) = false := by simp; omega
      have e3 : (i == 2) = false := by simp; omega
      have e4 : (i == 3) = false := by simp; omega
      have e5 : (i == 4) = false := by simp; omega
      simp [hi, e1, e2, e3, e4, e5]

/-- The two bytes `le16` gives are bytes. -/
theorem le16_bytes (x : Int) : ∀ b ∈ le16 x, b < 256 := by
  intro b hb
  have h : to_u16 x < 65536 := by
    unfold to_u16
    omega
  simp only [le16, List.mem_cons, List.mem_singleton, List.not_mem_nil, or_false] at hb
  rcases hb with rfl | rfl <;> omega

/-- Setting a 16-bit flag keeps a 16-bit mask 16-bit. -/
theorem or_flag (b : Bool) (x k : Nat) (hx : x < 65536) (hk : k < 65536) :
    (if b = true then x ||| k else x) < 65536 := by
  split
  · have h16 : x ||| k < 2 ^ 16 := Nat.or_lt_two_pow hx hk
    exact h16
  · exact hx

/-- C18: the frame the send path of `main.cpp` builds from an `xinput_report`
whose reserved bytes are zero (as `read_guitar_buttons` leaves them, with both
triggers 0) is 22 bytes: byte 0 is 0x00, byte 1 is 0x14, the button bitmask is at
offsets 2..3 low byte first, the two trigger bytes at 4..5, the four signed axes
lx, ly, rx, ry at 6..13 low byte first, and every remaining payload byte (14..21:
the six reserved bytes of the 18-byte struct and the two bytes the copy does not
reach) is zero; every entry is a byte. -/
theorem report_packet_layout (r : xinput_report_t) (h : r.reserved = List.replicate 6 0) :
    report_packet r
      = [0x00, 0x14,
         to_u16 r.buttons % 256, to_u16 r.buttons / 256,
         to_u8 r.lt, to_u8 r.rt,
         to_u16 r.lx % 256, to_u16 r.lx / 256,
         to_u16 r.ly % 256, to_u16 r.ly / 256,
         to_u16 r.rx % 256, to_u16 r.rx / 256,
         to_u16 r.ry % 256, to_u16 r.ry / 256,
         0, 0, 0, 0, 0, 0, 0, 0] ∧
    (report_packet r).length = 22 ∧
    (∀ b ∈ report_packet r, b < 256) ∧
    (∀ (m : Mem) (device_config : config_t) (env : Env) (g : Globals),
      (read_guitar_buttons m device_config env g).xinput_report.reserved = List.replicate 6 0 ∧
      (read_guitar_buttons m device_config env g).xinput_report.lt = 0 ∧
      (read_guitar_buttons m device_config env g).xinput_report.rt = 0 ∧
      (read_guitar_buttons m device_config env g).xinput_report.buttons < 65536) := by
  have e : report_packet r
      = [0x00, 0x14,
         to_u16 r.buttons % 256, to_u16 r.buttons / 256,
         to_u8 r.lt, to_u8 r.rt,
         to_u16 r.lx % 256, to_u16 r.lx / 256,
         to_u16 r.ly % 256, to_u16 r.ly / 256,
         to_u16 r.rx % 256, to_u16 r.rx / 256,
         to_u16 r.ry % 256, to_u16 r.ry / 256,
         0, 0, 0, 0, 0, 0, 0, 0] := by
    simp only [report_packet, xinput_report_bytes, le16, h]
    rfl
  refine ⟨e, by rw [e]; rfl, ?_, ?_⟩
  · intro b hb
    rw [e] at hb
    have h8 : ∀ x : Int, to_u8 x < 256 := by
      intro x
      unfold to_u8
      omega
    have h16 : ∀ x : Int, to_u16 x < 65536 := by
      intro x
      unfold to_u16
      omega
    have := h8 r.lt
    have := h8 r.rt
    have := h16 r.buttons
    have := h16 r.lx
    have := h16 r.ly
    have := h16 r.rx
    have := h16 r.ry
    simp only [List.mem_cons, List.mem_singleton, List.not_mem_nil, or_false] at hb
    rcases hb with hb | hb | hb | hb | hb | hb | hb | hb | hb | hb | hb | hb | hb | hb | hb |
      hb | hb | hb | hb | hb | hb | hb <;> omega
  · intro m device_config env g
    refine ⟨rfl, rfl, rfl, ?_⟩
    simp only [read_guitar_buttons]
    repeat (first | exact (by decide : (0 : Nat) < 65536) | apply or_flag _ _ _ ?_ (by decide))

/-- Witness for C18: a report with green and red held. -/
theorem report_packet_layout_witness :
    report_packet sample_report
      = [0x00, 0x14, 0x00, 0x30, 0, 0, 0x00, 0x00, 0xFF, 0xFF, 0x00, 0x80, 0xFF, 0x7F,
         0, 0, 0, 0, 0, 0, 0, 0] :=
  (report_packet_layout sample_report rfl).1

/-- The tilt part of `read_guitar_buttons` is `tilt_debounce` on the statics. -/
theorem read_guitar_buttons_tilt (m : Mem) (device_config : config_t) (env : Env) (g : Globals) :
    (read_guitar_buttons m device_config env g).tilt_debounce_time
      = (tilt_debounce (to_u32 (env.time_us_32 : Int) / 1000) (!env.gpio_get 9)
          g.tilt_debounce_time g.tilt_last_state).tilt_debounce_time ∧
    (read_guitar_buttons m device_config env g).tilt_last_state
      = (tilt_debounce (to_u32 (env.time_us_32 : Int) / 1000) (!env.gpio_get 9)
          g.tilt_debounce_time g.tilt_last_state).tilt_last_state ∧
    (read_guitar_buttons m device_config env g).xinput_report.ry
      = (if (tilt_debounce (to_u32 (env.time_us_32 : Int) / 1000) (!env.gpio_get 9)
          g.tilt_debounce_time g.tilt_last_state).tilt_active then -32768 else 32767) :=
  ⟨rfl, rfl, rfl⟩

/-- From any statics not later than the samples, the changes of the reported
value are each more than 50 ms after the one before, the first more than 50 ms
after `tilt_debounce_time`. -/
theorem tilt_changes_chain (samples : List TiltSample) :
    ∀ (tilt_debounce_time : Nat) (tilt_last_state : Bool),
      (∀ s ∈ samples, tilt_debounce_time ≤ s.now) →
      List.Pairwise (fun a b : TiltSample => a.now ≤ b.now) samples →
      (∀ s ∈ samples, s.now < 4294967296) →
      List.Chain (fun a b => a + 50 < b) tilt_debounce_time
        (change_times tilt_last_state (tilt_trace tilt_debounce_time tilt_last_state samples)) := by
  induction samples with
  | nil =>
    intro t0 l0 _ _ _
    exact List.Chain.nil
  | cons s rest ih =>
    intro t0 l0 h0 hs hb
    have hs1 := (List.pairwise_cons.mp hs).1
    have hs2 := (List.pairwise_cons.mp hs).2
    have h0s : t0 ≤ s.now := h0 s (List.mem_cons_self _ _)
    have hbs : s.now < 4294967296 := hb s (List.mem_cons_self _ _)
    have hbr : ∀ x ∈ rest, x.now < 4294967296 := fun x hx => hb x (List.mem_cons_of_mem _ hx)
    have h0r : ∀ x ∈ rest, t0 ≤ x.now := fun x hx => h0 x (List.mem_cons_of_mem _ hx)
    have hu : to_u32 ((s.now : Int) - t0) = s.now - t0 := by
      unfold to_u32
      omega
    by_cases hc : (s.tilt_raw != l0) = true ∧ s.now - t0 > 50
    · have e : tilt_debounce s.now s.tilt_raw t0 l0
          = { tilt_active := s.tilt_raw, tilt_debounce_time := s.now,
              tilt_last_state := s.tilt_raw } := by
        unfold tilt_debounce
        simp only [hu]
        rw [if_pos hc.1, if_pos hc.2]
      simp only [tilt_trace, e, change_times]
      rw [if_pos hc.1]
      refine List.Chain.cons (by omega) (ih s.now s.tilt_raw hs1 hs2 hbr)
    · have e : tilt_debounce s.now s.tilt_raw t0 l0
          = { tilt_active := l0, tilt_debounce_time := t0, tilt_last_state := l0 } := by
        unfold tilt_debounce
        simp only [hu]
        by_cases h1 : (s.tilt_raw != l0) = true
        · rw [if_pos h1, if_neg (fun h2 => hc ⟨h1, h2⟩)]
        · rw [if_neg h1]
      simp only [tilt_trace, e, change_times]
      rw [if_neg (by simp)]
      exact ih t0 l0 h0r hs2 hbr

/-- C20: in the tilt debounce of `main.cpp`, started from its initial statics,
for every sequence of samples (raw level, millisecond time) with non-decreasing
times below 2^32 (no counter wrap), any two successive changes of the reported
tilt value happen at samples whose times are more than 50 ms apart. -/
theorem tilt_debounce_rate_limit (samples : List TiltSample)
    (h_sorted : List.Pairwise (fun a b : TiltSample => a.now ≤ b.now) samples)
    (h_nowrap : ∀ s ∈ samples, s.now < 4294967296) :
    List.Chain' (fun a b => a + 50 < b)
      (change_times Globals.zero.tilt_last_state
        (tilt_trace Globals.zero.tilt_debounce_time Globals.zero.tilt_last_state samples)) := by
  have h := tilt_changes_chain samples 0 false (fun s _ => Nat.zero_le _) h_sorted h_nowrap
  exact List.Chain'.tail (show List.Chain' (fun a b => a + 50 < b) (0 :: _) from h)

/-- Witness for C20: a bouncing line gives changes at 60 ms and 120 ms. -/
theorem tilt_debounce_rate_limit_witness :
    change_times Globals.zero.tilt_last_state
        (tilt_trace Globals.zero.tilt_debounce_time Globals.zero.tilt_last_state sample_tilt)
      = [60, 120] ∧
    List.Chain' (fun a b => a + 50 < b)
      (change_times Globals.zero.tilt_last_state
        (tilt_trace Globals.zero.tilt_debounce_time Globals.zero.tilt_last_state sample_tilt)) :=
  ⟨by decide, tilt_debounce_rate_limit sample_tilt (by decide) (by decide)⟩

end Main

/-! ## Theorems: the parser on missing and malformed values (`config_storage.c`) -/

namespace ConfigStorage

open Libc

/-- A key that does not occur is not found by the extractors. -/
theorem find_value_absent (json : cstring) (key : String) (h : absent key json = true) :
    find_value json key.toList = none := by
  unfold absent at h
  unfold find_value
  cases hs : strstr (search_str key.toList) json with
  | none => rfl
  | some v => rw [hs] at h; cases h

/-- A string member whose key is not found points to its literal default. -/
theorem parse_string_absent (json : cstring) (key : String) (b : Buf) (size : Nat)
    (dflt : String) (m : Mem) (h : absent key json = true) :
    (parse_string json key b size dflt m).2 = Ptr.lit dflt.toList := by
  unfold parse_string extract_string_value
  rw [find_value_absent json key h]

/-- An LED member whose key is not found takes its default. -/
theorem parse_led_absent (json : cstring) (key : String) (dflt : Nat)
    (h : absent key json = true) : parse_led json key dflt = dflt := by
  unfold parse_led extract_int_value
  rw [find_value_absent json key h]
  rfl

/-- A whammy bound whose key is not found takes its default. -/
theorem parse_u32_absent (json : cstring) (key : String) (dflt : Nat)
    (h : absent key json = true) : parse_u32 json key dflt = dflt := by
  unfold parse_u32 extract_int_value
  rw [find_value_absent json key h]
  rfl

/-- The colour buffers after `store_colors`: the built-in `led_color` table. -/
theorem store_colors_led (m : Mem) :
    ((List.range 7).map (fun i => Ptr.buf (Buf.led_colors i))).map
        (fun p => p.read (store_colors m))
      = default_led_colors.map String.toList := by
  simp [store_colors, List.range_succ, Ptr.read, Mem.write, default_led_colors,
    default_released_colors]

/-- The colour buffers after `store_colors`: the built-in `released_color` table. -/
theorem store_colors_released (m : Mem) :
    ((List.range 7).map (fun i => Ptr.buf (Buf.released_colors i))).map
        (fun p => p.read (store_colors m))
      = default_released_colors.map String.toList := by
  simp [store_colors, List.range_succ, Ptr.read, Mem.write, default_led_colors,
    default_released_colors]

/-- The pointer of each string member after `config_parse_json`. -/
theorem config_parse_json_pointers (json : cstring) (m : Mem) (f : StringMember) :
    (∃ (b : Buf) (size : Nat) (m1 : Mem),
      f.get (config_parse_json json m).2 = (parse_string json f.key b size f.dflt m1).2) := by
  cases f <;> exact ⟨_, _, _, rfl⟩

/-- C23: `config_parse_json` has a result for every text (its only `return` is
`return true`, so loading never fails in the parser), and every member whose
key does not occur in the text takes its default: the string members point to
their literal defaults, the LED indices, whammy bounds, flags and brightness
have their default values, and both colour tables are the built-in ones in any
case. For the text of the empty object the result has version 4.0.0,
device_name Guitar Controller, UP GP2, GREEN_FRET GP10, GREEN_FRET_led 6,
STRUM_UP_led 0, hat_mode dpad, whammy_min 500, whammy_max 65000, whammy_reverse
false and tilt_wave_enabled true. -/
theorem config_parse_json_missing_keys (json : cstring) (m : Mem) :
    (∀ f : StringMember, absent f.key json = true →
      f.get (config_parse_json json m).2 = Ptr.lit f.dflt.toList) ∧
    (∀ f : IntMember, absent f.key json = true →
      f.get (config_parse_json json m).2 = f.dflt) ∧
    (absent "whammy_reverse" json = true → (config_parse_json json m).2.whammy_reverse = false) ∧
    (absent "tilt_wave_enabled" json = true →
      (config_parse_json json m).2.tilt_wave_enabled = true) ∧
    (absent "led_brightness" json = true → (config_parse_json json m).2.led_brightness = 1) ∧
    ((config_parse_json json m).2.led_color.map (fun p => p.read (config_parse_json json m).1)
        = default_led_colors.map String.toList ∧
      (config_parse_json json m).2.released_color.map
          (fun p => p.read (config_parse_json json m).1)
        = default_released_colors.map String.toList) ∧
    (∀ flash : config_storage_t,
      (config_storage_load_from_flash flash m).isSome
        = (config_storage_get_json flash (CONFIG_JSON_MAX_SIZE + 1)).isSome) ∧
    ((config_parse_json empty_json m).2.metadata.version = Ptr.lit "4.0.0".toList ∧
      (config_parse_json empty_json m).2.device_name = Ptr.lit "Guitar Controller".toList ∧
      (config_parse_json empty_json m).2.UP = Ptr.lit "GP2".toList ∧
      (config_parse_json empty_json m).2.GREEN_FRET = Ptr.lit "GP10".toList ∧
      (config_parse_json empty_json m).2.GREEN_FRET_led = 6 ∧
      (config_parse_json empty_json m).2.STRUM_UP_led = 0 ∧
      (config_parse_json empty_json m).2.hat_mode = Ptr.lit "dpad".toList ∧
      (config_parse_json empty_json m).2.whammy_min = 500 ∧
      (config_parse_json empty_json m).2.whammy_max = 65000 ∧
      (config_parse_json empty_json m).2.whammy_reverse = false ∧
      (config_parse_json empty_json m).2.tilt_wave_enabled = true) := by
  have hs : ∀ (js : cstring) (f : StringMember), absent f.key js = true →
      f.get (config_parse_json js m).2 = Ptr.lit f.dflt.toList := by
    intro js f h
    obtain ⟨b, size, m1, e⟩ := config_parse_json_pointers js m f
    rw [e]
    exact parse_string_absent js f.key b size f.dflt m1 h
  have hi : ∀ (js : cstring) (f : IntMember), absent f.key js = true →
      f.get (config_parse_json js m).2 = f.dflt := by
    intro js f h
    obtain ⟨h1, h2, h3, h4, h5, h6, h7, h8, h9, -, -⟩ := Config.config_parse_json_scalars js m
    cases f
    · exact h1.trans (parse_led_absent js _ _ h)
    · exact h2.trans (parse_led_absent js _ _ h)
    · exact h3.trans (parse_led_absent js _ _ h)
    · exact h4.trans (parse_led_absent js _ _ h)
    · exact h5.trans (parse_led_absent js _ _ h)
    · exact h6.trans (parse_led_absent js _ _ h)
    · exact h7.trans (parse_led_absent js _ _ h)
    · exact h8.trans (parse_u32_absent js _ _ h)
    · exact h9.trans (parse_u32_absent js _ _ h)
  have hb1 : ∀ js : cstring, absent "whammy_reverse" js = true →
      (config_parse_json js m).2.whammy_reverse = false := by
    intro js h
    rw [(Config.config_parse_json_scalars js m).2.2.2.2.2.2.2.2.2.1]
    unfold extract_bool_value
    rw [find_value_absent js _ h]
  have hb2 : ∀ js : cstring, absent "tilt_wave_enabled" js = true →
      (config_parse_json js m).2.tilt_wave_enabled = true := by
    intro js h
    rw [(Config.config_parse_json_scalars js m).2.2.2.2.2.2.2.2.2.2]
    unfold extract_bool_value
    rw [find_value_absent js _ h]
  refine ⟨hs json, hi json, hb1 json, hb2 json, ?_, ?_, ?_, ?_⟩
  · intro h
    have e : (config_parse_json json m).2.led_brightness
        = if extract_float_value json "led_brightness".toList ≥ 0
          then extract_float_value json "led_brightness".toList else 1 := by
      unfold config_parse_json
      rfl
    rw [e]
    unfold extract_float_value
    rw [find_value_absent json _ h]
    simp
  · have e1 : (config_parse_json json m).2.led_color
        = (List.range 7).map (fun i => Ptr.buf (Buf.led_colors i)) := by
      unfold config_parse_json
      rfl
    have e2 : (config_parse_json json m).2.released_color
        = (List.range 7).map (fun i => Ptr.buf (Buf.released_colors i)) := by
      unfold config_parse_json
      rfl
    have e3 : ∃ m1, (config_parse_json json m).1 = store_colors m1 := by
      unfold config_parse_json
      exact ⟨_, rfl⟩
    obtain ⟨m1, e3⟩ := e3
    rw [e1, e2, e3]
    exact ⟨store_colors_led m1, store_colors_released m1⟩
  · intro flash
    unfold config_storage_load_from_flash
    cases config_storage_get_json flash (CONFIG_JSON_MAX_SIZE + 1) <;> rfl
  · exact ⟨hs empty_json .version (by decide), hs empty_json .device_name (by decide),
      hs empty_json .UP (by decide), hs empty_json .GREEN_FRET (by decide),
      hi empty_json .GREEN_FRET_led (by decide), hi empty_json .STRUM_UP_led (by decide),
      hs empty_json .hat_mode (by decide), hi empty_json .whammy_min (by decide),
      hi empty_json .whammy_max (by decide), hb1 empty_json (by decide),
      hb2 empty_json (by decide)⟩

/-- `atoi` of a text that starts no integer literal is 0. -/
theorem atoi_not_numeric (pos : cstring) (h : not_numeric pos = true) : atoi pos = 0 := by
  cases pos with
  | nil => rfl
  | cons c rest =>
    simp only [not_numeric, Bool.and_eq_true, Bool.not_eq_true', bne_iff_ne, ne_eq] at h
    obtain ⟨⟨⟨h1, h2⟩, h3⟩, h4⟩ := h
    unfold atoi
    rw [List.dropWhile_cons_of_neg (by simp [h2])]
    split
    · rename_i t heq
      simp only [List.cons.injEq] at heq
      exact absurd heq.1 h3
    · rename_i t heq
      simp only [List.cons.injEq] at heq
      exact absurd heq.1 h4
    · simp only [digits_value, h1, Bool.false_eq_true, if_false]
      rfl

/-- The strings of a parsed profile, as a list, through the extractor. -/
theorem strings_of_parse (json : cstring) (m : Mem) :
    Config.strings_of (config_parse_json json m).1 (config_parse_json json m).2
      = [(extract_string_value json "version".toList 16).getD "4.0.0".toList,
       (extract_string_value json "description".toList 64).getD "BumbleGum Guitar Controller Configuration".toList,
       (extract_string_value json "lastUpdated".toList 16).getD "2025-08-21".toList,
       (extract_string_value json "device_name".toList 64).getD "Guitar Controller".toList,
       (extract_string_value json "UP".toList 8).getD "GP2".toList,
       (extract_string_value json "DOWN".toList 8).getD "GP3".toList,
       (extract_string_value json "LEFT".toList 8).getD "GP4".toList,
       (extract_string_value json "RIGHT".toList 8).getD "GP5".toList,
       (extract_string_value json "GREEN_FRET".toList 8).getD "GP10".toList,
       (extract_string_value json "RED_FRET".toList 8).getD "GP11".toList,
       (extract_string_value json "YELLOW_FRET".toList 8).getD "GP12".toList,
       (extract_string_value json "BLUE_FRET".toList 8).getD "GP13".toList,
       (extract_string_value json "ORANGE_FRET".toList 8).getD "GP14".toList,
       (extract_string_value json "STRUM_UP".toList 8).getD "GP7".toList,
       (extract_string_value json "STRUM_DOWN".toList 8).getD "GP8".toList,
       (extract_string_value json "TILT".toList 8).getD "GP9".toList,
       (extract_string_value json "SELECT".toList 8).getD "GP0".toList,
       (extract_string_value json "START".toList 8).getD "GP1".toList,
       (extract_string_value json "GUIDE".toList 8).getD "GP6".toList,
       (extract_string_value json "WHAMMY".toList 8).getD "GP27".toList,
       (extract_string_value json "neopixel_pin".toList 8).getD "GP23".toList,
       (extract_string_value json "joystick_x_pin".toList 8).getD "GP28".toList,
       (extract_string_value json "joystick_y_pin".toList 8).getD "GP29".toList,
       (extract_string_value json "hat_mode".toList 16).getD "dpad".toList] := by
  obtain ⟨a1, a2, a3, a4, a5, a6, a7, a8, a9, a10, a11, a12, a13, a14, a15, a16, a17, a18, a19, a20, a21, a22, a23, a24⟩ := config_parse_json_strings json m
  simp only [Config.strings_of, Config.pins, List.map, List.cons_append, List.nil_append,
    a1, a2, a3, a4, a5, a6, a7, a8, a9, a10, a11, a12, a13, a14, a15, a16, a17, a18, a19, a20, a21, a22, a23, a24]

/-- The brightness of a parsed profile, through the extractor. -/
theorem led_brightness_parse (json : cstring) (m : Mem) :
    (config_parse_json json m).2.led_brightness
      = if extract_float_value json "led_brightness".toList ≥ 0
        then extract_float_value json "led_brightness".toList else 1 := by
  unfold config_parse_json
  rfl

/-- The integer and boolean members of a parsed profile, as a tuple. -/
theorem scalars_of_parse (json : cstring) (m : Mem) :
    Config.scalars_of (config_parse_json json m).2
      = ([parse_led json "GREEN_FRET_led" 6, parse_led json "RED_FRET_led" 5,
          parse_led json "YELLOW_FRET_led" 4, parse_led json "BLUE_FRET_led" 3,
          parse_led json "ORANGE_FRET_led" 2, parse_led json "STRUM_UP_led" 0,
          parse_led json "STRUM_DOWN_led" 1, parse_u32 json "whammy_min" 500,
          parse_u32 json "whammy_max" 65000],
         extract_bool_value json "whammy_reverse".toList false,
         extract_bool_value json "tilt_wave_enabled".toList true) := by
  obtain ⟨g1, g2, g3, g4, g5, g6, g7, g8, g9, g10, g11⟩ := Config.config_parse_json_scalars json m
  simp only [Config.scalars_of, g1, g2, g3, g4, g5, g6, g7, g8, g9, g10, g11]

/-- With `whammy_min` given as the quoted string abc, `config_parse_json` stores
`whammy_min` = 0, not the default 500; with the LED index of the green fret
given as the word none it stores `GREEN_FRET_led` = 0, not the default 6. -/
theorem config_parse_json_malformed_not_default :
    (config_parse_json malformed_whammy_json Mem.zero).2.whammy_min = 0 ∧
    (config_parse_json malformed_led_json Mem.zero).2.GREEN_FRET_led = 0 ∧
    find_value malformed_whammy_json "whammy_min".toList
      = some "\"abc\", \"whammy_max\": 60000\x7d".toList ∧
    find_value malformed_led_json "GREEN_FRET_led".toList
      = some "none, \"whammy_min\": 700\x7d".toList := by
  obtain ⟨-, -, -, -, -, -, -, h8, -⟩ := Config.config_parse_json_scalars malformed_whammy_json Mem.zero
  obtain ⟨h1, -⟩ := Config.config_parse_json_scalars malformed_led_json Mem.zero
  exact ⟨h8.trans (by decide), h1.trans (by decide), by decide, by decide⟩

/-- The string extractor returns `NULL` when the text after the key does not open
with a double quote. -/
theorem extract_string_value_unquoted (json key pos : cstring) (size : Nat)
    (h1 : find_value json key = some pos) (h2 : pos.head? ≠ some '"') :
    extract_string_value json key size = none := by
  unfold extract_string_value
  rw [h1]
  cases pos with
  | nil => rfl
  | cons c rest =>
    have hc : c ≠ '"' := by
      intro hc
      apply h2
      rw [hc]
      rfl
    simp only []
    split
    · rename_i r heq
      simp only [List.cons.injEq] at heq
      exact absurd heq.1 hc
    · rfl

/-- The flag extractor returns the default when the text after the key is neither
`true` nor `false`. -/
theorem extract_bool_value_malformed (json key pos : cstring) (d : Bool)
    (h1 : find_value json key = some pos) (h2 : starts_with "true".toList pos = false)
    (h3 : starts_with "false".toList pos = false) :
    extract_bool_value json key d = d := by
  unfold extract_bool_value
  rw [h1]
  simp only [h2, h3, Bool.false_eq_true, if_false]

/-- C24 fails on the code: in `config_parse_json`, when the key of an integer
member (the seven LED indices, `whammy_min`, `whammy_max`) is present and the
text after it, blanks skipped, starts no integer literal (its first character is
neither a digit, nor a sign, nor white space, as for the quoted string abc), the
member takes the value 0 that `atoi` returns and not its default, whereas in the
same function a string member whose value does not open with a double quote
and a flag whose value is neither `true` nor `false` do take their defaults. -/
theorem config_parse_json_malformed_int (json : cstring) (m : Mem) (f : IntMember)
    (pos : cstring) (h1 : find_value json f.key.toList = some pos)
    (h2 : not_numeric pos = true) :
    f.get (config_parse_json json m).2 = 0 ∧
    (∀ (g : StringMember) (p : cstring), find_value json g.key.toList = some p →
      p.head? ≠ some '"' →
      g.get (config_parse_json json m).2 = Ptr.lit g.dflt.toList) ∧
    (∀ p : cstring, find_value json "whammy_reverse".toList = some p →
      starts_with "true".toList p = false → starts_with "false".toList p = false →
      (config_parse_json json m).2.whammy_reverse = false) ∧
    (∀ p : cstring, find_value json "tilt_wave_enabled".toList = some p →
      starts_with "true".toList p = false → starts_with "false".toList p = false →
      (config_parse_json json m).2.tilt_wave_enabled = true) := by
  have hled : ∀ (key : String) (d : Nat), find_value json key.toList = some pos →
      parse_led json key d = 0 := by
    intro key d hk
    unfold parse_led extract_int_value
    rw [hk]
    simp only [atoi_not_numeric pos h2]
    rfl
  have hu32 : ∀ (key : String) (d : Nat), find_value json key.toList = some pos →
      parse_u32 json key d = 0 := by
    intro key d hk
    unfold parse_u32 extract_int_value
    rw [hk]
    simp only [atoi_not_numeric pos h2]
    rfl
  obtain ⟨g1, g2, g3, g4, g5, g6, g7, g8, g9, g10, g11⟩ := Config.config_parse_json_scalars json m
  refine ⟨?_, ?_, ?_, ?_⟩
  · cases f
    · exact g1.trans (hled _ _ h1)
    · exact g2.trans (hled _ _ h1)
    · exact g3.trans (hled _ _ h1)
    · exact g4.trans (hled _ _ h1)
    · exact g5.trans (hled _ _ h1)
    · exact g6.trans (hled _ _ h1)
    · exact g7.trans (hled _ _ h1)
    · exact g8.trans (hu32 _ _ h1)
    · exact g9.trans (hu32 _ _ h1)
  · intro g p hp hq
    obtain ⟨b, size, m1, e⟩ := config_parse_json_pointers json m g
    rw [e]
    unfold parse_string
    rw [extract_string_value_unquoted json g.key.toList p size hp hq]
  · intro p hp ht hf
    exact g10.trans (extract_bool_value_malformed json _ p false hp ht hf)
  · intro p hp ht hf
    exact g11.trans (extract_bool_value_malformed json _ p true hp ht hf)

/-- Failing input for C24: `whammy_min` given as the quoted string abc is stored
as 0, where the default is 500 and the same text with the number 700 gives 700;
in a text with a bare word for the pin `UP`, for `whammy_reverse` and for
`whammy_min`, the pin and the flag take their defaults and `whammy_min` is 0.
A sibling is not always untouched either: with `whammy_min` given as an object
that holds a key `whammy_max`, the member `whammy_max` is read from inside that
object (1, not 60000). -/
theorem config_parse_json_malformed_int_witness :
    ((config_parse_json malformed_whammy_json Mem.zero).2.whammy_min = 0 ∧
      IntMember.whammy_min.dflt = 500 ∧
      (config_parse_json wellformed_whammy_json Mem.zero).2.whammy_min = 700) ∧
    ((config_parse_json malformed_others_json Mem.zero).2.UP = Ptr.lit "GP2".toList ∧
      (config_parse_json malformed_others_json Mem.zero).2.whammy_reverse = false ∧
      (config_parse_json malformed_others_json Mem.zero).2.whammy_min = 0) ∧
    ((config_parse_json nested_whammy_json Mem.zero).2.whammy_min = 0 ∧
      (config_parse_json nested_whammy_json Mem.zero).2.whammy_max = 1 ∧
      (config_parse_json flat_whammy_json Mem.zero).2.whammy_max = 60000) :=
  ⟨⟨(config_parse_json_malformed_int malformed_whammy_json Mem.zero .whammy_min
        "\"abc\", \"whammy_max\": 60000\x7d".toList (by decide) (by decide)).1,
      rfl,
      ((Config.config_parse_json_scalars wellformed_whammy_json Mem.zero).2.2.2.2.2.2.2.1).trans
        (by decide)⟩,
   ⟨(config_parse_json_malformed_int malformed_others_json Mem.zero .whammy_min
        "none\x7d".toList (by decide) (by decide)).2.1 .UP
        "GP9, \"whammy_reverse\": yes, \"whammy_min\": none\x7d".toList (by decide) (by decide),
      (config_parse_json_malformed_int malformed_others_json Mem.zero .whammy_min
        "none\x7d".toList (by decide) (by decide)).2.2.1
        "yes, \"whammy_min\": none\x7d".toList (by decide) (by decide) (by decide),
      (config_parse_json_malformed_int malformed_others_json Mem.zero .whammy_min
        "none\x7d".toList (by decide) (by decide)).1⟩,
   ⟨((Config.config_parse_json_scalars nested_whammy_json Mem.zero).2.2.2.2.2.2.2.1).trans
        (by decide),
      ((Config.config_parse_json_scalars nested_whammy_json Mem.zero).2.2.2.2.2.2.2.2.1).trans
        (by decide),
      ((Config.config_parse_json_scalars flat_whammy_json Mem.zero).2.2.2.2.2.2.2.2.1).trans
        (by decide)⟩⟩

end ConfigStorage

/-! ## Theorems: checksum and storage round trip (`config_storage.c`) -/

namespace ConfigStorage

open Libc

set_option maxRecDepth 1000000 in
/-- C25, as stated, fails: `config_storage_calculate_crc32` runs the loop of the
reflected algorithm (shift right by 8, index by the low byte) over a table that
belongs to the unreflected one (its entries are those of the polynomial
0x04C11DB7 shifted left; entry 1 is 0x04C11DB7 where the table of the reflected
polynomial 0xEDB88320 has 0x77073096), so the result is not the standard CRC-32:
for the nine ASCII bytes 123456789 it is 0x7EAD5C77, the standard value is
0xCBF43926. -/
theorem crc32_not_standard :
    config_storage_calculate_crc32 "123456789".toList 9 = 0x7EAD5C77 ∧
    crc32_standard "123456789".toList = 0xCBF43926 ∧
    config_storage_calculate_crc32 "123456789".toList 9 ≠ crc32_standard "123456789".toList ∧
    crc32_table = (List.range 256).map crc32_msb_entry ∧
    crc32_table.getD 1 0 = 0x04C11DB7 ∧
    crc32_standard_entry 1 = 0x77073096 ∧
    (List.range 256).filter (fun i => crc32_table.getD i 0 == crc32_standard_entry i) = [0] := by
  refine ⟨by decide, by decide, by decide, by decide, by decide, by decide, by decide⟩

/-- The image prepared from the first `json_size` bytes is the image prepared
from those bytes alone. -/
theorem flash_image_take (json_data : List Char) (json_size : Nat)
    (h : json_size ≤ json_data.length) :
    flash_image json_data json_size
      = flash_image (json_data.take json_size) (json_data.take json_size).length := by
  have hl : (json_data.take json_size).length = json_size := by
    rw [List.length_take]
    omega
  unfold flash_image config_storage_calculate_crc32
  rw [hl, List.take_take, Nat.min_self]

/-- The C string view of `config_storage_get_json` is the byte view cut at the
first NUL. -/
theorem config_storage_get_json_of_bytes (flash_config : config_storage_t) (buffer_size : Nat) :
    config_storage_get_json flash_config buffer_size
      = (config_storage_get_json_bytes flash_config buffer_size).buffer.map
          (fun bytes => bytes.takeWhile (fun c => c != Char.ofNat 0)) := by
  unfold config_storage_get_json config_storage_get_json_bytes
  split_ifs with h1 h2
  · rfl
  · rfl
  · simp only [Option.map_some']
    congr 1
    generalize flash_config.json_data.take flash_config.header.json_size = l
    induction l with
    | nil => rfl
    | cons a t ih =>
      simp only [List.cons_append, List.takeWhile_cons]
      split
      · rw [ih]
      · rfl

/-- C26: for every payload of n bytes with 1 <= n <= 2048, on a flash whose
erase and program store the bytes given, `config_storage_save_to_flash` returns
`true`; afterwards `config_storage_is_valid` holds and
`config_storage_get_json` with a buffer of at least n + 1 bytes returns `true`,
stores n through `actual_size` and fills the buffer with exactly the n payload
bytes and a NUL. For every n > 2048 the function returns `false` and leaves the
flash as it was, whatever the device does. -/
theorem config_storage_round_trip (json_data : List Char) (json_size buffer_size : Nat)
    (flash : config_storage_t)
    (h1 : 1 ≤ json_size) (h2 : json_size ≤ 2048) (h3 : json_size ≤ json_data.length)
    (h4 : json_size + 1 ≤ buffer_size) :
    (config_storage_save_to_flash id json_data json_size flash).1 = true ∧
    config_storage_is_valid (config_storage_save_to_flash id json_data json_size flash).2 = true ∧
    config_storage_get_json_bytes (config_storage_save_to_flash id json_data json_size flash).2
        buffer_size
      = { result := true, actual_size := some json_size,
          buffer := some (json_data.take json_size ++ [Char.ofNat 0]) } ∧
    (∀ (dev : FlashDevice) (n : Nat), 2048 < n →
      config_storage_save_to_flash dev json_data n flash = (false, flash)) := by
  have hl : (json_data.take json_size).length = json_size := by
    rw [List.length_take]
    omega
  have hv : config_storage_is_valid (flash_image json_data json_size) = true := by
    rw [flash_image_take json_data json_size h3]
    exact flash_image_valid _ (by omega) (by rw [hl]; exact h2)
  have hs : config_storage_save_to_flash id json_data json_size flash
      = (true, flash_image json_data json_size) := by
    unfold config_storage_save_to_flash
    rw [if_neg (by unfold CONFIG_JSON_MAX_SIZE; omega)]
    simp only [id, hv, Bool.not_true, Bool.false_eq_true, if_false]
  rw [hs]
  refine ⟨rfl, hv, ?_, ?_⟩
  · unfold config_storage_get_json_bytes
    simp only [hv, Bool.not_true, Bool.false_eq_true, if_false]
    have e : (flash_image json_data json_size).header.json_size = json_size := rfl
    rw [e, if_neg (by omega)]
    have hd : (flash_image json_data json_size).json_data.take json_size
        = json_data.take json_size := by
      simp only [flash_image]
      rw [List.take_append_of_le_length (by rw [hl]), List.take_take, Nat.min_self]
    rw [hd]
  · intro dev n hn
    unfold config_storage_save_to_flash
    rw [if_pos (by unfold CONFIG_JSON_MAX_SIZE; omega)]

/-- Witness for C26: the two bytes of the empty object, saved over an erased
sector and read back into a 3-byte buffer. -/
theorem config_storage_round_trip_witness :
    config_storage_get_json_bytes
        (config_storage_save_to_flash id empty_json 2 Config.erased_flash).2 3
      = { result := true, actual_size := some 2,
          buffer := some (empty_json ++ [Char.ofNat 0]) } :=
  (config_storage_round_trip empty_json 2 3 Config.erased_flash (by decide) (by decide)
    (by decide) (by decide)).2.2.1

end ConfigStorage

/-! ## Theorems: fallback of `config_init` and LED indices (`config.c`) -/

namespace Config

open Libc ConfigStorage

set_option maxRecDepth 1000000 in
/-- The text `config_generate_json` formats for `default_config` has 1074
characters, whatever the static buffers hold. -/
theorem default_config_text_length (m : Mem) :
    (config_json_text m default_config).length = 1074 := by
  have e : config_json_text m default_config = config_json_text Mem.zero default_config := rfl
  rw [e]
  decide

/-- C27, as stated, fails: the text generated for `default_config` has 1074
characters, which does not fit the 1024-byte buffer of the fallback path of
`config_init`, so `config_generate_json` returns `false` there (it would
return `true` with a buffer of 1075 bytes); when the load from flash fails,
`config_init` takes `default_config` and performs no further flash write: the
sector is as `config_storage_init` left it. -/
theorem config_init_fallback_not_persisted (dev1 dev2 : FlashDevice) (s : State)
    (h0 : (config_storage_load_from_flash (config_storage_init dev1 s.flash).2 s.statics).isSome
      = false) :
    config_generate_json s.statics default_config 1024 = none ∧
    (config_generate_json s.statics default_config 1075).isSome = true ∧
    (config_init dev1 dev2 s).device_config = default_config ∧
    (config_init dev1 dev2 s).flash = (config_storage_init dev1 s.flash).2 := by
  have h : config_storage_load_from_flash (config_storage_init dev1 s.flash).2 s.statics = none := by
    cases hx : config_storage_load_from_flash (config_storage_init dev1 s.flash).2 s.statics with
    | none => rfl
    | some v => rw [hx] at h0; cases h0
  have hlen := default_config_text_length s.statics
  have hg : config_generate_json s.statics default_config 1024 = none := by
    unfold config_generate_json
    simp only [hlen]
    rfl
  have hg2 : (config_generate_json s.statics default_config 1075).isSome = true := by
    unfold config_generate_json
    simp only [hlen]
    rfl
  refine ⟨hg, hg2, ?_, ?_⟩
  · unfold config_init
    simp only [h, hg]
  · unfold config_init
    simp only [h, hg]

set_option maxRecDepth 1000000 in
/-- Failing input for C27: first boot on a flash that cannot be programmed. The
second device, which would store what it is given, is never used: the sector
still reads erased. -/
theorem config_init_fallback_not_persisted_witness :
    (config_init dead_flash id first_boot).flash = erased_flash :=
  (config_init_fallback_not_persisted dead_flash id first_boot (by decide)).2.2.2

set_option maxRecDepth 1000000 in
/-- C28, as stated, fails: `config_parse_json` stores an LED index through the
cast `(uint8_t)val`, so the index 262 is stored as 6 and the index 256 as 0;
`config_validate` then sees a value in 0..6 and accepts the profile, and on a
flash that works `config_update_from_json` returns `true` and makes the profile
the active one. -/
theorem led_index_reduced_mod_256 :
    (config_parse_json led_262_json booted.statics).2.GREEN_FRET_led = 6 ∧
    config_validate (config_parse_json led_262_json booted.statics).1
      (config_parse_json led_262_json booted.statics).2 = true ∧
    (config_update_from_json id led_262_json booted).1 = true ∧
    (config_update_from_json id led_262_json booted).2.device_config.GREEN_FRET_led = 6 ∧
    (config_parse_json led_256_json booted.statics).2.GREEN_FRET_led = 0 ∧
    (config_update_from_json id led_256_json booted).1 = true ∧
    (config_update_from_json id led_256_json booted).2.device_config.GREEN_FRET_led = 0 ∧
    (∀ (json : cstring) (m : Mem), (config_parse_json json m).2.GREEN_FRET_led < 256) := by
  rw [booted_eq]
  refine ⟨by decide, by decide, by decide, by decide, by decide, by decide, by decide, ?_⟩
  intro json m
  rw [(config_parse_json_scalars json m).1]
  unfold parse_led
  simp only []
  split
  · exact Nat.mod_lt _ (by norm_num)
  · norm_num

end Config

/-! ## Theorems: tilt debounce, settle and latency (`main.cpp`, `main_unified.cpp`, `main_hid.cpp`) -/

namespace Main

open CArith

/-- The difference of two millisecond times in `uint32_t`, without wrap. -/
theorem to_u32_time_diff (now t0 : Nat) (h1 : t0 ≤ now) (h2 : now < 4294967296) :
    to_u32 ((now : Int) - t0) = now - t0 := by
  unfold to_u32
  omega

/-- C21, as stated, fails: from the initial statics, with the line released at
1000 ms and 1040 ms and tilted in the single sample at 1080 ms, the reported
value becomes tilted at 1080 ms, although the line read released 40 ms before;
it still reads tilted at 1120 ms and 1125 ms, when the line is released again. -/
theorem tilt_debounce_latches_glitch :
    tilt_trace Globals.zero.tilt_debounce_time Globals.zero.tilt_last_state glitch_samples
      = [(1000, false), (1040, false), (1080, true), (1120, true), (1125, true)] := by
  decide

/-- C21, amended: in the tilt debounce of `main.cpp` (times without counter
wrap), the reported value takes a new level exactly at a call in which the raw
line reads a level other than the last stable one and more than 50 ms have
passed since `tilt_debounce_time`, the time of the last accepted change (0 at
start); the new level is then stored with the time of the call. In every other
call the last stable level is reported and the statics are unchanged. No earlier
sample of the line is looked at: one differing sample more than 50 ms after the
last accepted change changes the reported value at once. -/
theorem tilt_debounce_accepts_after_lockout (now tilt_debounce_time : Nat)
    (tilt_raw tilt_last_state : Bool)
    (h1 : tilt_debounce_time ≤ now) (h2 : now < 4294967296) :
    (tilt_raw ≠ tilt_last_state ∧ tilt_debounce_time + 50 < now →
      tilt_debounce now tilt_raw tilt_debounce_time tilt_last_state
        = { tilt_active := tilt_raw, tilt_debounce_time := now, tilt_last_state := tilt_raw }) ∧
    (¬ (tilt_raw ≠ tilt_last_state ∧ tilt_debounce_time + 50 < now) →
      tilt_debounce now tilt_raw tilt_debounce_time tilt_last_state
        = { tilt_active := tilt_last_state, tilt_debounce_time := tilt_debounce_time,
            tilt_last_state := tilt_last_state }) ∧
    ((tilt_debounce now tilt_raw tilt_debounce_time tilt_last_state).tilt_active ≠ tilt_last_state
      ↔ (tilt_raw ≠ tilt_last_state ∧ tilt_debounce_time + 50 < now)) := by
  have hu := to_u32_time_diff now tilt_debounce_time h1 h2
  have a : tilt_raw ≠ tilt_last_state ∧ tilt_debounce_time + 50 < now →
      tilt_debounce now tilt_raw tilt_debounce_time tilt_last_state
        = { tilt_active := tilt_raw, tilt_debounce_time := now, tilt_last_state := tilt_raw } := by
    intro h
    unfold tilt_debounce
    simp only [hu]
    rw [if_pos (by simpa using h.1), if_pos (by omega)]
  have b : ¬ (tilt_raw ≠ tilt_last_state ∧ tilt_debounce_time + 50 < now) →
      tilt_debounce now tilt_raw tilt_debounce_time tilt_last_state
        = { tilt_active := tilt_last_state, tilt_debounce_time := tilt_debounce_time,
            tilt_last_state := tilt_last_state } := by
    intro h
    unfold tilt_debounce
    simp only [hu]
    by_cases hr : tilt_raw = tilt_last_state
    · rw [if_neg (by simp [hr])]
    · rw [if_pos (by simpa using hr), if_neg (by
        intro hgt
        exact h ⟨hr, by omega⟩)]
  refine ⟨a, b, ?_⟩
  constructor
  · intro hne
    by_contra hc
    rw [b hc] at hne
    exact hne rfl
  · intro h
    rw [a h]
    exact h.1

/-- Witness for the amended C21: the single tilted sample at 1080 ms, with the
statics of the start. -/
theorem tilt_debounce_accepts_after_lockout_witness :
    tilt_debounce 1080 true 0 false
      = { tilt_active := true, tilt_debounce_time := 1080, tilt_last_state := true } :=
  (tilt_debounce_accepts_after_lockout 1080 0 true false (by decide) (by decide)).1
    ⟨by decide, by decide⟩

end Main

namespace MainUnified

open CArith Main

/-- While the raw line keeps a level other than the last stable one and the
calls come at most 50 ms apart, starting at most 50 ms after
`tilt_debounce_time`, the block of `main_unified.cpp` never takes the level
over. -/
theorem unified_tilt_never_accepts (samples : List TiltSample) :
    ∀ (tilt_debounce_time : Nat) (tilt_last_state : Bool),
      (∀ s ∈ samples, s.tilt_raw = !tilt_last_state) →
      List.Chain (fun a b => a ≤ b ∧ b ≤ a + 50) tilt_debounce_time
        (samples.map (fun s => s.now)) →
      (∀ s ∈ samples, s.now < 4294967296) →
      (tilt_trace_with tilt_debounce tilt_debounce_time tilt_last_state samples).map Prod.snd
        = List.replicate samples.length tilt_last_state := by
  induction samples with
  | nil =>
    intro _ _ _ _ _
    rfl
  | cons s rest ih =>
    intro t0 l0 hraw hchain hb
    have hs : s.tilt_raw = !l0 := hraw s (List.mem_cons_self _ _)
    have hbs : s.now < 4294967296 := hb s (List.mem_cons_self _ _)
    simp only [List.map_cons, List.chain_cons] at hchain
    obtain ⟨⟨h1, h2⟩, hrest⟩ := hchain
    have hu := Main.to_u32_time_diff s.now t0 h1 hbs
    have e : tilt_debounce s.now s.tilt_raw t0 l0
        = { tilt_active := l0, tilt_debounce_time := s.now, tilt_last_state := l0 } := by
      unfold tilt_debounce
      simp only [hu]
      rw [if_pos (by rw [hs]; cases l0 <;> rfl), if_neg (by omega)]
    simp only [tilt_trace_with, e, List.map_cons, List.length_cons, List.replicate_succ]
    rw [ih s.now l0 (fun x hx => hraw x (List.mem_cons_of_mem _ hx)) hrest
      (fun x hx => hb x (List.mem_cons_of_mem _ hx))]

end MainUnified

namespace MainHid

open CArith Main

/-- The block of `main_hid.cpp` behaves in the same way. -/
theorem hid_tilt_never_accepts (samples : List TiltSample) :
    ∀ (tilt_debounce_time : Nat) (tilt_last_state : Bool),
      (∀ s ∈ samples, s.tilt_raw = !tilt_last_state) →
      List.Chain (fun a b => a ≤ b ∧ b ≤ a + 50) tilt_debounce_time
        (samples.map (fun s => s.now)) →
      (∀ s ∈ samples, s.now < 4294967296) →
      (tilt_trace_with tilt_debounce tilt_debounce_time tilt_last_state samples).map Prod.snd
        = List.replicate samples.length tilt_last_state := by
  induction samples with
  | nil =>
    intro _ _ _ _ _
    rfl
  | cons s rest ih =>
    intro t0 l0 hraw hchain hb
    have hs : s.tilt_raw = !l0 := hraw s (List.mem_cons_self _ _)
    have hbs : s.now < 4294967296 := hb s (List.mem_cons_self _ _)
    simp only [List.map_cons, List.chain_cons] at hchain
    obtain ⟨⟨h1, h2⟩, hrest⟩ := hchain
    have hu := Main.to_u32_time_diff s.now t0 h1 hbs
    have e : tilt_debounce s.now s.tilt_raw t0 l0
        = { tilt_active := l0, tilt_debounce_time := s.now, tilt_last_state := l0 } := by
      unfold tilt_debounce
      simp only [hu]
      rw [if_pos (by rw [hs]; cases l0 <;> rfl), if_neg (by omega)]
    simp only [tilt_trace_with, e, List.map_cons, List.length_cons, List.replicate_succ]
    rw [ih s.now l0 (fun x hx => hraw x (List.mem_cons_of_mem _ hx)) hrest
      (fun x hx => hb x (List.mem_cons_of_mem _ hx))]

/-- C22, as stated, fails: in the tilt debounce of `main_unified.cpp` and of
`main_hid.cpp`, once a differing raw level has been refused (the call came
within 50 ms of `tilt_debounce_time`), it is refused for as long as the line
keeps that level and the calls come at most 50 ms apart, since every refusal
moves `tilt_debounce_time` to the time of the call: a sustained transition that
starts less than 50 ms after the previous accepted change is never reported. -/
theorem tilt_sustained_change_never_reported (samples : List TiltSample)
    (tilt_debounce_time : Nat) (tilt_last_state : Bool)
    (h_raw : ∀ s ∈ samples, s.tilt_raw = !tilt_last_state)
    (h_gap : List.Chain (fun a b => a ≤ b ∧ b ≤ a + 50) tilt_debounce_time
      (samples.map (fun s => s.now)))
    (h_nowrap : ∀ s ∈ samples, s.now < 4294967296) :
    (tilt_trace_with MainUnified.tilt_debounce tilt_debounce_time tilt_last_state samples).map
        Prod.snd = List.replicate samples.length tilt_last_state ∧
    (tilt_trace_with MainHid.tilt_debounce tilt_debounce_time tilt_last_state samples).map
        Prod.snd = List.replicate samples.length tilt_last_state :=
  ⟨MainUnified.unified_tilt_never_accepts samples tilt_debounce_time tilt_last_state h_raw h_gap
      h_nowrap,
   hid_tilt_never_accepts samples tilt_debounce_time tilt_last_state h_raw h_gap h_nowrap⟩

/-- Failing input for C22: tilted at 100 ms (accepted), released from 120 ms on
and sampled every 40 ms. Both experimental builds report tilted in every call;
the block of `main.cpp`, on the same samples, reports released from 160 ms on. -/
theorem tilt_sustained_change_never_reported_witness :
    ((tilt_trace_with MainUnified.tilt_debounce 100 true (release_samples.drop 1)).map Prod.snd
        = List.replicate 5 true ∧
      (tilt_trace_with MainHid.tilt_debounce 100 true (release_samples.drop 1)).map Prod.snd
        = List.replicate 5 true) ∧
    tilt_trace_with MainUnified.tilt_debounce 0 false release_samples
      = [(100, true), (120, true), (160, true), (200, true), (240, true), (280, true)] ∧
    tilt_trace_with MainHid.tilt_debounce 0 false release_samples
      = [(100, true), (120, true), (160, true), (200, true), (240, true), (280, true)] ∧
    tilt_trace 0 false release_samples
      = [(100, true), (120, true), (160, false), (200, false), (240, false), (280, false)] :=
  ⟨tilt_sustained_change_never_reported (release_samples.drop 1) 100 true (by decide)
      (by simp [release_samples]) (by decide),
   by decide, by decide, by decide⟩

end MainHid

/-! ## Theorems: whammy channel and stick value (`main.cpp`) -/

namespace Main

open Libc ConfigStorage Config CArith

/-- The channel `read_guitar_buttons` selects for the whammy reading is
`whammy_adc_channel`. -/
theorem read_guitar_buttons_whammy (m : Mem) (device_config : config_t) (env : Env) (g : Globals) :
    (read_guitar_buttons m device_config env g).whammy_value
      = to_u16 ((to_u32 ((to_u16 (env.adc_read_whammy (whammy_adc_channel m device_config)) : Int)
          * 255) / 4095 : Nat)) :=
  rfl

/-- C29, as stated, fails: `config_validate` accepts every whammy pin from `GP0`
to `GP29`, and for a pin below `GP26` the 8-bit difference
`config_get_whammy_pin() - 26` wraps to 230 + pin, which is not one of the ADC
channels 0..3; for `GP5` the channel is 235. For the pins `GP26` to `GP29` the
channel is 0 to 3. -/
theorem whammy_adc_channel_wraps :
    (∀ pin, pin < 26 →
      config_validate Mem.zero (whammy_pin_config pin) = true ∧
      whammy_adc_channel Mem.zero (whammy_pin_config pin) = 230 + pin) ∧
    (∀ pin, 26 ≤ pin → pin < 30 →
      config_validate Mem.zero (whammy_pin_config pin) = true ∧
      whammy_adc_channel Mem.zero (whammy_pin_config pin) = pin - 26) ∧
    config_validate Mem.zero (whammy_pin_config 5) = true ∧
    (whammy_pin_config 5).WHAMMY.read Mem.zero = "GP5".toList ∧
    whammy_adc_channel Mem.zero (whammy_pin_config 5) = 235 := by
  refine ⟨?_, ?_, by decide, by decide, by decide⟩
  · intro pin h
    interval_cases pin <;> exact ⟨by decide, by decide⟩
  · intro pin h1 h2
    interval_cases pin <;> exact ⟨by decide, by decide⟩

/-- The 8-bit whammy value of a 12-bit reading. -/
theorem whammy_value_12bit (r : Nat) (h : r ≤ 4095) :
    to_u16 ((to_u32 ((to_u16 (r : Int) : Int) * 255) / 4095 : Nat)) = 255 * r / 4095 ∧
    255 * r / 4095 ≤ 255 := by
  have h1 : to_u16 (r : Int) = r := by
    unfold to_u16
    omega
  have h2 : to_u32 ((r : Int) * 255) = r * 255 := by
    unfold to_u32
    omega
  have h3 : 255 * r / 4095 ≤ 255 := by
    apply Nat.div_le_of_le_mul
    omega
  rw [h1, h2, Nat.mul_comm r 255]
  refine ⟨?_, h3⟩
  generalize 255 * r / 4095 = q at h3
  unfold to_u16
  omega

/-- The stick value of an 8-bit whammy value: the two 16-bit conversions cancel. -/
theorem whammy_stick_of_value (v : Nat) (h : v ≤ 255) :
    to_i16 (to_i16 ((to_u32 ((v : Int) * 65535) / 255 : Nat)) - 32768) = 257 * (v : Int) - 32768 := by
  have h1 : to_u32 ((v : Int) * 65535) = v * 65535 := by
    unfold to_u32
    omega
  have h2 : v * 65535 / 255 = 257 * v := by
    have : v * 65535 = 255 * (257 * v) := by ring
    rw [this, Nat.mul_div_cancel_left _ (by norm_num : 0 < 255)]
  rw [h1, h2]
  unfold to_i16
  push_cast
  omega

/-- C30: for every 12-bit reading r in 0..4095, `read_guitar_buttons` of
`main.cpp` sets the right-stick X value to 257 * floor(255 * r / 4095) - 32768,
a value within the signed 16-bit range, although the cast to `int16_t` is
applied to the quotient before 32768 is subtracted; the value is -32768 at
r = 0, 32767 at r = 4095 and non-decreasing in r. -/
theorem whammy_stick_value_exact (m : Mem) (g : Globals) (r r2 : Nat)
    (h : r ≤ 4095) (h2 : r2 ≤ 4095) :
    whammy_stick m g r = 257 * ((255 * r / 4095 : Nat) : Int) - 32768 ∧
    -32768 ≤ whammy_stick m g r ∧ whammy_stick m g r ≤ 32767 ∧
    whammy_stick m g 0 = -32768 ∧
    whammy_stick m g 4095 = 32767 ∧
    (r ≤ r2 → whammy_stick m g r ≤ whammy_stick m g r2) := by
  have key : ∀ x : Nat, x ≤ 4095 →
      whammy_stick m g x = 257 * ((255 * x / 4095 : Nat) : Int) - 32768 := by
    intro x hx
    obtain ⟨e1, e2⟩ := whammy_value_12bit x hx
    have e3 := whammy_stick_of_value (255 * x / 4095) e2
    unfold whammy_stick read_guitar_buttons whammy_env
    simp only []
    rw [e1]
    exact e3
  have hq := (whammy_value_12bit r h).2
  refine ⟨key r h, ?_, ?_, ?_, ?_, ?_⟩
  · rw [key r h]
    omega
  · rw [key r h]
    omega
  · rw [key 0 (by omega)]
    rfl
  · rw [key 4095 (by omega)]
    rfl
  · intro hle
    rw [key r h, key r2 h2]
    have : 255 * r / 4095 ≤ 255 * r2 / 4095 := Nat.div_le_div_right (by omega)
    omega

/-- Witness for C30: the mid-scale reading 2048 gives 127 * 257 - 32768 = -129. -/
theorem whammy_stick_value_exact_witness :
    whammy_stick Mem.zero Globals.zero 2048 = -129 :=
  (whammy_stick_value_exact Mem.zero Globals.zero 2048 4095 (by decide) (by decide)).1

end Main
